import Mathlib

/-!
# wolfcrypt-jni: native glue for AES, ECC, HMAC

A shallow embedding of the JNI entry points of `jni_aes.c`, `jni_ecc.c` and
`jni_hmac.c`.  Every entry point becomes a pure function from

* the Java arguments (32-bit `jint`s are `Int`s, casts to `word32` are
  explicit reductions modulo `2^32`),
* what the helper routines of `wolfcrypt_jni_NativeStruct.h` handed back
  (`getNativeStruct`, `getByteArray`, `getByteArrayLength`,
  `getDirectBufferAddress`, `getDirectBufferLimit`), and
* the wolfCrypt primitives, passed in as functions,

to a record holding the returned value, the exceptions thrown (in order) and
the primitive invocations performed (in order).
-/

namespace WolfJni

/-! ## Constants of the wolfCrypt headers -/

/-- Error code `BAD_FUNC_ARG` of `wolfssl/wolfcrypt/error-crypt.h`. -/
def BAD_FUNC_ARG : Int := -173

/-- Error code `BUFFER_E` of `wolfssl/wolfcrypt/error-crypt.h`. -/
def BUFFER_E : Int := -132

/-- Error code `MEMORY_E` of `wolfssl/wolfcrypt/error-crypt.h`. -/
def MEMORY_E : Int := -125

/-- Direction constant `AES_ENCRYPTION` of `wolfssl/wolfcrypt/aes.h`. -/
def AES_ENCRYPTION : Int := 0

/-! ## Machine integers and JNI values -/

/-- A byte of a buffer. -/
abbrev Byte := Nat

/-- The C cast `(word32) x` of a signed value. -/
def toWord32 (x : Int) : Nat := (x % 4294967296).toNat

/-- Range of a Java `int` (`jint`). -/
def isJint (x : Int) : Prop := -2147483648 ≤ x ∧ x < 2147483648

instance (x : Int) : Decidable (isJint x) := by
  unfold isJint
  exact inferInstance

/-- One exception raised during a native call. -/
inductive JniThrow where
  /-- An exception raised inside `getNativeStruct`. -/
  | nativeStruct : JniThrow
  /-- The call `throwWolfCryptExceptionFromError(env, code)`. -/
  | fromError (code : Int) : JniThrow
  /-- The call `throwWolfCryptException(env, msg)`. -/
  | message (msg : String) : JniThrow
  /-- The `OutOfMemoryError` that `NewByteArray` leaves pending when it
  returns `NULL`. -/
  | outOfMemory : JniThrow
  deriving DecidableEq, Repr

/-- What `getNativeStruct(env, obj)` handed back: the native pointer (`none`
is `NULL`) and whether `ExceptionOccurred` is set afterwards. -/
structure NativeStruct (α : Type) where
  ptr : Option α
  threw : Bool
  deriving DecidableEq, Repr

/-- A Java `byte[]` argument as the glue sees it: `elements` is what
`getByteArray` returned (`none` is `NULL`), `length` what
`getByteArrayLength` returned. -/
structure JByteArray where
  elements : Option (List Byte)
  length : Nat
  deriving DecidableEq, Repr

/-- A direct `ByteBuffer` argument as the glue sees it: `address` is what
`getDirectBufferAddress` returned (`none` is `NULL`), `limit` what
`getDirectBufferLimit` returned. -/
structure JDirectBuffer where
  address : Option (List Byte)
  limit : Nat
  deriving DecidableEq, Repr

/-! ## jni_aes.c -/

/-- One invocation of `wc_AesCbcEncrypt` / `wc_AesCbcDecrypt`: the context,
the `out` and `in` pointers as offsets from the start of the output and input
buffer, and the byte count. -/
structure AesCbcCall (Aes : Type) where
  encrypt : Bool
  aes : Aes
  outOff : Int
  inOff : Int
  sz : Nat
  deriving DecidableEq, Repr

/-- The two cipher primitives; each returns its status code. -/
structure AesPrims (Aes : Type) where
  wc_AesCbcEncrypt : Aes → Int → Int → Nat → Int
  wc_AesCbcDecrypt : Aes → Int → Int → Nat → Int

/-- Outcome of an AES update call. -/
structure AesUpdateResult (Aes : Type) where
  ret : Int
  thrown : List JniThrow
  calls : List (AesCbcCall Aes)
  deriving DecidableEq, Repr

/-- Value of the local `ret` after the if-chain of the `byte[]` update
(lines 123-146), together with the primitive invocations made. -/
def aesBytesStatus {Aes : Type} (P : AesPrims Aes) (aes : Option Aes)
    (opmode : Int) (input : JByteArray) (offset length : Int)
    (output : JByteArray) (outputOffset : Int) : Int × List (AesCbcCall Aes) :=
  match aes, input.elements, output.elements with
  | some a, some _, some _ =>
    if offset < 0 ∨ length < 0 ∨ outputOffset < 0 then
      (BAD_FUNC_ARG, [])
    else if length = 0 then
      (0, [])
    else if toWord32 (offset + length) > input.length then
      (BUFFER_E, [])
    else if toWord32 (outputOffset + length) > output.length then
      (BUFFER_E, [])
    else if opmode = AES_ENCRYPTION then
      (P.wc_AesCbcEncrypt a outputOffset offset (toWord32 length),
        [⟨true, a, outputOffset, offset, toWord32 length⟩])
    else
      (P.wc_AesCbcDecrypt a outputOffset offset (toWord32 length),
        [⟨false, a, outputOffset, offset, toWord32 length⟩])
  | _, _, _ => (BAD_FUNC_ARG, [])

/-- Tail shared by both update variants (lines 156-162 and 215-221): an
exception for a non-zero status and 0 returned, else `length` returned. -/
def aesFinish {Aes : Type} (length : Int) (r : Int × List (AesCbcCall Aes)) :
    AesUpdateResult Aes :=
  if r.1 ≠ 0 then
    { ret := 0, thrown := [JniThrow.fromError r.1], calls := r.2 }
  else
    { ret := length, thrown := [], calls := r.2 }

/-- The `byte[]` variant of `Aes.native_update_internal` (build with AES). -/
def Java_com_wolfssl_wolfcrypt_Aes_native_1update_1internal__I_3BII_3BI
    {Aes : Type} (P : AesPrims Aes) (this : NativeStruct Aes) (opmode : Int)
    (input_object : JByteArray) (offset length : Int)
    (output_object : JByteArray) (outputOffset : Int) : AesUpdateResult Aes :=
  if this.threw then
    { ret := 0, thrown := [JniThrow.nativeStruct], calls := [] }
  else
    aesFinish length
      (aesBytesStatus P this.ptr opmode input_object offset length
        output_object outputOffset)

/-- Value of the local `ret` after the if-chain of the direct `ByteBuffer`
update (lines 192-213), together with the primitive invocations made. -/
def aesDirectStatus {Aes : Type} (P : AesPrims Aes) (aes : Option Aes)
    (opmode : Int) (input : JDirectBuffer) (offset length : Int)
    (output : JDirectBuffer) (outputOffset : Int) :
    Int × List (AesCbcCall Aes) :=
  match aes, input.address, output.address with
  | some a, some _, some _ =>
    if offset < 0 ∨ length < 0 then
      (BAD_FUNC_ARG, [])
    else if toWord32 (offset + length) > input.limit then
      (BUFFER_E, [])
    else if toWord32 (outputOffset + length) > output.limit then
      (BUFFER_E, [])
    else if opmode = AES_ENCRYPTION then
      (P.wc_AesCbcEncrypt a 0 offset (toWord32 length),
        [⟨true, a, 0, offset, toWord32 length⟩])
    else
      (P.wc_AesCbcDecrypt a 0 offset (toWord32 length),
        [⟨false, a, 0, offset, toWord32 length⟩])
  | _, _, _ => (BAD_FUNC_ARG, [])

/-- The direct `ByteBuffer` variant of `Aes.native_update_internal` (build
with AES). -/
def Java_com_wolfssl_wolfcrypt_Aes_native_1update_1internal__ILjava_nio_ByteBuffer_2IILjava_nio_ByteBuffer_2I
    {Aes : Type} (P : AesPrims Aes) (this : NativeStruct Aes) (opmode : Int)
    (input_object : JDirectBuffer) (offset length : Int)
    (output_object : JDirectBuffer) (outputOffset : Int) :
    AesUpdateResult Aes :=
  if this.threw then
    { ret := 0, thrown := [JniThrow.nativeStruct], calls := [] }
  else
    aesFinish length
      (aesDirectStatus P this.ptr opmode input_object offset length
        output_object outputOffset)

/-! ## Buffers handed to primitives and arrays handed back to Java -/

/-- Contents of a buffer after a primitive stored `written` at its start: the
buffer keeps its size. -/
def store (buf written : List Byte) : List Byte :=
  (written ++ buf.drop written.length).take buf.length

/-- The pair `NewByteArray(env, n)`, `SetByteArrayRegion(env, result, 0, n,
src)`: a fresh array of exactly `n` bytes holding `src[0..n)`.  Bytes read
past the end of `src` are unspecified in C and appear as 0. -/
def newArrayFrom (n : Nat) (src : List Byte) : List Byte :=
  src.take n ++ List.replicate (n - src.length) 0

/-- The allocators a call depends on: whether `XMALLOC(n)` and
`NewByteArray(env, n)` succeed.  A failing `XMALLOC` returns `NULL`; a failing
`NewByteArray` returns `NULL` and leaves `JniThrow.outOfMemory` pending. -/
structure Allocators where
  xmalloc : Nat → Bool
  newByteArray : Nat → Bool

/-! ## jni_ecc.c: signHash and verifyHash -/

/-- What `wc_ecc_sign_hash` leaves behind: its status, the bytes it stored at
the start of `out`, and the value it left in `*outlen`. -/
structure SignOutput where
  ret : Int
  written : List Byte
  outLen : Nat
  deriving DecidableEq, Repr

/-- The ECC primitives used by signHash and verifyHash.
`wc_ecc_sign_hash in inlen outlen rng key` receives the capacity in `outlen`;
`wc_ecc_verify_hash sig siglen hash hashlen key` returns its status code and
the value of the status flag `*res` after the call (0 when left untouched). -/
structure EccPrims (Key Rng : Type) where
  wc_ecc_sig_size : Key → Int
  wc_ecc_sign_hash : List Byte → Nat → Nat → Rng → Key → SignOutput
  wc_ecc_verify_hash : List Byte → Nat → List Byte → Nat → Key → Int × Int

/-- One invocation of `wc_ecc_sign_hash`. -/
structure SignCall (Key Rng : Type) where
  hash : List Byte
  hashSz : Nat
  capacity : Nat
  rng : Rng
  key : Key
  deriving DecidableEq, Repr

/-- Outcome of `wc_ecc_sign_hash` (JNI): the returned array (`none` is
`NULL`), the exceptions thrown, the primitive invocations, the size requested
from `XMALLOC` for the signature buffer when it was allocated, the byte count
of the closing `XMEMSET(signature, 0, signatureBufSz)` when it ran, and whether
`XFREE(signature)` ran. -/
structure SignHashResult (Key Rng : Type) where
  result : Option (List Byte)
  thrown : List JniThrow
  calls : List (SignCall Key Rng)
  allocated : Option Nat
  wiped : Option Nat
  freed : Bool
  deriving DecidableEq, Repr

/-- Message of the size sanity check of signHash (line 873). -/
def sigSizeMsg : String := "wc_ecc_sig_size() less than actual sig size"

/-- Message of the failed result allocation of signHash (line 885). -/
def sigAllocMsg : String := "Failed to allocate signature"

/-- The entry point `Ecc.wc_ecc_sign_hash` (build with `HAVE_ECC_SIGN`). -/
def Java_com_wolfssl_wolfcrypt_Ecc_wc_1ecc_1sign_1hash {Key Rng : Type}
    (P : EccPrims Key Rng) (A : Allocators) (this : NativeStruct Key)
    (hash_object : JByteArray) (rng_object : NativeStruct Rng) :
    SignHashResult Key Rng :=
  if this.threw then
    ⟨none, [JniThrow.nativeStruct], [], none, none, false⟩
  else if rng_object.threw then
    ⟨none, [JniThrow.nativeStruct], [], none, none, false⟩
  else
    match this.ptr, rng_object.ptr, hash_object.elements with
    | some ecc, some rng, some hash =>
      let hashSz := hash_object.length
      let expectedSigSz := toWord32 (P.wc_ecc_sig_size ecc)
      if A.xmalloc expectedSigSz = false then
        -- ret = MEMORY_E, lines 888-891
        ⟨none, [JniThrow.fromError MEMORY_E], [], none, none, false⟩
      else
        let s := P.wc_ecc_sign_hash hash hashSz expectedSigSz rng ecc
        let signature := store (List.replicate expectedSigSz 0) s.written
        let signatureSz := s.outLen
        let calls := [SignCall.mk hash hashSz expectedSigSz rng ecc]
        if s.ret ≠ 0 then
          -- lines 888-891
          ⟨none, [JniThrow.fromError s.ret], calls, some expectedSigSz, none,
            false⟩
        else if expectedSigSz < signatureSz then
          -- lines 870-873, then 888-891
          ⟨none, [JniThrow.message sigSizeMsg, JniThrow.fromError BUFFER_E],
            calls, some expectedSigSz, none, false⟩
        else if A.newByteArray signatureSz = false then
          -- lines 883-886
          ⟨none, [JniThrow.outOfMemory, JniThrow.message sigAllocMsg], calls,
            some expectedSigSz, none, false⟩
        else
          -- lines 881-882 and 897-910
          ⟨some (newArrayFrom signatureSz signature), [], calls,
            some expectedSigSz, some expectedSigSz, true⟩
    | _, _, _ =>
      -- ret = BAD_FUNC_ARG, lines 888-891
      ⟨none, [JniThrow.fromError BAD_FUNC_ARG], [], none, none, false⟩

/-- One invocation of `wc_ecc_verify_hash`. -/
structure VerifyCall (Key : Type) where
  sig : List Byte
  sigSz : Nat
  hash : List Byte
  hashSz : Nat
  key : Key
  deriving DecidableEq, Repr

/-- Outcome of `wc_ecc_verify_hash` (JNI). -/
structure VerifyHashResult (Key : Type) where
  ret : Bool
  thrown : List JniThrow
  calls : List (VerifyCall Key)
  deriving DecidableEq, Repr

/-- Values of the locals `ret` and `status` after lines 938-944, with the
primitive invocations made. -/
def verifyStatus {Key Rng : Type} (P : EccPrims Key Rng) (ecc : Option Key)
    (hash_object signature_object : JByteArray) :
    Int × Int × List (VerifyCall Key) :=
  match ecc, hash_object.elements, signature_object.elements with
  | some k, some hash, some signature =>
    let r := P.wc_ecc_verify_hash signature signature_object.length hash
      hash_object.length k
    (r.1, r.2,
      [⟨signature, signature_object.length, hash, hash_object.length, k⟩])
  | _, _, _ => (BAD_FUNC_ARG, 0, [])

/-- The entry point `Ecc.wc_ecc_verify_hash` (build with
`HAVE_ECC_VERIFY`). -/
def Java_com_wolfssl_wolfcrypt_Ecc_wc_1ecc_1verify_1hash {Key Rng : Type}
    (P : EccPrims Key Rng) (this : NativeStruct Key)
    (hash_object signature_object : JByteArray) : VerifyHashResult Key :=
  if this.threw then
    ⟨false, [JniThrow.nativeStruct], []⟩
  else
    let r := verifyStatus P this.ptr hash_object signature_object
    let ret := r.1
    let status := r.2.1
    ⟨decide (status = 1),
      if ret ≠ 0 then [JniThrow.fromError ret] else [], r.2.2⟩

/-! ## jni_hmac.c -/

/-- Compile-time switches deciding which `case` labels of
`GetHashSizeByType` exist.  The fields `WOLFSSL_SHA384` and `WOLFSSL_SHA512`
stand for the guards `CYASSL_SHA384 || WOLFSSL_SHA384` and
`CYASSL_SHA512 || WOLFSSL_SHA512`. -/
structure HashBuild where
  NO_MD5 : Bool
  NO_SHA : Bool
  NO_SHA256 : Bool
  WOLFSSL_SHA384 : Bool
  WOLFSSL_SHA512 : Bool
  deriving DecidableEq, Repr

/-- The build with all five hashes compiled in. -/
def HashBuild.all : HashBuild := ⟨false, false, false, true, true⟩

/-- The hash identifiers of `wolfssl/wolfcrypt/hmac.h`; their numeric values
depend on the wolfSSL version and are left open. -/
structure HashTypes where
  WC_MD5 : Int
  WC_SHA : Int
  WC_SHA256 : Int
  WC_SHA384 : Int
  WC_SHA512 : Int
  deriving DecidableEq, Repr

/-- The identifiers are pairwise different, as the `case` labels of one
`switch` must be. -/
def HashTypes.Distinct (T : HashTypes) : Prop :=
  [T.WC_MD5, T.WC_SHA, T.WC_SHA256, T.WC_SHA384, T.WC_SHA512].Nodup

instance (T : HashTypes) : Decidable T.Distinct := by
  unfold HashTypes.Distinct
  exact inferInstance

/-- The identifiers of current wolfSSL releases (`enum wc_HashType`). -/
def HashTypes.wolfssl : HashTypes := ⟨3, 4, 6, 7, 8⟩

/-- Digest size `MD5_DIGEST_SIZE`. -/
def MD5_DIGEST_SIZE : Int := 16

/-- Digest size `SHA_DIGEST_SIZE`. -/
def SHA_DIGEST_SIZE : Int := 20

/-- Digest size `SHA256_DIGEST_SIZE`. -/
def SHA256_DIGEST_SIZE : Int := 32

/-- Digest size `SHA384_DIGEST_SIZE`. -/
def SHA384_DIGEST_SIZE : Int := 48

/-- Digest size `SHA512_DIGEST_SIZE`. -/
def SHA512_DIGEST_SIZE : Int := 64

/-- Size `MAX_DIGEST_SIZE` of the local `tmp` of HmacFinal, in a build with
SHA-512. -/
def MAX_DIGEST_SIZE : Int := 64

/-- The static helper `GetHashSizeByType` (lines 62-103). -/
def GetHashSizeByType (B : HashBuild) (T : HashTypes) (type : Int) : Int :=
  if ¬ (type = T.WC_MD5 ∨ type = T.WC_SHA ∨ type = T.WC_SHA256
      ∨ type = T.WC_SHA384 ∨ type = T.WC_SHA512) then
    BAD_FUNC_ARG
  else if B.NO_MD5 = false ∧ type = T.WC_MD5 then
    MD5_DIGEST_SIZE
  else if B.NO_SHA = false ∧ type = T.WC_SHA then
    SHA_DIGEST_SIZE
  else if B.NO_SHA256 = false ∧ type = T.WC_SHA256 then
    SHA256_DIGEST_SIZE
  else if B.WOLFSSL_SHA384 = true ∧ type = T.WC_SHA384 then
    SHA384_DIGEST_SIZE
  else if B.WOLFSSL_SHA512 = true ∧ type = T.WC_SHA512 then
    SHA512_DIGEST_SIZE
  else
    BAD_FUNC_ARG

/-- Outcome of `wc_HmacFinal` (JNI): the returned array (`none` is `NULL`),
the exceptions thrown, and the contexts on which the finalisation primitive
was invoked. -/
structure HmacFinalResult (Hmac : Type) where
  result : Option (List Byte)
  thrown : List JniThrow
  calls : List Hmac
  deriving DecidableEq, Repr

/-- Message of the failed result allocation of HmacFinal (line 292). -/
def hmacAllocMsg : String := "Failed to allocate hmac"

/-- The entry point `Hmac.wc_HmacFinal` (build with HMAC).  `macType` reads
the field `hmac->macType`; the primitive `wc_HmacFinal` returns its status and
the contents of the local `tmp` after the call.  The value `none` stands for
the dereference of a `NULL` context at line 274, which C leaves undefined. -/
def Java_com_wolfssl_wolfcrypt_Hmac_wc_1HmacFinal {Hmac : Type}
    (B : HashBuild) (T : HashTypes) (macType : Hmac → Int)
    (wc_HmacFinal : Hmac → Int × List Byte) (A : Allocators)
    (this : NativeStruct Hmac) : Option (HmacFinalResult Hmac) :=
  let ret : Int := 0
  if this.threw then
    some ⟨none, [JniThrow.nativeStruct], []⟩
  else
    match this.ptr with
    | none => none
    | some hmac =>
      let hmacSz := GetHashSizeByType B T (macType hmac)
      if hmacSz < 0 then
        some ⟨none, [JniThrow.fromError ret], []⟩
      else
        let r := wc_HmacFinal hmac
        let ret := r.1
        let tmp := r.2
        if ret = 0 then
          if A.newByteArray hmacSz.toNat then
            some ⟨some (newArrayFrom hmacSz.toNat tmp), [], [hmac]⟩
          else
            some ⟨none, [JniThrow.outOfMemory, JniThrow.message hmacAllocMsg],
              [hmac]⟩
        else
          some ⟨none, [JniThrow.fromError ret], [hmac]⟩

/-- The entry point `Hmac.wc_HmacSizeByType` (build with HMAC): the returned
`jint` and the exceptions thrown. -/
def Java_com_wolfssl_wolfcrypt_Hmac_wc_1HmacSizeByType (B : HashBuild)
    (T : HashTypes) (type : Int) : Int × List JniThrow :=
  let ret := GetHashSizeByType B T type
  if ret < 0 then
    (0, [JniThrow.fromError ret])
  else
    (ret, [])

/-! ## jni_ecc.c: makeKey and importPrivate -/

/-- A Java `String` argument as the glue sees it: `isNull` tells whether the
reference is `NULL`, `chars` is what `GetStringUTFChars` returned (`none` is
`NULL`). -/
structure JString where
  isNull : Bool
  chars : Option String
  deriving DecidableEq, Repr

/-- The ECC primitives used by makeKey and importPrivate.  Each primitive that
works on a key returns its status code and the key as it leaves it.
`wc_ecc_get_curve_id_from_name` receives the `name` pointer (`none` is
`NULL`). -/
structure EccKeyPrims (Key Rng : Type) where
  wc_ecc_make_key : Rng → Int → Key → Int × Key
  wc_ecc_make_key_ex : Rng → Int → Key → Int → Int × Key
  wc_ecc_get_curve_id_from_name : Option String → Int
  wc_ecc_import_private_key :
    List Byte → Nat → Option (List Byte) → Nat → Key → Int × Key
  wc_ecc_import_private_key_ex :
    List Byte → Nat → Option (List Byte) → Nat → Key → Int → Int × Key

/-- One invocation of `wc_ecc_make_key` (`curveId` is `none`) or of
`wc_ecc_make_key_ex`. -/
structure MakeKeyCall (Key Rng : Type) where
  rng : Rng
  size : Int
  key : Key
  curveId : Option Int
  deriving DecidableEq, Repr

/-- Outcome of a makeKey call: the exceptions thrown, the key-generation
invocations, and the native key afterwards (`none` is a `NULL` handle). -/
structure MakeKeyResult (Key Rng : Type) where
  thrown : List JniThrow
  calls : List (MakeKeyCall Key Rng)
  key : Option Key
  deriving DecidableEq, Repr

/-- The entry point `Ecc.wc_ecc_make_key` (build with `HAVE_ECC`). -/
def Java_com_wolfssl_wolfcrypt_Ecc_wc_1ecc_1make_1key {Key Rng : Type}
    (P : EccKeyPrims Key Rng) (this : NativeStruct Key)
    (rng_object : NativeStruct Rng) (size : Int) : MakeKeyResult Key Rng :=
  if this.threw then
    ⟨[JniThrow.nativeStruct], [], this.ptr⟩
  else if rng_object.threw then
    ⟨[JniThrow.nativeStruct], [], this.ptr⟩
  else
    match this.ptr, rng_object.ptr with
    | some ecc, some rng =>
      if size ≤ 0 then
        ⟨[JniThrow.fromError BAD_FUNC_ARG], [], this.ptr⟩
      else
        let r := P.wc_ecc_make_key rng size ecc
        let ret := r.1
        ⟨if ret ≠ 0 then [JniThrow.fromError ret] else [],
          [⟨rng, size, ecc, none⟩], some r.2⟩
    | _, _ => ⟨[JniThrow.fromError BAD_FUNC_ARG], [], this.ptr⟩

/-- Message thrown by makeKey when `ret < 0` before key generation (line
189). -/
def curveMsg : String := "ECC curve unsupported or not enabled"

/-- The entry point `Ecc.wc_ecc_make_key_ex` (build with `HAVE_ECC`). -/
def Java_com_wolfssl_wolfcrypt_Ecc_wc_1ecc_1make_1key_1ex {Key Rng : Type}
    (P : EccKeyPrims Key Rng) (this : NativeStruct Key)
    (rng_object : NativeStruct Rng) (size : Int) (curveName : JString) :
    MakeKeyResult Key Rng :=
  let name := curveName.chars
  if this.threw then
    ⟨[JniThrow.nativeStruct], [], this.ptr⟩
  else if rng_object.threw then
    ⟨[JniThrow.nativeStruct], [], this.ptr⟩
  else
    match this.ptr, rng_object.ptr, curveName.isNull, name with
    | some ecc, some rng, false, some n =>
      -- ret == 0 at line 180
      let ret := P.wc_ecc_get_curve_id_from_name (some n)
      if ret < 0 then
        ⟨[JniThrow.message curveMsg], [], this.ptr⟩
      else
        let r := P.wc_ecc_make_key_ex rng size ecc ret
        ⟨if r.1 < 0 then [JniThrow.fromError r.1] else [],
          [⟨rng, size, ecc, some ret⟩], some r.2⟩
    | _, _, _, _ =>
      -- ret = BAD_FUNC_ARG at line 177, so line 181 is skipped
      let ret := BAD_FUNC_ARG
      if ret < 0 then
        ⟨[JniThrow.message curveMsg], [], this.ptr⟩
      else
        -- not reached: BAD_FUNC_ARG is negative
        ⟨[], [], this.ptr⟩

/-- One invocation of `wc_ecc_import_private_key` (`curveId` is `none`) or of
`wc_ecc_import_private_key_ex`: the bytes at the `priv` pointer handed over,
the private size, the public key pointer and size, the key and the curve. -/
structure ImportCall (Key : Type) where
  priv : List Byte
  privSz : Nat
  pub : Option (List Byte)
  pubSz : Nat
  key : Key
  curveId : Option Int
  deriving DecidableEq, Repr

/-- Outcome of importPrivate: the exceptions thrown, the import invocations,
and the native key afterwards (`none` is a `NULL` handle). -/
structure ImportResult (Key : Type) where
  thrown : List JniThrow
  calls : List (ImportCall Key)
  key : Option Key
  deriving DecidableEq, Repr

/-- Value of the local `ret` after lines 261-289 of importPrivate, with
the import invocations made and the key afterwards. -/
def importStatus {Key Rng : Type} (P : EccKeyPrims Key Rng) (ecc : Option Key)
    (priv_object pub_object : JByteArray) (curveName : JString) :
    Int × List (ImportCall Key) × Option Key :=
  match ecc, priv_object.elements with
  | some k, some priv =>
    let privSz := priv_object.length
    let pub := pub_object.elements
    let pubSz := pub_object.length
    if privSz = 0 then
      (BAD_FUNC_ARG, [], ecc)
    else
      let idx : Nat := if priv.head? = some 0 then 1 else 0
      if curveName.isNull = false then
        let ret := P.wc_ecc_get_curve_id_from_name curveName.chars
        if ret > 0 then
          let r := P.wc_ecc_import_private_key_ex (priv.drop idx)
            (privSz - idx) pub pubSz k ret
          (r.1, [⟨priv.drop idx, privSz - idx, pub, pubSz, k, some ret⟩],
            some r.2)
        else
          (BAD_FUNC_ARG, [], ecc)
      else
        let r := P.wc_ecc_import_private_key (priv.drop idx) (privSz - idx)
          pub pubSz k
        (r.1, [⟨priv.drop idx, privSz - idx, pub, pubSz, k, none⟩], some r.2)
  | _, _ => (BAD_FUNC_ARG, [], ecc)

/-- The entry point `Ecc.wc_ecc_import_private` (build with `HAVE_ECC` and
`HAVE_ECC_KEY_IMPORT`). -/
def Java_com_wolfssl_wolfcrypt_Ecc_wc_1ecc_1import_1private {Key Rng : Type}
    (P : EccKeyPrims Key Rng) (this : NativeStruct Key)
    (priv_object pub_object : JByteArray) (curveName : JString) :
    ImportResult Key :=
  if this.threw then
    ⟨[JniThrow.nativeStruct], [], this.ptr⟩
  else
    let r := importStatus P this.ptr priv_object pub_object curveName
    let ret := r.1
    ⟨if ret ≠ 0 then [JniThrow.fromError ret] else [], r.2.1, r.2.2⟩

/-- Big-endian integer value of a byte string. -/
def beValue (bytes : List Byte) : Nat :=
  bytes.foldl (fun acc b => acc * 256 + b) 0

/-! ## jni_ecc.c: exports and shared secret -/

/-- Error code `LENGTH_ONLY_E` of `wolfssl/wolfcrypt/error-crypt.h`. -/
def LENGTH_ONLY_E : Int := -202

/-- The constant `MAX_ECC_PRIVATE_DER_SZ` (line 39). -/
def MAX_ECC_PRIVATE_DER_SZ : Nat := 128

/-- Algorithm identifier `ECDSAk` of `wolfssl/wolfcrypt/asn.h`. -/
def ECDSAk : Int := 518

/-- Life of one temporary buffer during a call: the size requested from
`XMALLOC` when the allocation succeeded, the byte count of the closing
`XMEMSET(buf, 0, n)` when it ran, and whether `XFREE(buf)` ran. -/
structure TmpBuf where
  allocated : Option Nat
  wiped : Option Nat
  freed : Bool
  deriving DecidableEq, Repr

/-- The closing block `if (buf != NULL) { XMEMSET(buf, 0, bufSz); XFREE(buf);
}`, where `buf` holds the allocated size when non-null. -/
def wipeAndFree (buf : Option Nat) (bufSz : Nat) : TmpBuf :=
  match buf with
  | none => ⟨none, none, false⟩
  | some n => ⟨some n, some bufSz, true⟩

/-- The closing block `if (buf != NULL) { XFREE(buf); }`. -/
def freeOnly (buf : Option Nat) : TmpBuf :=
  match buf with
  | none => ⟨none, none, false⟩
  | some n => ⟨some n, none, true⟩

/-- What an encoder with an in/out length leaves behind: its status, the
bytes it stored at the start of `out`, and the value it left in the length
argument. -/
structure EncodeOutput where
  ret : Int
  written : List Byte
  outLen : Nat
  deriving DecidableEq, Repr

/-- What an encoder that returns its byte count leaves behind: the returned
value and the bytes it stored at the start of `out`. -/
structure DerOutput where
  ret : Int
  written : List Byte
  deriving DecidableEq, Repr

/-- The wolfCrypt routines invoked by the exporting entry points; the flag of
`wc_ecc_export_x963` and `wc_CreatePKCS8Key` tells whether `out` was
non-null. -/
inductive EccOutCall where
  | wc_ecc_size : EccOutCall
  | wc_ecc_export_private_only : EccOutCall
  | wc_ecc_export_x963 (out : Bool) : EccOutCall
  | wc_EccKeyToDer : EccOutCall
  | wc_EccPublicKeyDerSize : EccOutCall
  | wc_EccPublicKeyToDer : EccOutCall
  | wc_EccKeyDerSize : EccOutCall
  | wc_EccPrivateKeyToDer : EccOutCall
  | wc_ecc_get_oid : EccOutCall
  | wc_CreatePKCS8Key (out : Bool) : EccOutCall
  | wc_ecc_set_rng : EccOutCall
  | wc_ecc_shared_secret : EccOutCall
  deriving DecidableEq, Repr

/-- The ECC primitives that fill an output buffer.  Encoders receive the
key, then the capacity of `out` (for `wc_ecc_export_x963` and
`wc_CreatePKCS8Key` preceded by the flag telling whether `out` is non-null).
`wc_ecc_get_oid` stands for `wc_ecc_get_oid(ecc->dp->oidSum, ..)` and returns
its status, the OID pointer and the OID size.  `wc_CreatePKCS8Key` receives
the flag, the value of `*outSz`, the DER key and its size, the algorithm, the
OID pointer and the OID size. -/
structure EccOutPrims (Key Rng : Type) where
  wc_ecc_size : Key → Int
  wc_ecc_export_private_only : Key → Nat → EncodeOutput
  wc_ecc_export_x963 : Key → Bool → Nat → EncodeOutput
  wc_EccKeyToDer : Key → Nat → DerOutput
  wc_EccPublicKeyDerSize : Key → Int → Int
  wc_EccPublicKeyToDer : Key → Nat → Int → DerOutput
  wc_EccKeyDerSize : Key → Int → Int
  wc_EccPrivateKeyToDer : Key → Nat → DerOutput
  wc_ecc_get_oid : Key → Int × Option (List Byte) × Nat
  wc_CreatePKCS8Key :
    Bool → Nat → List Byte → Nat → Int → Option (List Byte) → Nat →
      EncodeOutput
  wc_ecc_set_rng : Key → Rng → Int
  wc_ecc_shared_secret : Key → Key → Nat → EncodeOutput

/-- Outcome of an exporting entry point with one temporary buffer: the
returned array (`none` is `NULL`), the exceptions thrown, the primitive
invocations, and the life of the buffer `output`. -/
structure ExportResult where
  result : Option (List Byte)
  thrown : List JniThrow
  calls : List EccOutCall
  output : TmpBuf
  deriving DecidableEq, Repr

/-- The block shared by the exporting entry points (for instance lines
346-357): with `ret == 0` the result array is created from the first
`outputSz` bytes of `output`, or `msg` is thrown, after the error
`NewByteArray` left pending, when it cannot be created; otherwise `ret` is
thrown. -/
def exportReturn (A : Allocators) (msg : String) (ret : Int) (outputSz : Nat)
    (output : List Byte) : Option (List Byte) × List JniThrow :=
  if ret = 0 then
    if A.newByteArray outputSz then
      (some (newArrayFrom outputSz output), [])
    else
      (none, [JniThrow.outOfMemory, JniThrow.message msg])
  else
    (none, [JniThrow.fromError ret])

/-- Message of the failed result allocation of exportPrivate and
EccKeyToDer (lines 353, 581). -/
def eccKeyAllocMsg : String := "Failed to allocate ECC key"

/-- The entry point `Ecc.wc_ecc_export_private` (build with
`HAVE_ECC_KEY_EXPORT`). -/
def Java_com_wolfssl_wolfcrypt_Ecc_wc_1ecc_1export_1private {Key Rng : Type}
    (P : EccOutPrims Key Rng) (A : Allocators) (this : NativeStruct Key) :
    ExportResult :=
  if this.threw then
    ⟨none, [JniThrow.nativeStruct], [], ⟨none, none, false⟩⟩
  else
    match this.ptr with
    | none =>
      ⟨none, [JniThrow.fromError BAD_FUNC_ARG], [], wipeAndFree none 0⟩
    | some ecc =>
      let outputSz := toWord32 (P.wc_ecc_size ecc)
      let outputBufSz := outputSz
      if A.xmalloc outputSz = false then
        ⟨none, [JniThrow.fromError MEMORY_E], [EccOutCall.wc_ecc_size],
          wipeAndFree none outputBufSz⟩
      else
        let e := P.wc_ecc_export_private_only ecc outputSz
        let output := store (List.replicate outputSz 0) e.written
        let r := exportReturn A eccKeyAllocMsg e.ret e.outLen output
        ⟨r.1, r.2,
          [EccOutCall.wc_ecc_size, EccOutCall.wc_ecc_export_private_only],
          wipeAndFree (some outputSz) outputBufSz⟩

/-- Message of the failed result allocation of exportX963 (line 470). -/
def x963AllocMsg : String := "Failed to create new ECC key array"

/-- The entry point `Ecc.wc_ecc_export_x963` (build with
`HAVE_ECC_KEY_EXPORT`). -/
def Java_com_wolfssl_wolfcrypt_Ecc_wc_1ecc_1export_1x963 {Key Rng : Type}
    (P : EccOutPrims Key Rng) (A : Allocators) (this : NativeStruct Key) :
    ExportResult :=
  if this.threw then
    ⟨none, [JniThrow.nativeStruct], [], ⟨none, none, false⟩⟩
  else
    match this.ptr with
    | none => ⟨none, [JniThrow.fromError BAD_FUNC_ARG], [], freeOnly none⟩
    | some ecc =>
      let q := P.wc_ecc_export_x963 ecc false 0
      let ret : Int := if q.ret = LENGTH_ONLY_E then 0 else q.ret
      let outputSz := q.outLen
      if ret ≠ 0 then
        ⟨none, [JniThrow.fromError ret], [EccOutCall.wc_ecc_export_x963 false],
          freeOnly none⟩
      else if A.xmalloc outputSz = false then
        ⟨none, [JniThrow.fromError MEMORY_E],
          [EccOutCall.wc_ecc_export_x963 false], freeOnly none⟩
      else
        let e := P.wc_ecc_export_x963 ecc true outputSz
        let output := store (List.replicate outputSz 0) e.written
        let r := exportReturn A x963AllocMsg e.ret e.outLen output
        ⟨r.1, r.2,
          [EccOutCall.wc_ecc_export_x963 false,
            EccOutCall.wc_ecc_export_x963 true],
          freeOnly (some outputSz)⟩

/-- The entry point `Ecc.wc_EccKeyToDer` (build with `HAVE_ECC`, ASN and
`WOLFSSL_KEY_GEN`). -/
def Java_com_wolfssl_wolfcrypt_Ecc_wc_1EccKeyToDer {Key Rng : Type}
    (P : EccOutPrims Key Rng) (A : Allocators) (this : NativeStruct Key) :
    ExportResult :=
  let outputSz : Nat := 256
  let outputBufSz : Nat := 0
  if this.threw then
    -- ret = BAD_FUNC_ARG (line 547), thrown at line 584
    ⟨none, [JniThrow.nativeStruct, JniThrow.fromError BAD_FUNC_ARG], [],
      wipeAndFree none outputBufSz⟩
  else
    match this.ptr with
    | none =>
      ⟨none, [JniThrow.fromError BAD_FUNC_ARG], [],
        wipeAndFree none outputBufSz⟩
    | some ecc =>
      if A.xmalloc outputSz = false then
        ⟨none, [JniThrow.fromError MEMORY_E], [],
          wipeAndFree none outputBufSz⟩
      else
        let outputBufSz := outputSz
        let d := P.wc_EccKeyToDer ecc outputSz
        let output := store (List.replicate outputSz 0) d.written
        let outputSz2 : Nat := if d.ret ≥ 0 then toWord32 d.ret else outputSz
        let ret : Int := if d.ret ≥ 0 then 0 else d.ret
        let r := exportReturn A eccKeyAllocMsg ret outputSz2 output
        ⟨r.1, r.2, [EccOutCall.wc_EccKeyToDer],
          wipeAndFree (some outputSz) outputBufSz⟩

/-- Message of the failed result allocation of EccPublicKeyToDer (line
699). -/
def eccDerAllocMsg : String := "Failed to allocate ECC DER key"

/-- The entry point `Ecc.wc_EccPublicKeyToDer` (build with ASN and
`WOLFSSL_CERT_GEN` or `WOLFSSL_KEY_GEN`). -/
def Java_com_wolfssl_wolfcrypt_Ecc_wc_1EccPublicKeyToDer {Key Rng : Type}
    (P : EccOutPrims Key Rng) (A : Allocators) (this : NativeStruct Key) :
    ExportResult :=
  if this.threw then
    -- ret = BAD_FUNC_ARG (line 658), thrown at line 702
    ⟨none, [JniThrow.nativeStruct, JniThrow.fromError BAD_FUNC_ARG], [],
      freeOnly none⟩
  else
    match this.ptr with
    | none => ⟨none, [JniThrow.fromError BAD_FUNC_ARG], [], freeOnly none⟩
    | some ecc =>
      let s := P.wc_EccPublicKeyDerSize ecc 1
      let outputSz : Nat := if s > 0 then toWord32 s else 0
      let ret : Int := if s > 0 then 0 else s
      if ret ≠ 0 then
        ⟨none, [JniThrow.fromError ret], [EccOutCall.wc_EccPublicKeyDerSize],
          freeOnly none⟩
      else if A.xmalloc outputSz = false then
        ⟨none, [JniThrow.fromError MEMORY_E],
          [EccOutCall.wc_EccPublicKeyDerSize], freeOnly none⟩
      else
        let d := P.wc_EccPublicKeyToDer ecc outputSz 1
        let output := store (List.replicate outputSz 0) d.written
        let outputSz2 : Nat := if d.ret > 0 then toWord32 d.ret else outputSz
        let ret : Int := if d.ret > 0 then 0 else d.ret
        let r := exportReturn A eccDerAllocMsg ret outputSz2 output
        ⟨r.1, r.2,
          [EccOutCall.wc_EccPublicKeyDerSize, EccOutCall.wc_EccPublicKeyToDer],
          freeOnly (some outputSz)⟩

/-- Message of the failed result allocation of sharedSecret (line 792). -/
def secretAllocMsg : String := "Failed to allocate shared secret"

/-- The entry point `Ecc.wc_ecc_shared_secret` (build with `HAVE_ECC_DHE`).
The flag `timingResistant` tells whether the guard of lines 769-771 holds, so
that `wc_ecc_set_rng` is compiled in. -/
def Java_com_wolfssl_wolfcrypt_Ecc_wc_1ecc_1shared_1secret {Key Rng : Type}
    (timingResistant : Bool) (P : EccOutPrims Key Rng) (A : Allocators)
    (this : NativeStruct Key) (pub_object : NativeStruct Key)
    (rng_object : NativeStruct Rng) : ExportResult :=
  if this.threw then
    ⟨none, [JniThrow.nativeStruct], [], ⟨none, none, false⟩⟩
  else if rng_object.threw then
    ⟨none, [JniThrow.nativeStruct], [], ⟨none, none, false⟩⟩
  else if pub_object.threw then
    ⟨none, [JniThrow.nativeStruct], [], ⟨none, none, false⟩⟩
  else
    match this.ptr, rng_object.ptr, pub_object.ptr with
    | some ecc, some rng, some pub =>
      let outputSz := toWord32 (P.wc_ecc_size ecc)
      let outputBufSz := outputSz
      if A.xmalloc outputSz = false then
        ⟨none, [JniThrow.fromError MEMORY_E], [EccOutCall.wc_ecc_size],
          wipeAndFree none outputBufSz⟩
      else
        let ret : Int := if timingResistant then P.wc_ecc_set_rng ecc rng else 0
        let calls : List EccOutCall :=
          if timingResistant then
            [EccOutCall.wc_ecc_size, EccOutCall.wc_ecc_set_rng]
          else
            [EccOutCall.wc_ecc_size]
        if ret ≠ 0 then
          ⟨none, [JniThrow.fromError ret], calls,
            wipeAndFree (some outputSz) outputBufSz⟩
        else
          let e := P.wc_ecc_shared_secret ecc pub outputSz
          let output := store (List.replicate outputSz 0) e.written
          let r := exportReturn A secretAllocMsg e.ret e.outLen output
          ⟨r.1, r.2, calls ++ [EccOutCall.wc_ecc_shared_secret],
            wipeAndFree (some outputSz) outputBufSz⟩
    | _, _, _ =>
      ⟨none, [JniThrow.fromError BAD_FUNC_ARG], [], wipeAndFree none 0⟩

/-- Outcome of `wc_ecc_private_key_to_pkcs8` (JNI): the returned array
(`none` is `NULL`), the exceptions thrown, the primitive invocations, and the
lives of the buffers `derKey` and `pkcs8`. -/
structure Pkcs8Result where
  result : Option (List Byte)
  thrown : List JniThrow
  calls : List EccOutCall
  derKey : TmpBuf
  pkcs8 : TmpBuf
  deriving DecidableEq, Repr

/-- Lines 1114-1125 of the PKCS8 export: both buffers are wiped and freed
when non-null, then `ret` is thrown when negative. -/
def pkcs8Exit (result : Option (List Byte)) (ret : Int)
    (calls : List EccOutCall) (derKey : Option Nat) (derKeyBufSz : Nat)
    (pkcs8 : Option Nat) (pkcs8BufSz : Nat) : Pkcs8Result :=
  ⟨result, if ret < 0 then [JniThrow.fromError ret] else [], calls,
    wipeAndFree derKey derKeyBufSz, wipeAndFree pkcs8 pkcs8BufSz⟩

/-- Lines 1076-1125 of the PKCS8 export, entered with `ret == 0`: the size
query, the allocation of `pkcs8`, the encoding, the result array and the
exit.  `derKeyAlloc` is the size `derKey` was allocated with, `derKey` its
contents, `derKeySz` the DER length.  When the result array cannot be created
the function itself throws nothing (`ret` is still 0 at line 1123): the only
exception is the one `NewByteArray` left pending. -/
def pkcs8Wrap {Key Rng : Type} (P : EccOutPrims Key Rng) (A : Allocators)
    (calls3 : List EccOutCall) (derKeyAlloc derKeyBufSz : Nat)
    (derKey : List Byte) (derKeySz : Nat) (curveOID : Option (List Byte))
    (oidSz : Nat) : Pkcs8Result :=
  let algoID := ECDSAk
  -- lines 1076-1094
  let q := P.wc_CreatePKCS8Key false 0 derKey derKeySz algoID curveOID oidSz
  let ret : Int := if q.ret = LENGTH_ONLY_E then 0 else q.ret
  let pkcs8Sz := q.outLen
  let pkcs8BufSz := pkcs8Sz
  let calls4 := calls3 ++ [EccOutCall.wc_CreatePKCS8Key false]
  if A.xmalloc pkcs8Sz = false then
    pkcs8Exit none MEMORY_E calls4 (some derKeyAlloc) derKeyBufSz none
      pkcs8BufSz
  else if ret ≠ 0 then
    pkcs8Exit none ret calls4 (some derKeyAlloc) derKeyBufSz (some pkcs8Sz)
      pkcs8BufSz
  else
    -- lines 1096-1103
    let e := P.wc_CreatePKCS8Key true pkcs8Sz derKey derKeySz algoID curveOID
      oidSz
    let pkcs8 := store (List.replicate pkcs8Sz 0) e.written
    let pkcs8Sz2 := e.outLen
    let ret : Int := if e.ret > 0 then 0 else e.ret
    let calls5 := calls4 ++ [EccOutCall.wc_CreatePKCS8Key true]
    if ret ≠ 0 then
      pkcs8Exit none ret calls5 (some derKeyAlloc) derKeyBufSz (some pkcs8Sz)
        pkcs8BufSz
    else
      -- lines 1105-1112
      if A.newByteArray pkcs8Sz2 then
        pkcs8Exit (some (newArrayFrom pkcs8Sz2 pkcs8)) ret calls5
          (some derKeyAlloc) derKeyBufSz (some pkcs8Sz) pkcs8BufSz
      else
        let x := pkcs8Exit none ret calls5 (some derKeyAlloc) derKeyBufSz
          (some pkcs8Sz) pkcs8BufSz
        { x with thrown := JniThrow.outOfMemory :: x.thrown }

/-- The entry point `Ecc.wc_ecc_private_key_to_pkcs8` (build with `HAVE_ECC`
and `WOLFSSL_KEY_GEN`). -/
def Java_com_wolfssl_wolfcrypt_Ecc_wc_1ecc_1private_1key_1to_1pkcs8
    {Key Rng : Type} (P : EccOutPrims Key Rng) (A : Allocators)
    (this : NativeStruct Key) : Pkcs8Result :=
  if this.threw then
    -- ret = BAD_FUNC_ARG (line 1031), thrown at line 1124
    ⟨none, [JniThrow.nativeStruct, JniThrow.fromError BAD_FUNC_ARG], [],
      wipeAndFree none 0, wipeAndFree none 0⟩
  else
    match this.ptr with
    | none => pkcs8Exit none BAD_FUNC_ARG [] none 0 none 0
    | some ecc =>
      -- lines 1039-1045
      let s := P.wc_EccKeyDerSize ecc 0
      let derKeySz : Nat :=
        if s > 0 then toWord32 s else MAX_ECC_PRIVATE_DER_SZ
      let ret : Int := if s > 0 then 0 else s
      let calls1 := [EccOutCall.wc_EccKeyDerSize]
      if ret ≠ 0 then
        pkcs8Exit none ret calls1 none 0 none 0
      else
        -- lines 1047-1056
        let derKeyBufSz := derKeySz
        if A.xmalloc derKeySz = false then
          pkcs8Exit none MEMORY_E calls1 none derKeyBufSz none 0
        else
          -- lines 1058-1066
          let d := P.wc_EccPrivateKeyToDer ecc derKeySz
          let derKey := store (List.replicate derKeySz 0) d.written
          let derKeySz2 : Nat := if d.ret ≥ 0 then toWord32 d.ret else derKeySz
          let ret : Int := if d.ret ≥ 0 then 0 else d.ret
          let calls2 := calls1 ++ [EccOutCall.wc_EccPrivateKeyToDer]
          if ret ≠ 0 then
            pkcs8Exit none ret calls2 (some derKeySz) derKeyBufSz none 0
          else
            -- lines 1068-1074
            let o := P.wc_ecc_get_oid ecc
            let curveOID := o.2.1
            let oidSz := o.2.2
            let ret : Int := if o.1 > 0 then 0 else o.1
            let calls3 := calls2 ++ [EccOutCall.wc_ecc_get_oid]
            if ret ≠ 0 then
              pkcs8Exit none ret calls3 (some derKeySz) derKeyBufSz none 0
            else
              pkcs8Wrap P A calls3 derKeySz derKeyBufSz derKey derKeySz2
                curveOID oidSz

/-! ## Vocabulary of the export statements -/

/-- The array `arr` handed back is the temporary buffer, of capacity `cap`
and contents `buf`, trimmed to the reported byte count `n`: its length is
`n`, and when `n` does not exceed the capacity its content is the first `n`
bytes of the buffer and its length is within the capacity. -/
def Trimmed (arr : List Byte) (n cap : Nat) (buf : List Byte) : Prop :=
  arr.length = n ∧ (n ≤ cap → arr = buf.take n ∧ arr.length ≤ cap)

/-! ## jni_md5.c -/

/-- The MD5 primitives used by update and copy.  `wc_Md5Update md5 data off
len` stands for `wc_Md5Update(md5, data + off, len)` on the array `data` and
returns its status and the state it leaves.  `wc_Md5Copy src dst` receives
the two pointers (`none` is `NULL`) and returns its status, the source state
and the destination state it leaves. -/
structure Md5Prims (Md5 : Type) where
  wc_Md5Update : Md5 → List Byte → Int → Nat → Int × Md5
  wc_Md5Copy : Option Md5 → Option Md5 → Int × Option Md5 × Option Md5

/-- One invocation of `wc_Md5Update`: the state, the data pointer as an
offset from the start of the array, and the byte count. -/
structure Md5UpdateCall (Md5 : Type) where
  md5 : Md5
  dataOff : Int
  len : Nat
  deriving DecidableEq, Repr

/-- Outcome of the MD5 update: the exceptions thrown, the primitive
invocations, and the native state afterwards (`none` is a `NULL` handle). -/
structure Md5UpdateResult (Md5 : Type) where
  thrown : List JniThrow
  calls : List (Md5UpdateCall Md5)
  md5 : Option Md5
  deriving DecidableEq, Repr

/-- The `byte[]` variant of `Md5.native_update_internal` (build with MD5). -/
def Java_com_wolfssl_wolfcrypt_Md5_native_1update_1internal___3BII
    {Md5 : Type} (P : Md5Prims Md5) (this : NativeStruct Md5)
    (data_buffer : JByteArray) (offset len : Int) : Md5UpdateResult Md5 :=
  if this.threw then
    ⟨[JniThrow.nativeStruct], [], this.ptr⟩
  else
    let dataSz := data_buffer.length
    match this.ptr, data_buffer.elements with
    | some md5, some data =>
      if toWord32 (offset + len) > dataSz then
        ⟨[JniThrow.fromError BAD_FUNC_ARG], [], this.ptr⟩
      else
        let r := P.wc_Md5Update md5 data offset (toWord32 len)
        let ret := r.1
        ⟨if ret ≠ 0 then [JniThrow.fromError ret] else [],
          [⟨md5, offset, toWord32 len⟩], some r.2⟩
    | _, _ => ⟨[JniThrow.fromError BAD_FUNC_ARG], [], this.ptr⟩

/-- One invocation of `wc_Md5Copy`: the source and destination pointers. -/
structure Md5CopyCall (Md5 : Type) where
  src : Option Md5
  dst : Option Md5
  deriving DecidableEq, Repr

/-- Outcome of the MD5 copy: the exceptions thrown, the primitive
invocations, and the native states of the receiver and of the argument
afterwards. -/
structure Md5CopyResult (Md5 : Type) where
  thrown : List JniThrow
  calls : List (Md5CopyCall Md5)
  receiver : Option Md5
  argument : Option Md5
  deriving DecidableEq, Repr

/-- The entry point `Md5.native_copy_internal` (build with MD5).  The flags
`thisIsNull` and `toBeCopiedIsNull` tell whether the object references are
`NULL`; `this` and `toBeCopied` are what the two `getNativeStruct` calls hand
back, `threw` meaning that the call itself raised.  `ExceptionOccurred` also
holds when an earlier exception of this call is still pending. -/
def Java_com_wolfssl_wolfcrypt_Md5_native_1copy_1internal {Md5 : Type}
    (P : Md5Prims Md5) (thisIsNull toBeCopiedIsNull : Bool)
    (this toBeCopied : NativeStruct Md5) : Md5CopyResult Md5 :=
  -- lines 108-110
  let thrown0 : List JniThrow :=
    if thisIsNull ∨ toBeCopiedIsNull then [JniThrow.fromError BAD_FUNC_ARG]
    else []
  -- lines 112-116
  let thrown1 : List JniThrow :=
    thrown0 ++ (if this.threw then [JniThrow.nativeStruct] else [])
  if thrown1 ≠ [] then
    ⟨thrown1, [], this.ptr, toBeCopied.ptr⟩
  else
    -- lines 118-122
    let thrown2 : List JniThrow :=
      thrown1 ++ (if toBeCopied.threw then [JniThrow.nativeStruct] else [])
    if thrown2 ≠ [] then
      ⟨thrown2, [], this.ptr, toBeCopied.ptr⟩
    else
      -- lines 124-127
      let md5 := this.ptr
      let tbc := toBeCopied.ptr
      let r := P.wc_Md5Copy tbc md5
      let ret := r.1
      ⟨thrown2 ++ (if ret ≠ 0 then [JniThrow.fromError ret] else []),
        [⟨tbc, md5⟩], r.2.2, r.2.1⟩

/-! ## The key-agreement primitive, modelled from the spec -/

/-- Modelled from the spec: an ECC key of the engine behind
`wc_ecc_shared_secret`, whose code is not under src/ (only its caller is).
Section 3: a key holds an optional private scalar and a public point; it is
private if the scalar is present and public-only otherwise. -/
structure SpecEccKey (Point : Type) where
  priv : Option Nat
  pub : Point

/-- Modelled from the spec: scalar multiplication, the routine behind
`wc_ecc_make_key` and `wc_ecc_shared_secret`, which is not under src/.
Glossary: repeated curve-point addition by a private integer; the curve-point
addition is the addition of the monoid `Point`. -/
def specScalarMul {Point : Type} [AddMonoid Point] (k : Nat) (p : Point) :
    Point :=
  k • p

/-- Modelled from the spec: key generation of `wc_ecc_make_key`, which is not
under src/.  Section 4.5: the public point is derived via scalar
multiplication of the generator by the private scalar. -/
def specMakeKey {Point : Type} [AddMonoid Point] (G : Point) (d : Nat) :
    SpecEccKey Point :=
  ⟨some d, specScalarMul d G⟩

/-- The public half of a key, as handed to a peer. -/
def SpecEccKey.publicOnly {Point : Type} (k : SpecEccKey Point) :
    SpecEccKey Point :=
  ⟨none, k.pub⟩

/-- Modelled from the spec: the primitive `wc_ecc_shared_secret`, which is
not under src/.  Section 4.5: it computes the scalar multiplication of the
peer's public point by the local private scalar and fails with an
invalid-argument error on missing inputs; `encode` turns the resulting point
into the secret bytes, and a `capacity` below their number is a
buffer-too-small error. -/
def specSharedSecret {Point : Type} [AddMonoid Point]
    (encode : Point → List Byte) (loc peer : SpecEccKey Point)
    (capacity : Nat) : EncodeOutput :=
  match loc.priv with
  | none => ⟨BAD_FUNC_ARG, [], capacity⟩
  | some d =>
    let secret := encode (specScalarMul d peer.pub)
    if secret.length ≤ capacity then
      ⟨0, secret, secret.length⟩
    else
      ⟨BUFFER_E, [], capacity⟩

/-- The output primitives `P` with the key-agreement primitive modelled from
the spec and `wc_ecc_size` returning the field element size of the curve. -/
def specDhPrims {Point Rng : Type} [AddMonoid Point]
    (P : EccOutPrims (SpecEccKey Point) Rng) (encode : Point → List Byte)
    (fieldSize : Int) : EccOutPrims (SpecEccKey Point) Rng :=
  { P with
    wc_ecc_size := fun _ => fieldSize
    wc_ecc_shared_secret := specSharedSecret encode }

/-! ## jni_aes.c: setKey and the data moved by the update -/

/-- The value `AES_DECRYPTION` of the wolfCrypt headers. -/
def AES_DECRYPTION : Int := 1

/-- The cipher primitives together with the data they move.
`wc_AesSetKey aes key keySz iv dir` returns its status and the context
afterwards (`iv` is `none` for a null pointer).  `wc_AesCbcEncrypt aes in sz`
and `wc_AesCbcDecrypt aes in sz`, where `in` lists the bytes readable from the
`in` pointer on, return their status, the context afterwards and the bytes
stored from the `out` pointer on. -/
structure AesDataPrims (Aes : Type) where
  wc_AesSetKey : Aes → List Byte → Nat → Option (List Byte) → Int → Int × Aes
  wc_AesCbcEncrypt : Aes → List Byte → Nat → Int × Aes × List Byte
  wc_AesCbcDecrypt : Aes → List Byte → Nat → Int × Aes × List Byte

/-- Outcome of `Aes.native_set_key_internal`: the exceptions raised and the
context behind the native pointer afterwards. -/
structure AesSetKeyResult (Aes : Type) where
  thrown : List JniThrow
  aes : Option Aes
  deriving DecidableEq, Repr

/-- The entry point `Aes.native_set_key_internal` (lines 63-100, build with
AES): a null context or key is `BAD_FUNC_ARG`, the IV is optional, and the key
size handed to `wc_AesSetKey` is the length of the key array. -/
def Java_com_wolfssl_wolfcrypt_Aes_native_1set_1key_1internal {Aes : Type}
    (P : AesDataPrims Aes) (this : NativeStruct Aes)
    (key_object iv_object : JByteArray) (opmode : Int) : AesSetKeyResult Aes :=
  if this.threw then
    { thrown := [JniThrow.nativeStruct], aes := this.ptr }
  else
    match this.ptr, key_object.elements with
    | some aes, some key =>
      let r := P.wc_AesSetKey aes key key_object.length iv_object.elements
        opmode
      { thrown := if r.1 ≠ 0 then [JniThrow.fromError r.1] else [],
        aes := some r.2 }
    | _, _ =>
      { thrown := [JniThrow.fromError BAD_FUNC_ARG], aes := this.ptr }

/-- Contents of an array after `written` was stored from index `pos` on: the
array keeps its size. -/
def storeAt (buf : List Byte) (pos : Nat) (written : List Byte) : List Byte :=
  buf.take pos ++ store (buf.drop pos) written

/-- Outcome of an AES update call with the data it moved: the value returned,
the exceptions raised, the context afterwards and the contents of the output
array afterwards (`none` for a null array, and after a failed primitive, where
the mode of `releaseByteArray` is the failing status and the contents are not
determined by the source). -/
structure AesDataResult (Aes : Type) where
  ret : Int
  thrown : List JniThrow
  aes : Option Aes
  output : Option (List Byte)
  deriving DecidableEq, Repr

/-- Value of the local `ret` after the if-chain of the `byte[]` update (lines
123-146), with the context and the output array afterwards: the primitive
reads from `input + offset` and stores from `output + outputOffset` on. -/
def aesBytesData {Aes : Type} (P : AesDataPrims Aes) (aes : Option Aes)
    (opmode : Int) (input : JByteArray) (offset length : Int)
    (output : JByteArray) (outputOffset : Int) :
    Int × Option Aes × Option (List Byte) :=
  match aes, input.elements, output.elements with
  | some a, some inp, some outp =>
    if offset < 0 ∨ length < 0 ∨ outputOffset < 0 then
      (BAD_FUNC_ARG, some a, some outp)
    else if length = 0 then
      (0, some a, some outp)
    else if toWord32 (offset + length) > input.length then
      (BUFFER_E, some a, some outp)
    else if toWord32 (outputOffset + length) > output.length then
      (BUFFER_E, some a, some outp)
    else
      let r :=
        if opmode = AES_ENCRYPTION then
          P.wc_AesCbcEncrypt a (inp.drop offset.toNat) (toWord32 length)
        else
          P.wc_AesCbcDecrypt a (inp.drop offset.toNat) (toWord32 length)
      (r.1, some r.2.1,
        if r.1 = 0 then some (storeAt outp outputOffset.toNat r.2.2) else none)
  | _, _, _ => (BAD_FUNC_ARG, aes, output.elements)

/-- The `byte[]` variant of `Aes.native_update_internal` (build with AES),
followed through the data: the same function as
`Java_com_wolfssl_wolfcrypt_Aes_native_1update_1internal__I_3BII_3BI`, with
the output array and the context in place of the call log. -/
def Java_com_wolfssl_wolfcrypt_Aes_native_1update_1internal__I_3BII_3BI_data
    {Aes : Type} (P : AesDataPrims Aes) (this : NativeStruct Aes) (opmode : Int)
    (input_object : JByteArray) (offset length : Int)
    (output_object : JByteArray) (outputOffset : Int) : AesDataResult Aes :=
  if this.threw then
    { ret := 0, thrown := [JniThrow.nativeStruct], aes := this.ptr,
      output := output_object.elements }
  else
    let r := aesBytesData P this.ptr opmode input_object offset length
      output_object outputOffset
    if r.1 ≠ 0 then
      { ret := 0, thrown := [JniThrow.fromError r.1], aes := r.2.1,
        output := r.2.2 }
    else
      { ret := length, thrown := [], aes := r.2.1, output := r.2.2 }

/-- The status codes the primitives `P` return on the bytes of `input`, as
the oracles of the call-log embedding of the update. -/
def AesDataPrims.status {Aes : Type} (P : AesDataPrims Aes)
    (input : JByteArray) : AesPrims Aes :=
  ⟨fun a _ inOff sz =>
      (P.wc_AesCbcEncrypt a ((input.elements.getD []).drop inOff.toNat) sz).1,
    fun a _ inOff sz =>
      (P.wc_AesCbcDecrypt a ((input.elements.getD []).drop inOff.toNat) sz).1⟩

/-! ## The AES-CBC engine, modelled from the spec -/

/-- Modelled from the spec: the block cipher under the CBC engine, whose code
is not under src/ (only the callers of `wc_AesSetKey`, `wc_AesCbcEncrypt` and
`wc_AesCbcDecrypt` are).  Section 2: a fixed-block symmetric cipher; it maps a
key and a block to a block in either direction. -/
structure SpecBlockCipher where
  encryptBlock : List Byte → List Byte → List Byte
  decryptBlock : List Byte → List Byte → List Byte

/-- Modelled from the spec: the supported AES key sizes of section 4.2, 128,
192 and 256 bits, in bytes. -/
def specKeySizeSupported (keySz : Nat) : Prop :=
  keySz = 16 ∨ keySz = 24 ∨ keySz = 32

instance (keySz : Nat) : Decidable (specKeySizeSupported keySz) := by
  unfold specKeySizeSupported
  exact inferInstance

/-- Modelled from the spec: what makes the block cipher a cipher.  Under
every supported key, encryption maps a 16-byte block to a 16-byte block and
decryption undoes it. -/
def SpecBlockCipher.Invertible (C : SpecBlockCipher) : Prop :=
  ∀ key x : List Byte, specKeySizeSupported key.length → x.length = 16 →
    (C.encryptBlock key x).length = 16 ∧
      C.decryptBlock key (C.encryptBlock key x) = x

/-- Modelled from the spec: the cipher context of section 3, the key schedule
(held as the key it is derived from) and the current IV block. -/
structure SpecAesCtx where
  key : List Byte
  iv : List Byte
  deriving DecidableEq, Repr

/-- Modelled from the spec: how CBC combines two blocks, the bytewise
exclusive or. -/
def xorBytes (a b : List Byte) : List Byte :=
  List.zipWith (fun x y => x ^^^ y) a b

/-- Modelled from the spec: CBC encryption of `n` blocks of `data` (glossary:
each plaintext block is combined with the previous ciphertext block, or the
IV, before encryption).  Returns the ciphertext and the chaining block
afterwards. -/
def specCbcEncryptBlocks (C : SpecBlockCipher) (key : List Byte) :
    Nat → List Byte → List Byte → List Byte × List Byte
  | 0, iv, _ => ([], iv)
  | n + 1, iv, data =>
    let c := C.encryptBlock key (xorBytes (data.take 16) iv)
    let r := specCbcEncryptBlocks C key n c (data.drop 16)
    (c ++ r.1, r.2)

/-- Modelled from the spec: CBC decryption of `n` blocks of `data`, the
chaining of the glossary read backwards: each ciphertext block is decrypted
and then combined with the previous ciphertext block, or the IV.  Returns the
plaintext and the chaining block afterwards. -/
def specCbcDecryptBlocks (C : SpecBlockCipher) (key : List Byte) :
    Nat → List Byte → List Byte → List Byte × List Byte
  | 0, iv, _ => ([], iv)
  | n + 1, iv, data =>
    let c := data.take 16
    let p := xorBytes (C.decryptBlock key c) iv
    let r := specCbcDecryptBlocks C key n c (data.drop 16)
    (p ++ r.1, r.2)

/-- Modelled from the spec: `setKey` of section 4.2.  An unsupported key
length is an invalid-argument error and leaves the context as it was;
otherwise the key and the IV are installed, and without an IV the chaining
block stays as it was. -/
def specAesSetKey (ctx : SpecAesCtx) (key : List Byte) (keySz : Nat)
    (iv : Option (List Byte)) (_dir : Int) : Int × SpecAesCtx :=
  if specKeySizeSupported keySz then
    (0, ⟨key.take keySz,
      match iv with
      | some v => v.take 16
      | none => ctx.iv⟩)
  else
    (BAD_FUNC_ARG, ctx)

/-- Modelled from the spec: `update` of section 4.2 in encrypt mode.  A
length that is not a multiple of 16 is an invalid-argument error; otherwise
the blocks are encrypted and the chaining state advances. -/
def specAesCbcEncrypt (C : SpecBlockCipher) (ctx : SpecAesCtx)
    (input : List Byte) (sz : Nat) : Int × SpecAesCtx × List Byte :=
  if sz % 16 ≠ 0 then
    (BAD_FUNC_ARG, ctx, [])
  else
    let r := specCbcEncryptBlocks C ctx.key (sz / 16) ctx.iv input
    (0, ⟨ctx.key, r.2⟩, r.1)

/-- Modelled from the spec: `update` of section 4.2 in decrypt mode. -/
def specAesCbcDecrypt (C : SpecBlockCipher) (ctx : SpecAesCtx)
    (input : List Byte) (sz : Nat) : Int × SpecAesCtx × List Byte :=
  if sz % 16 ≠ 0 then
    (BAD_FUNC_ARG, ctx, [])
  else
    let r := specCbcDecryptBlocks C ctx.key (sz / 16) ctx.iv input
    (0, ⟨ctx.key, r.2⟩, r.1)

/-- The cipher primitives of the engine modelled from the spec. -/
def specAesPrims (C : SpecBlockCipher) : AesDataPrims SpecAesCtx :=
  ⟨specAesSetKey, specAesCbcEncrypt C, specAesCbcDecrypt C⟩

/-! ## Concrete inputs used by the closed statements below -/

/-- Cipher primitives that report success for every byte count, as the CBC
routines of a wolfSSL build without `WOLFSSL_AES_CBC_LENGTH_CHECKS` do (they
process the leading `sz / 16` blocks and return 0). -/
def AesPrims.lenient : AesPrims Unit :=
  ⟨fun _ _ _ _ => 0, fun _ _ _ _ => 0⟩

/-- A non-null `byte[]` of `n` zero bytes. -/
def zeroArray (n : Nat) : JByteArray := ⟨some (List.replicate n 0), n⟩

/-- A direct `ByteBuffer` of `n` zero bytes whose limit is `n`. -/
def zeroBuffer (n : Nat) : JDirectBuffer := ⟨some (List.replicate n 0), n⟩

/-- ECC primitives for the closed statements below.  The signature size
estimate is 8; signing stores the bytes 1, 2, 3, 4 and reports length 4;
verification reports the parse error -140 (`ASN_PARSE_E`) for a signature
shorter than two bytes, and otherwise status 0 with the flag set exactly for
the signature 1, 2, 3, 4. -/
def EccPrims.sample : EccPrims Unit Unit :=
  ⟨fun _ => 8,
    fun _ _ _ _ _ => ⟨0, [1, 2, 3, 4], 4⟩,
    fun sig _ _ _ _ =>
      if sig.length < 2 then (-140, 0)
      else if sig = [1, 2, 3, 4] then (0, 1)
      else (0, 0)⟩

/-- ECC primitives whose signing routine reports 9 bytes against a size
estimate of 8. -/
def EccPrims.oversize : EccPrims Unit Unit :=
  ⟨fun _ => 8,
    fun _ _ _ _ _ => ⟨0, [1, 2, 3, 4, 5, 6, 7, 8, 9], 9⟩,
    fun _ _ _ _ _ => (0, 0)⟩

/-- Allocators that always succeed. -/
def Allocators.ok : Allocators := ⟨fun _ => true, fun _ => true⟩

/-- A non-null `byte[]` holding the given bytes. -/
def arrayOf (bytes : List Byte) : JByteArray := ⟨some bytes, bytes.length⟩

/-- A finalisation primitive for the closed statements below, on contexts
that consist of their `macType` alone: status 0 and `tmp` filled with 64
bytes of value 170. -/
def sampleHmacFinal : Int → Int × List Byte :=
  fun _ => (0, List.replicate 64 170)

/-- Key primitives for the closed statements below, on keys that consist of
their private bytes alone.  Key generation yields `size` bytes of value 1;
the curve registry knows only the name SECP256R1 (identifier 7) and answers
-1 (`ECC_CURVE_INVALID`) otherwise; import stores the bytes it is handed. -/
def EccKeyPrims.sample : EccKeyPrims (List Byte) Unit :=
  ⟨fun _ size _ => (0, List.replicate size.toNat 1),
    fun _ size _ _ => (0, List.replicate size.toNat 1),
    fun name => if name = some "SECP256R1" then 7 else -1,
    fun priv _ _ _ _ => (0, priv),
    fun priv _ _ _ _ _ => (0, priv)⟩

/-- A non-null Java string. -/
def stringOf (s : String) : JString := ⟨false, some s⟩

/-- A null Java string reference. -/
def nullString : JString := ⟨true, none⟩

/-- A null `byte[]` reference. -/
def nullArray : JByteArray := ⟨none, 0⟩

/-- Output primitives for the closed statements below.  The key size is 4;
the private export stores 9, 8, 7 and reports 3 bytes; the X9.63 export
needs 9 bytes; the DER encoders return 5 and 6 bytes; the PKCS8 wrapper
needs 8 bytes and stores a three-byte header followed by the DER key; the
shared secret is 1, 1, 2, 2. -/
def EccOutPrims.sample : EccOutPrims Unit Unit :=
  { wc_ecc_size := fun _ => 4,
    wc_ecc_export_private_only := fun _ _ => ⟨0, [9, 8, 7], 3⟩,
    wc_ecc_export_x963 := fun _ out _ =>
      if out then ⟨0, [4, 1, 2, 3, 4, 5, 6, 7, 8], 9⟩
      else ⟨LENGTH_ONLY_E, [], 9⟩,
    wc_EccKeyToDer := fun _ _ => ⟨5, [48, 3, 2, 1, 7]⟩,
    wc_EccPublicKeyDerSize := fun _ _ => 6,
    wc_EccPublicKeyToDer := fun _ _ _ => ⟨6, [48, 4, 3, 2, 0, 1]⟩,
    wc_EccKeyDerSize := fun _ _ => 5,
    wc_EccPrivateKeyToDer := fun _ _ => ⟨5, [48, 3, 2, 1, 7]⟩,
    wc_ecc_get_oid := fun _ => (1, some [42], 1),
    wc_CreatePKCS8Key := fun out _ der derSz _ _ _ =>
      if out then ⟨8, [48, 6, 2] ++ der.take derSz, 8⟩
      else ⟨LENGTH_ONLY_E, [], 8⟩,
    wc_ecc_set_rng := fun _ _ => 0,
    wc_ecc_shared_secret := fun _ _ _ => ⟨0, [1, 1, 2, 2], 4⟩ }

/-- Allocators under which `XMALLOC` succeeds and `NewByteArray` fails. -/
def Allocators.noArray : Allocators := ⟨fun _ => true, fun _ => false⟩

/-- ECC primitives whose signing routine fails with status -1 against a size
estimate of 8. -/
def EccPrims.failing : EccPrims Unit Unit :=
  ⟨fun _ => 8, fun _ _ _ _ _ => ⟨-1, [], 8⟩, fun _ _ _ _ _ => (0, 0)⟩

/-- MD5 primitives for the closed statements below, on states that consist
of the bytes absorbed so far: update appends the `len` bytes found at the
pointer and reports 0; copy overwrites the destination with the source and
reports 0, or BAD_FUNC_ARG when a pointer is null. -/
def Md5Prims.sample : Md5Prims (List Byte) :=
  ⟨fun md5 data off len => (0, md5 ++ (data.drop off.toNat).take len),
    fun src dst =>
      match src, dst with
      | some s, some _ => (0, some s, some s)
      | _, _ => (BAD_FUNC_ARG, src, dst)⟩

/-- Output primitives on spec-modelled keys over the additive monoid of the
natural numbers, for the closed statements below: encoders do nothing and
`wc_ecc_set_rng` succeeds. -/
def EccOutPrims.idle : EccOutPrims (SpecEccKey Nat) Unit :=
  { wc_ecc_size := fun _ => 0,
    wc_ecc_export_private_only := fun _ _ => ⟨0, [], 0⟩,
    wc_ecc_export_x963 := fun _ _ _ => ⟨0, [], 0⟩,
    wc_EccKeyToDer := fun _ _ => ⟨0, []⟩,
    wc_EccPublicKeyDerSize := fun _ _ => 0,
    wc_EccPublicKeyToDer := fun _ _ _ => ⟨0, []⟩,
    wc_EccKeyDerSize := fun _ _ => 0,
    wc_EccPrivateKeyToDer := fun _ _ => ⟨0, []⟩,
    wc_ecc_get_oid := fun _ => (0, none, 0),
    wc_CreatePKCS8Key := fun _ _ _ _ _ _ _ => ⟨0, [], 0⟩,
    wc_ecc_set_rng := fun _ _ => 0,
    wc_ecc_shared_secret := fun _ _ _ => ⟨0, [], 0⟩ }

/-- A block cipher for the closed statements: both directions combine the
block with the leading bytes of the key. -/
def SpecBlockCipher.keyXor : SpecBlockCipher :=
  ⟨fun key x => xorBytes x key, fun key x => xorBytes x key⟩

/-- A 16-byte key. -/
def sampleAesKey : List Byte :=
  [1, 2, 3, 4, 5, 6, 7, 8, 9, 10, 11, 12, 13, 14, 15, 16]

/-- A 16-byte IV. -/
def sampleAesIv : List Byte :=
  [160, 161, 162, 163, 164, 165, 166, 167, 168, 169, 170, 171, 172, 173, 174,
    175]

/-- A plaintext of two blocks. -/
def samplePlain : List Byte :=
  [0, 1, 2, 3, 4, 5, 6, 7, 8, 9, 10, 11, 12, 13, 14, 15, 16, 17, 18, 19, 20,
    21, 22, 23, 24, 25, 26, 27, 28, 29, 30, 31]

/-! ## Shared lemmas -/

theorem toWord32_of_nonneg (x : Int) (h0 : 0 ≤ x) (h1 : x < 4294967296) :
    (toWord32 x : Int) = x := by
  unfold toWord32
  rw [Int.emod_eq_of_lt h0 h1]
  exact Int.toNat_of_nonneg h0

/-! ## AES update: bounds (C1, C2) -/

/-- C1. The byte-array AES update with a non-null context and arrays,
non-negative offsets and a positive length invokes the cipher primitive
(exactly once) if and only if offset + length and outputOffset + length fit
the input and output array lengths; the sums are the same whether taken
exactly or modulo 2^32; in every other such call BUFFER_E is thrown, 0 is
returned and the primitive is not invoked. -/
theorem aes_bytes_update_bounds {Aes : Type} (P : AesPrims Aes) (a : Aes)
    (opmode : Int) (input output : JByteArray) (offset length outputOffset : Int)
    (hin : input.elements ≠ none) (hout : output.elements ≠ none)
    (hjo : isJint offset) (hjl : isJint length) (hjq : isJint outputOffset)
    (ho : 0 ≤ offset) (hq : 0 ≤ outputOffset) (hl : 0 < length) :
    ((Java_com_wolfssl_wolfcrypt_Aes_native_1update_1internal__I_3BII_3BI P
        ⟨some a, false⟩ opmode input offset length output
        outputOffset).calls.length = 1
      ↔ (offset + length ≤ input.length
          ∧ outputOffset + length ≤ output.length))
    ∧ ((toWord32 (offset + length) : Int) = offset + length
        ∧ (toWord32 (outputOffset + length) : Int) = outputOffset + length)
    ∧ (¬ (offset + length ≤ input.length
          ∧ outputOffset + length ≤ output.length) →
        Java_com_wolfssl_wolfcrypt_Aes_native_1update_1internal__I_3BII_3BI P
          ⟨some a, false⟩ opmode input offset length output outputOffset
          = ⟨0, [JniThrow.fromError BUFFER_E], []⟩) := by
  obtain ⟨_, hjo2⟩ := hjo
  obtain ⟨_, hjl2⟩ := hjl
  obtain ⟨_, hjq2⟩ := hjq
  have e1 := toWord32_of_nonneg (offset + length) (by omega) (by omega)
  have e2 := toWord32_of_nonneg (outputOffset + length) (by omega) (by omega)
  obtain ⟨i, hi⟩ := Option.ne_none_iff_exists'.mp hin
  obtain ⟨o, ho'⟩ := Option.ne_none_iff_exists'.mp hout
  have hneg : ¬ (offset < 0 ∨ length < 0 ∨ outputOffset < 0) := by omega
  have hl0 : length ≠ 0 := by omega
  simp only [Java_com_wolfssl_wolfcrypt_Aes_native_1update_1internal__I_3BII_3BI,
    aesBytesStatus, aesFinish, hi, ho', hneg, hl0, if_false, Bool.false_eq_true]
  refine ⟨?_, ⟨e1, e2⟩, ?_⟩
  · by_cases c1 : toWord32 (offset + length) > input.length
    · simp only [c1, if_true]
      have : ¬ (offset + length ≤ input.length) := by omega
      simp [this, BUFFER_E]
    · by_cases c2 : toWord32 (outputOffset + length) > output.length
      · simp only [c1, c2, if_true, if_false]
        have : ¬ (outputOffset + length ≤ output.length) := by omega
        simp [this, BUFFER_E]
      · simp only [c1, c2, if_false]
        have h1 : offset + length ≤ input.length := by omega
        have h2 : outputOffset + length ≤ output.length := by omega
        simp only [h1, h2, and_self, iff_true]
        split <;> split <;> rfl
  · intro hnot
    by_cases c1 : toWord32 (offset + length) > input.length
    · simp [c1, BUFFER_E]
    · by_cases c2 : toWord32 (outputOffset + length) > output.length
      · simp [c1, c2, BUFFER_E]
      · exfalso
        apply hnot
        constructor <;> omega

/-- Witness for C1: a 16-byte update at offset 16 of a 32-byte input into a
16-byte output is in bounds and reaches the primitive; the same update at
output offset 16 is out of bounds and is rejected with BUFFER_E. -/
theorem aes_bytes_update_bounds_witness :
    (Java_com_wolfssl_wolfcrypt_Aes_native_1update_1internal__I_3BII_3BI
        AesPrims.lenient ⟨some (), false⟩ AES_ENCRYPTION (zeroArray 32) 16 16
        (zeroArray 16) 0).calls.length = 1
    ∧ Java_com_wolfssl_wolfcrypt_Aes_native_1update_1internal__I_3BII_3BI
        AesPrims.lenient ⟨some (), false⟩ AES_ENCRYPTION (zeroArray 32) 16 16
        (zeroArray 16) 16 = ⟨0, [JniThrow.fromError BUFFER_E], []⟩ :=
  ⟨(aes_bytes_update_bounds AesPrims.lenient () AES_ENCRYPTION (zeroArray 32)
      (zeroArray 16) 16 16 0 (by decide) (by decide) (by decide) (by decide)
      (by decide) (by decide) (by decide) (by decide)).1.mpr
      ⟨by decide, by decide⟩,
    (aes_bytes_update_bounds AesPrims.lenient () AES_ENCRYPTION (zeroArray 32)
      (zeroArray 16) 16 16 16 (by decide) (by decide) (by decide) (by decide)
      (by decide) (by decide) (by decide) (by decide)).2.2 (by decide)⟩

/-- C2 (the code at the failing input). The direct-ByteBuffer AES update
called with outputOffset = -16 and length = 32 on an output buffer of limit
16: the requested region [-16, 16) is not inside [0, 16), yet no error is
raised, the primitive is invoked on 32 bytes starting at the buffer address,
and 32 is returned. -/
theorem aes_direct_update_negative_outputOffset :
    Java_com_wolfssl_wolfcrypt_Aes_native_1update_1internal__ILjava_nio_ByteBuffer_2IILjava_nio_ByteBuffer_2I
      AesPrims.lenient ⟨some (), false⟩ AES_ENCRYPTION (zeroBuffer 32) 0 32
      (zeroBuffer 16) (-16) = ⟨32, [], [⟨true, (), 0, 0, 32⟩]⟩
    ∧ (zeroBuffer 16).limit < 32 := by
  decide

/-! ## AES update: misaligned lengths and the returned count (C3, C4) -/

/-- C3 (counterexample). A 17-byte byte-array update, in bounds, with cipher
primitives that report success: no exception is raised and 17 is returned,
although 17 is not a multiple of 16. -/
theorem aes_update_misaligned_accepted :
    ¬ ((17 : Int) % 16 = 0)
    ∧ Java_com_wolfssl_wolfcrypt_Aes_native_1update_1internal__I_3BII_3BI
        AesPrims.lenient ⟨some (), false⟩ AES_ENCRYPTION (zeroArray 32) 0 17
        (zeroArray 32) 0 = ⟨17, [], [⟨true, (), 0, 0, 17⟩]⟩ := by
  decide

/-- C3 (amended). For either AES update variant with a non-null context and
buffers, in-bounds non-negative offsets and a positive length, aligned or
not, the glue performs no alignment check of its own: the cipher primitive
is invoked exactly once on exactly `length` bytes, and the call is rejected
(the primitive's code thrown, 0 returned) exactly when that primitive reports
a non-zero status; otherwise `length` is returned without an exception. -/
theorem aes_update_alignment_delegated {Aes : Type} (P : AesPrims Aes)
    (a : Aes) (opmode : Int) (offset length outputOffset : Int)
    (hjo : isJint offset) (hjl : isJint length) (hjq : isJint outputOffset)
    (ho : 0 ≤ offset) (hq : 0 ≤ outputOffset) (hl : 0 < length) :
    (∀ input output : JByteArray,
      input.elements ≠ none → output.elements ≠ none →
      offset + length ≤ input.length → outputOffset + length ≤ output.length →
      Java_com_wolfssl_wolfcrypt_Aes_native_1update_1internal__I_3BII_3BI P
        ⟨some a, false⟩ opmode input offset length output outputOffset
      = aesFinish length
          (if opmode = AES_ENCRYPTION then
            (P.wc_AesCbcEncrypt a outputOffset offset length.toNat,
              [⟨true, a, outputOffset, offset, length.toNat⟩])
          else
            (P.wc_AesCbcDecrypt a outputOffset offset length.toNat,
              [⟨false, a, outputOffset, offset, length.toNat⟩])))
    ∧ (∀ input output : JDirectBuffer,
      input.address ≠ none → output.address ≠ none →
      offset + length ≤ input.limit → outputOffset + length ≤ output.limit →
      Java_com_wolfssl_wolfcrypt_Aes_native_1update_1internal__ILjava_nio_ByteBuffer_2IILjava_nio_ByteBuffer_2I
        P ⟨some a, false⟩ opmode input offset length output outputOffset
      = aesFinish length
          (if opmode = AES_ENCRYPTION then
            (P.wc_AesCbcEncrypt a 0 offset length.toNat,
              [⟨true, a, 0, offset, length.toNat⟩])
          else
            (P.wc_AesCbcDecrypt a 0 offset length.toNat,
              [⟨false, a, 0, offset, length.toNat⟩])))
    ∧ (∀ r : Int × List (AesCbcCall Aes),
        (r.1 = 0 → aesFinish length r = ⟨length, [], r.2⟩)
        ∧ (r.1 ≠ 0 → aesFinish length r
            = ⟨0, [JniThrow.fromError r.1], r.2⟩)) := by
  obtain ⟨_, hjo2⟩ := hjo
  obtain ⟨_, hjl2⟩ := hjl
  obtain ⟨_, hjq2⟩ := hjq
  have e1 := toWord32_of_nonneg (offset + length) (by omega) (by omega)
  have e2 := toWord32_of_nonneg (outputOffset + length) (by omega) (by omega)
  have e3 : toWord32 length = length.toNat := by
    have := toWord32_of_nonneg length (by omega) (by omega)
    omega
  have hl0 : length ≠ 0 := by omega
  refine ⟨?_, ?_, ?_⟩
  · intro input output hin hout hb1 hb2
    obtain ⟨i, hi⟩ := Option.ne_none_iff_exists'.mp hin
    obtain ⟨o, ho'⟩ := Option.ne_none_iff_exists'.mp hout
    have hneg : ¬ (offset < 0 ∨ length < 0 ∨ outputOffset < 0) := by omega
    have c1 : ¬ (toWord32 (offset + length) > input.length) := by omega
    have c2 : ¬ (toWord32 (outputOffset + length) > output.length) := by omega
    simp only [Java_com_wolfssl_wolfcrypt_Aes_native_1update_1internal__I_3BII_3BI,
      aesBytesStatus, hi, ho', hneg, hl0, c1, c2, e3, if_false,
      Bool.false_eq_true]
  · intro input output hin hout hb1 hb2
    obtain ⟨i, hi⟩ := Option.ne_none_iff_exists'.mp hin
    obtain ⟨o, ho'⟩ := Option.ne_none_iff_exists'.mp hout
    have hneg : ¬ (offset < 0 ∨ length < 0) := by omega
    have c1 : ¬ (toWord32 (offset + length) > input.limit) := by omega
    have c2 : ¬ (toWord32 (outputOffset + length) > output.limit) := by omega
    simp only [Java_com_wolfssl_wolfcrypt_Aes_native_1update_1internal__ILjava_nio_ByteBuffer_2IILjava_nio_ByteBuffer_2I,
      aesDirectStatus, hi, ho', hneg, c1, c2, e3, if_false,
      Bool.false_eq_true]
  · intro r
    constructor
    · intro h
      simp [aesFinish, h]
    · intro h
      simp [aesFinish, h]

/-- Witness for C3 (amended): a 17-byte update in bounds with a decrypt
primitive reporting -1 is rejected with that code; with lenient primitives
the direct variant returns 17. -/
theorem aes_update_alignment_delegated_witness :
    Java_com_wolfssl_wolfcrypt_Aes_native_1update_1internal__I_3BII_3BI
        (⟨fun _ _ _ _ => 0, fun _ _ _ _ => -1⟩ : AesPrims Unit)
        ⟨some (), false⟩ 1 (zeroArray 32) 0 17 (zeroArray 32) 0
      = aesFinish 17 (-1, [⟨false, (), 0, 0, 17⟩])
    ∧ aesFinish 17 ((-1 : Int), [(⟨false, (), 0, 0, 17⟩ : AesCbcCall Unit)])
      = ⟨0, [JniThrow.fromError (-1)], [⟨false, (), 0, 0, 17⟩]⟩ :=
  ⟨(aes_update_alignment_delegated
      (⟨fun _ _ _ _ => 0, fun _ _ _ _ => -1⟩ : AesPrims Unit) () 1 0 17 0
      (by decide) (by decide) (by decide) (by decide) (by decide)
      (by decide)).1 (zeroArray 32) (zeroArray 32) (by decide) (by decide)
      (by decide) (by decide),
    ((aes_update_alignment_delegated
      (⟨fun _ _ _ _ => 0, fun _ _ _ _ => -1⟩ : AesPrims Unit) () 1 0 17 0
      (by decide) (by decide) (by decide) (by decide) (by decide)
      (by decide)).2.2 (-1, [⟨false, (), 0, 0, 17⟩])).2 (by decide)⟩

/-- C4. For every call of either AES update variant: when the handle lookup
left an exception pending, 0 is returned under that exception; otherwise the
call returns `length` without an exception when the internal status is 0, and
returns 0 with exactly one exception, carrying the status, when it is not.
Hence an exception is raised if and only if an error occurred, and then 0 is
returned.  A zero-length byte-array update with non-null arguments and
non-negative offsets returns 0 without an exception and without invoking the
primitive. -/
theorem aes_update_return_value {Aes : Type} (P : AesPrims Aes)
    (this : NativeStruct Aes) (opmode offset length outputOffset : Int) :
    (∀ input output : JByteArray,
      (this.threw = true →
        Java_com_wolfssl_wolfcrypt_Aes_native_1update_1internal__I_3BII_3BI P
          this opmode input offset length output outputOffset
        = ⟨0, [JniThrow.nativeStruct], []⟩)
      ∧ (this.threw = false →
          (aesBytesStatus P this.ptr opmode input offset length output
            outputOffset).1 = 0 →
          (Java_com_wolfssl_wolfcrypt_Aes_native_1update_1internal__I_3BII_3BI
            P this opmode input offset length output outputOffset).ret = length
          ∧ (Java_com_wolfssl_wolfcrypt_Aes_native_1update_1internal__I_3BII_3BI
            P this opmode input offset length output outputOffset).thrown = [])
      ∧ (this.threw = false →
          (aesBytesStatus P this.ptr opmode input offset length output
            outputOffset).1 ≠ 0 →
          (Java_com_wolfssl_wolfcrypt_Aes_native_1update_1internal__I_3BII_3BI
            P this opmode input offset length output outputOffset).ret = 0
          ∧ (Java_com_wolfssl_wolfcrypt_Aes_native_1update_1internal__I_3BII_3BI
            P this opmode input offset length output outputOffset).thrown
            = [JniThrow.fromError (aesBytesStatus P this.ptr opmode input
                offset length output outputOffset).1])
      ∧ (this.threw = false → this.ptr ≠ none → input.elements ≠ none →
          output.elements ≠ none → 0 ≤ offset → 0 ≤ outputOffset →
          length = 0 →
          Java_com_wolfssl_wolfcrypt_Aes_native_1update_1internal__I_3BII_3BI
            P this opmode input offset length output outputOffset
          = ⟨0, [], []⟩))
    ∧ (∀ input output : JDirectBuffer,
      (this.threw = true →
        Java_com_wolfssl_wolfcrypt_Aes_native_1update_1internal__ILjava_nio_ByteBuffer_2IILjava_nio_ByteBuffer_2I
          P this opmode input offset length output outputOffset
        = ⟨0, [JniThrow.nativeStruct], []⟩)
      ∧ (this.threw = false →
          (aesDirectStatus P this.ptr opmode input offset length output
            outputOffset).1 = 0 →
          (Java_com_wolfssl_wolfcrypt_Aes_native_1update_1internal__ILjava_nio_ByteBuffer_2IILjava_nio_ByteBuffer_2I
            P this opmode input offset length output outputOffset).ret = length
          ∧ (Java_com_wolfssl_wolfcrypt_Aes_native_1update_1internal__ILjava_nio_ByteBuffer_2IILjava_nio_ByteBuffer_2I
            P this opmode input offset length output outputOffset).thrown = [])
      ∧ (this.threw = false →
          (aesDirectStatus P this.ptr opmode input offset length output
            outputOffset).1 ≠ 0 →
          (Java_com_wolfssl_wolfcrypt_Aes_native_1update_1internal__ILjava_nio_ByteBuffer_2IILjava_nio_ByteBuffer_2I
            P this opmode input offset length output outputOffset).ret = 0
          ∧ (Java_com_wolfssl_wolfcrypt_Aes_native_1update_1internal__ILjava_nio_ByteBuffer_2IILjava_nio_ByteBuffer_2I
            P this opmode input offset length output outputOffset).thrown
            = [JniThrow.fromError (aesDirectStatus P this.ptr opmode input
                offset length output outputOffset).1])) := by
  refine ⟨?_, ?_⟩
  · intro input output
    refine ⟨?_, ?_, ?_, ?_⟩
    · intro ht
      simp [Java_com_wolfssl_wolfcrypt_Aes_native_1update_1internal__I_3BII_3BI,
        ht]
    · intro ht hs
      simp [Java_com_wolfssl_wolfcrypt_Aes_native_1update_1internal__I_3BII_3BI,
        ht, aesFinish, hs]
    · intro ht hs
      simp [Java_com_wolfssl_wolfcrypt_Aes_native_1update_1internal__I_3BII_3BI,
        ht, aesFinish, hs]
    · intro ht hp hin hout ho hq hl
      obtain ⟨a, ha⟩ := Option.ne_none_iff_exists'.mp hp
      obtain ⟨i, hi⟩ := Option.ne_none_iff_exists'.mp hin
      obtain ⟨o, ho'⟩ := Option.ne_none_iff_exists'.mp hout
      subst hl
      have hneg : ¬ (offset < 0 ∨ (0 : Int) < 0 ∨ outputOffset < 0) := by omega
      simp only [Java_com_wolfssl_wolfcrypt_Aes_native_1update_1internal__I_3BII_3BI,
        ht, aesFinish, aesBytesStatus, ha, hi, ho', hneg, if_false, if_true,
        Bool.false_eq_true, ne_eq, not_true_eq_false]
  · intro input output
    refine ⟨?_, ?_, ?_⟩
    · intro ht
      simp [Java_com_wolfssl_wolfcrypt_Aes_native_1update_1internal__ILjava_nio_ByteBuffer_2IILjava_nio_ByteBuffer_2I,
        ht]
    · intro ht hs
      simp [Java_com_wolfssl_wolfcrypt_Aes_native_1update_1internal__ILjava_nio_ByteBuffer_2IILjava_nio_ByteBuffer_2I,
        ht, aesFinish, hs]
    · intro ht hs
      simp [Java_com_wolfssl_wolfcrypt_Aes_native_1update_1internal__ILjava_nio_ByteBuffer_2IILjava_nio_ByteBuffer_2I,
        ht, aesFinish, hs]

/-- Witness for C4: a zero-length byte-array update on non-null arguments
returns 0 with no exception and no primitive call; a call whose handle lookup
raised returns 0 under that exception. -/
theorem aes_update_return_value_witness :
    Java_com_wolfssl_wolfcrypt_Aes_native_1update_1internal__I_3BII_3BI
        AesPrims.lenient ⟨some (), false⟩ AES_ENCRYPTION (zeroArray 16) 0 0
        (zeroArray 16) 0 = ⟨0, [], []⟩
    ∧ Java_com_wolfssl_wolfcrypt_Aes_native_1update_1internal__ILjava_nio_ByteBuffer_2IILjava_nio_ByteBuffer_2I
        AesPrims.lenient ⟨none, true⟩ AES_ENCRYPTION (zeroBuffer 16) 0 16
        (zeroBuffer 16) 0 = ⟨0, [JniThrow.nativeStruct], []⟩ :=
  ⟨((aes_update_return_value AesPrims.lenient ⟨some (), false⟩ AES_ENCRYPTION
      0 0 0).1 (zeroArray 16) (zeroArray 16)).2.2.2 rfl (by decide)
      (by decide) (by decide) (by decide) (by decide) rfl,
    ((aes_update_return_value AesPrims.lenient ⟨none, true⟩ AES_ENCRYPTION
      0 16 0).2 (zeroBuffer 16) (zeroBuffer 16)).1 rfl⟩

/-! ## ECC verifyHash (C5, C6) -/

/-- C6 (counterexample). A call of verifyHash with a non-null key, hash and
signature in which the primitive reports the parse error -140 for the
(one-byte) signature: the exception is raised. -/
theorem verify_hash_throws_on_primitive_error :
    Java_com_wolfssl_wolfcrypt_Ecc_wc_1ecc_1verify_1hash EccPrims.sample
      ⟨some (), false⟩ (arrayOf [7]) (arrayOf [48])
    = ⟨false, [JniThrow.fromError (-140)], [⟨[48], 1, [7], 1, ()⟩]⟩ := by
  decide

/-- C6 (amended). For every call of verifyHash with a non-null key, hash and
signature and no pending lookup exception, the primitive is invoked once; an
exception is raised if and only if the primitive reports a non-zero error
code, and it carries that code; the returned boolean is true exactly when
the status flag is 1.  So a signature that the primitive judges with code 0
and flag other than 1 yields false without an exception. -/
theorem verify_hash_exception_iff_error {Key Rng : Type}
    (P : EccPrims Key Rng) (k : Key) (h s : List Byte) (hashSz sigSz : Nat) :
    ((P.wc_ecc_verify_hash s sigSz h hashSz k).1 = 0 →
      (Java_com_wolfssl_wolfcrypt_Ecc_wc_1ecc_1verify_1hash P ⟨some k, false⟩
        ⟨some h, hashSz⟩ ⟨some s, sigSz⟩).thrown = [])
    ∧ ((P.wc_ecc_verify_hash s sigSz h hashSz k).1 ≠ 0 →
      (Java_com_wolfssl_wolfcrypt_Ecc_wc_1ecc_1verify_1hash P ⟨some k, false⟩
        ⟨some h, hashSz⟩ ⟨some s, sigSz⟩).thrown
      = [JniThrow.fromError (P.wc_ecc_verify_hash s sigSz h hashSz k).1])
    ∧ ((Java_com_wolfssl_wolfcrypt_Ecc_wc_1ecc_1verify_1hash P ⟨some k, false⟩
        ⟨some h, hashSz⟩ ⟨some s, sigSz⟩).ret = true
      ↔ (P.wc_ecc_verify_hash s sigSz h hashSz k).2 = 1)
    ∧ (Java_com_wolfssl_wolfcrypt_Ecc_wc_1ecc_1verify_1hash P ⟨some k, false⟩
        ⟨some h, hashSz⟩ ⟨some s, sigSz⟩).calls = [⟨s, sigSz, h, hashSz, k⟩]
    ∧ ((P.wc_ecc_verify_hash s sigSz h hashSz k).1 = 0 →
      (P.wc_ecc_verify_hash s sigSz h hashSz k).2 ≠ 1 →
      Java_com_wolfssl_wolfcrypt_Ecc_wc_1ecc_1verify_1hash P ⟨some k, false⟩
        ⟨some h, hashSz⟩ ⟨some s, sigSz⟩
      = ⟨false, [], [⟨s, sigSz, h, hashSz, k⟩]⟩) := by
  refine ⟨?_, ?_, ?_, ?_, ?_⟩
  · intro h0
    simp [Java_com_wolfssl_wolfcrypt_Ecc_wc_1ecc_1verify_1hash, verifyStatus,
      h0]
  · intro h0
    simp [Java_com_wolfssl_wolfcrypt_Ecc_wc_1ecc_1verify_1hash, verifyStatus,
      h0]
  · simp [Java_com_wolfssl_wolfcrypt_Ecc_wc_1ecc_1verify_1hash, verifyStatus]
  · simp [Java_com_wolfssl_wolfcrypt_Ecc_wc_1ecc_1verify_1hash, verifyStatus]
  · intro h0 h1
    simp [Java_com_wolfssl_wolfcrypt_Ecc_wc_1ecc_1verify_1hash, verifyStatus,
      h0, h1]

/-- Witness for C6 (amended): with the sample primitives a well-formed but
wrong signature yields false without an exception. -/
theorem verify_hash_exception_iff_error_witness :
    Java_com_wolfssl_wolfcrypt_Ecc_wc_1ecc_1verify_1hash EccPrims.sample
      ⟨some (), false⟩ ⟨some [7], 1⟩ ⟨some [1, 2, 3, 5], 4⟩
    = ⟨false, [], [⟨[1, 2, 3, 5], 4, [7], 1, ()⟩]⟩ :=
  (verify_hash_exception_iff_error EccPrims.sample () [7] [1, 2, 3, 5] 1
    4).2.2.2.2 (by decide) (by decide)

/-! ## ECC signHash (C7) -/

theorem store_length (buf written : List Byte) :
    (store buf written).length = buf.length := by
  simp only [store, List.length_take, List.length_append, List.length_drop]
  omega

theorem newArrayFrom_length (n : Nat) (src : List Byte) :
    (newArrayFrom n src).length = n := by
  simp only [newArrayFrom, List.length_append, List.length_take,
    List.length_replicate]
  omega

theorem newArrayFrom_eq_take (n : Nat) (src : List Byte)
    (h : n ≤ src.length) : newArrayFrom n src = src.take n := by
  have h0 : n - src.length = 0 := by omega
  simp [newArrayFrom, h0]

/-- C7. The ECC signHash entry point sizes and trims its output.  Whenever
the signature buffer is allocated, the size requested is wc_ecc_sig_size(key)
(as a word32) and the buffer handed to the primitive keeps that size.
Whenever a signature is returned, the primitive ran with status 0, the
signature's length is the length the primitive reported, its bytes are the
first that-many bytes of the buffer, and that length is at most
wc_ecc_sig_size(key).  If the primitive reports a length greater than
wc_ecc_sig_size(key), no signature is returned and an exception is raised;
when the primitive's status was 0 this is the size-check error followed by
BUFFER_E. -/
theorem sign_hash_sized_and_trimmed {Key Rng : Type} (P : EccPrims Key Rng)
    (A : Allocators) (this : NativeStruct Key) (hash_object : JByteArray)
    (rng_object : NativeStruct Rng) :
    (∀ cap, (Java_com_wolfssl_wolfcrypt_Ecc_wc_1ecc_1sign_1hash P A this
          hash_object rng_object).allocated = some cap →
        ∃ k, this.ptr = some k ∧ cap = toWord32 (P.wc_ecc_sig_size k)
          ∧ ∀ w, (store (List.replicate cap 0) w).length = cap)
    ∧ (∀ sig, (Java_com_wolfssl_wolfcrypt_Ecc_wc_1ecc_1sign_1hash P A this
          hash_object rng_object).result = some sig →
        ∃ k g h, this.ptr = some k ∧ rng_object.ptr = some g
          ∧ hash_object.elements = some h
          ∧ (P.wc_ecc_sign_hash h hash_object.length
              (toWord32 (P.wc_ecc_sig_size k)) g k).ret = 0
          ∧ sig.length = (P.wc_ecc_sign_hash h hash_object.length
              (toWord32 (P.wc_ecc_sig_size k)) g k).outLen
          ∧ sig = (store (List.replicate (toWord32 (P.wc_ecc_sig_size k)) 0)
                (P.wc_ecc_sign_hash h hash_object.length
                  (toWord32 (P.wc_ecc_sig_size k)) g k).written).take
              (P.wc_ecc_sign_hash h hash_object.length
                (toWord32 (P.wc_ecc_sig_size k)) g k).outLen
          ∧ sig.length ≤ toWord32 (P.wc_ecc_sig_size k))
    ∧ (∀ k g h, this.threw = false → rng_object.threw = false →
        this.ptr = some k → rng_object.ptr = some g →
        hash_object.elements = some h →
        A.xmalloc (toWord32 (P.wc_ecc_sig_size k)) = true →
        toWord32 (P.wc_ecc_sig_size k)
          < (P.wc_ecc_sign_hash h hash_object.length
              (toWord32 (P.wc_ecc_sig_size k)) g k).outLen →
        (Java_com_wolfssl_wolfcrypt_Ecc_wc_1ecc_1sign_1hash P A this
          hash_object rng_object).result = none
        ∧ (Java_com_wolfssl_wolfcrypt_Ecc_wc_1ecc_1sign_1hash P A this
          hash_object rng_object).thrown ≠ []
        ∧ ((P.wc_ecc_sign_hash h hash_object.length
              (toWord32 (P.wc_ecc_sig_size k)) g k).ret = 0 →
          (Java_com_wolfssl_wolfcrypt_Ecc_wc_1ecc_1sign_1hash P A this
            hash_object rng_object).thrown
          = [JniThrow.message sigSizeMsg, JniThrow.fromError BUFFER_E])) := by
  refine ⟨?_, ?_, ?_⟩
  · intro cap hcap
    unfold Java_com_wolfssl_wolfcrypt_Ecc_wc_1ecc_1sign_1hash at hcap
    split at hcap
    · simp at hcap
    · split at hcap
      · simp at hcap
      · split at hcap
        · rename_i k g h hk hg hh
          refine ⟨k, hk, ?_, ?_⟩
          · simp only at hcap
            split at hcap
            · simp at hcap
            · split at hcap
              · simpa using hcap.symm
              · split at hcap
                · simpa using hcap.symm
                · split at hcap
                  · simpa using hcap.symm
                  · simpa using hcap.symm
          · intro w
            rw [store_length, List.length_replicate]
        · simp at hcap
  · intro sig hsig
    unfold Java_com_wolfssl_wolfcrypt_Ecc_wc_1ecc_1sign_1hash at hsig
    split at hsig
    · simp at hsig
    · split at hsig
      · simp at hsig
      · split at hsig
        · rename_i k g h hk hg hh
          refine ⟨k, g, h, hk, hg, hh, ?_⟩
          simp only at hsig
          split at hsig
          · simp at hsig
          · split at hsig
            · simp at hsig
            · split at hsig
              · simp at hsig
              · split at hsig
                · simp at hsig
                · rename_i hret hlt _
                  have hret0 : (P.wc_ecc_sign_hash h hash_object.length
                      (toWord32 (P.wc_ecc_sig_size k)) g k).ret = 0 := by
                    simpa using hret
                  have hle : (P.wc_ecc_sign_hash h hash_object.length
                      (toWord32 (P.wc_ecc_sig_size k)) g k).outLen
                      ≤ toWord32 (P.wc_ecc_sig_size k) := by omega
                  have hsig2 := (Option.some.inj hsig).symm
                  have hlen : sig.length = (P.wc_ecc_sign_hash h
                      hash_object.length (toWord32 (P.wc_ecc_sig_size k)) g
                      k).outLen := by
                    rw [hsig2, newArrayFrom_length]
                  refine ⟨hret0, hlen, ?_, ?_⟩
                  · rw [hsig2]
                    apply newArrayFrom_eq_take
                    rw [store_length, List.length_replicate]
                    exact hle
                  · omega
        · simp at hsig
  · intro k g h ht hrt hk hg hh hx hlt
    have hx2 : ¬ (A.xmalloc (toWord32 (P.wc_ecc_sig_size k)) = false) := by
      simp [hx]
    unfold Java_com_wolfssl_wolfcrypt_Ecc_wc_1ecc_1sign_1hash
    simp only [ht, hrt, hk, hg, hh, hx2, hlt, if_false, if_true,
      Bool.false_eq_true]
    by_cases hr : (P.wc_ecc_sign_hash h hash_object.length
        (toWord32 (P.wc_ecc_sig_size k)) g k).ret = 0
    · simp [hr]
    · simp [hr]

/-- Witness for C7: with the sample primitives (estimate 8, actual length 4)
the four signature bytes are returned and 4 is within the estimate; with a
primitive reporting 9 bytes against an estimate of 8 no signature is
returned and the size-check error is raised. -/
theorem sign_hash_sized_and_trimmed_witness :
    (Java_com_wolfssl_wolfcrypt_Ecc_wc_1ecc_1sign_1hash EccPrims.sample
        Allocators.ok ⟨some (), false⟩ (arrayOf [7])
        ⟨some (), false⟩).result = some [1, 2, 3, 4]
    ∧ ([1, 2, 3, 4] : List Byte).length
        ≤ toWord32 (EccPrims.sample.wc_ecc_sig_size ())
    ∧ (Java_com_wolfssl_wolfcrypt_Ecc_wc_1ecc_1sign_1hash EccPrims.oversize
        Allocators.ok ⟨some (), false⟩ (arrayOf [7])
        ⟨some (), false⟩).result = none
    ∧ (Java_com_wolfssl_wolfcrypt_Ecc_wc_1ecc_1sign_1hash EccPrims.oversize
        Allocators.ok ⟨some (), false⟩ (arrayOf [7])
        ⟨some (), false⟩).thrown
      = [JniThrow.message sigSizeMsg, JniThrow.fromError BUFFER_E] := by
  have hres : (Java_com_wolfssl_wolfcrypt_Ecc_wc_1ecc_1sign_1hash
      EccPrims.sample Allocators.ok ⟨some (), false⟩ (arrayOf [7])
      ⟨some (), false⟩).result = some [1, 2, 3, 4] := by decide
  obtain ⟨_, _, _, _, _, _, _, _, _, hle⟩ :=
    (sign_hash_sized_and_trimmed EccPrims.sample Allocators.ok
      ⟨some (), false⟩ (arrayOf [7]) ⟨some (), false⟩).2.1 [1, 2, 3, 4] hres
  have hover := (sign_hash_sized_and_trimmed EccPrims.oversize Allocators.ok
      ⟨some (), false⟩ (arrayOf [7]) ⟨some (), false⟩).2.2 () () [7] rfl rfl
      rfl rfl rfl rfl (by decide)
  exact ⟨hres, hle, hover.1, hover.2.2 rfl⟩

/-! ## HMAC sizes (C8, C9, C10) -/

/-- C8. Whenever the HMAC final entry point returns a MAC array, the context
is non-null and the array's length equals GetHashSizeByType of the algorithm
tag stored in the context, which is also the value HmacSizeByType returns
(without an exception) for that tag. -/
theorem hmac_final_length {Hmac : Type} (B : HashBuild) (T : HashTypes)
    (macType : Hmac → Int) (wc_HmacFinal : Hmac → Int × List Byte)
    (A : Allocators) (this : NativeStruct Hmac) (r : HmacFinalResult Hmac)
    (mac : List Byte)
    (hr : Java_com_wolfssl_wolfcrypt_Hmac_wc_1HmacFinal B T macType
      wc_HmacFinal A this = some r)
    (hmac : r.result = some mac) :
    ∃ ctx, this.ptr = some ctx
      ∧ (mac.length : Int) = GetHashSizeByType B T (macType ctx)
      ∧ Java_com_wolfssl_wolfcrypt_Hmac_wc_1HmacSizeByType B T (macType ctx)
        = ((mac.length : Int), []) := by
  unfold Java_com_wolfssl_wolfcrypt_Hmac_wc_1HmacFinal at hr
  simp only at hr
  split at hr
  · have := (Option.some.inj hr).symm
    subst this
    simp at hmac
  · split at hr
    · simp at hr
    · rename_i ctx hctx
      refine ⟨ctx, hctx, ?_⟩
      split at hr
      · have := (Option.some.inj hr).symm
        subst this
        simp at hmac
      · rename_i hneg
        have hnn : 0 ≤ GetHashSizeByType B T (macType ctx) := by omega
        split at hr
        · split at hr
          · have := (Option.some.inj hr).symm
            subst this
            have hm := (Option.some.inj hmac).symm
            have hlen : (mac.length : Int)
                = GetHashSizeByType B T (macType ctx) := by
              rw [hm, newArrayFrom_length]
              exact Int.toNat_of_nonneg hnn
            refine ⟨hlen, ?_⟩
            simp [Java_com_wolfssl_wolfcrypt_Hmac_wc_1HmacSizeByType, hneg,
              hlen]
          · have := (Option.some.inj hr).symm
            subst this
            simp at hmac
        · have := (Option.some.inj hr).symm
          subst this
          simp at hmac

/-- Witness for C8: finalising a SHA-256 context (identifier 6) with the
sample primitive returns an array, and its length is 32. -/
theorem hmac_final_length_witness :
    ∃ ctx, (⟨some 6, false⟩ : NativeStruct Int).ptr = some ctx
      ∧ ((List.replicate 32 170 : List Byte).length : Int)
        = GetHashSizeByType HashBuild.all HashTypes.wolfssl (id ctx)
      ∧ Java_com_wolfssl_wolfcrypt_Hmac_wc_1HmacSizeByType HashBuild.all
          HashTypes.wolfssl (id ctx)
        = (((List.replicate 32 170 : List Byte).length : Int), []) :=
  hmac_final_length HashBuild.all HashTypes.wolfssl id sampleHmacFinal
    Allocators.ok ⟨some 6, false⟩
    ⟨some (List.replicate 32 170), [], [6]⟩ (List.replicate 32 170)
    (by decide) rfl

/-- C9. With all five hashes compiled in and pairwise different identifiers,
GetHashSizeByType maps WC_MD5, WC_SHA, WC_SHA256, WC_SHA384, WC_SHA512 to 16,
20, 32, 48, 64 and every other integer to BAD_FUNC_ARG; every non-negative
result lies between 1 and MAX_DIGEST_SIZE; HmacSizeByType returns the size
without an exception for the five identifiers, and throws BAD_FUNC_ARG and
returns 0 for any other type. -/
theorem hash_size_closed_table (T : HashTypes) (hd : T.Distinct) :
    (GetHashSizeByType HashBuild.all T T.WC_MD5 = 16
      ∧ GetHashSizeByType HashBuild.all T T.WC_SHA = 20
      ∧ GetHashSizeByType HashBuild.all T T.WC_SHA256 = 32
      ∧ GetHashSizeByType HashBuild.all T T.WC_SHA384 = 48
      ∧ GetHashSizeByType HashBuild.all T T.WC_SHA512 = 64)
    ∧ (∀ t : Int, t ≠ T.WC_MD5 → t ≠ T.WC_SHA → t ≠ T.WC_SHA256 →
        t ≠ T.WC_SHA384 → t ≠ T.WC_SHA512 →
        GetHashSizeByType HashBuild.all T t = BAD_FUNC_ARG)
    ∧ (∀ t : Int, 0 ≤ GetHashSizeByType HashBuild.all T t →
        1 ≤ GetHashSizeByType HashBuild.all T t
        ∧ GetHashSizeByType HashBuild.all T t ≤ MAX_DIGEST_SIZE)
    ∧ (Java_com_wolfssl_wolfcrypt_Hmac_wc_1HmacSizeByType HashBuild.all T
          T.WC_MD5 = (16, [])
      ∧ Java_com_wolfssl_wolfcrypt_Hmac_wc_1HmacSizeByType HashBuild.all T
          T.WC_SHA = (20, [])
      ∧ Java_com_wolfssl_wolfcrypt_Hmac_wc_1HmacSizeByType HashBuild.all T
          T.WC_SHA256 = (32, [])
      ∧ Java_com_wolfssl_wolfcrypt_Hmac_wc_1HmacSizeByType HashBuild.all T
          T.WC_SHA384 = (48, [])
      ∧ Java_com_wolfssl_wolfcrypt_Hmac_wc_1HmacSizeByType HashBuild.all T
          T.WC_SHA512 = (64, []))
    ∧ (∀ t : Int, t ≠ T.WC_MD5 → t ≠ T.WC_SHA → t ≠ T.WC_SHA256 →
        t ≠ T.WC_SHA384 → t ≠ T.WC_SHA512 →
        Java_com_wolfssl_wolfcrypt_Hmac_wc_1HmacSizeByType HashBuild.all T t
        = (0, [JniThrow.fromError BAD_FUNC_ARG])) := by
  simp only [HashTypes.Distinct, List.nodup_cons, List.mem_cons,
    List.mem_singleton, List.not_mem_nil, not_or, List.nodup_nil, or_false,
    not_false_eq_true, and_true] at hd
  obtain ⟨⟨h12, h13, h14, h15⟩, ⟨h23, h24, h25⟩, ⟨h34, h35⟩, h45⟩ := hd
  have e1 : GetHashSizeByType HashBuild.all T T.WC_MD5 = 16 := by
    simp [GetHashSizeByType, HashBuild.all, MD5_DIGEST_SIZE]
  have e2 : GetHashSizeByType HashBuild.all T T.WC_SHA = 20 := by
    simp [GetHashSizeByType, HashBuild.all, SHA_DIGEST_SIZE, Ne.symm h12]
  have e3 : GetHashSizeByType HashBuild.all T T.WC_SHA256 = 32 := by
    simp [GetHashSizeByType, HashBuild.all, SHA256_DIGEST_SIZE, Ne.symm h13,
      Ne.symm h23]
  have e4 : GetHashSizeByType HashBuild.all T T.WC_SHA384 = 48 := by
    simp [GetHashSizeByType, HashBuild.all, SHA384_DIGEST_SIZE, Ne.symm h14,
      Ne.symm h24, Ne.symm h34]
  have e5 : GetHashSizeByType HashBuild.all T T.WC_SHA512 = 64 := by
    simp [GetHashSizeByType, HashBuild.all, SHA512_DIGEST_SIZE, Ne.symm h15,
      Ne.symm h25, Ne.symm h35, Ne.symm h45]
  have eo : ∀ t : Int, t ≠ T.WC_MD5 → t ≠ T.WC_SHA → t ≠ T.WC_SHA256 →
      t ≠ T.WC_SHA384 → t ≠ T.WC_SHA512 →
      GetHashSizeByType HashBuild.all T t = BAD_FUNC_ARG := by
    intro t n1 n2 n3 n4 n5
    simp [GetHashSizeByType, n1, n2, n3, n4, n5]
  refine ⟨⟨e1, e2, e3, e4, e5⟩, eo, ?_, ?_, ?_⟩
  · intro t ht
    by_cases c1 : t = T.WC_MD5
    · subst c1; rw [e1]; decide
    · by_cases c2 : t = T.WC_SHA
      · subst c2; rw [e2]; decide
      · by_cases c3 : t = T.WC_SHA256
        · subst c3; rw [e3]; decide
        · by_cases c4 : t = T.WC_SHA384
          · subst c4; rw [e4]; decide
          · by_cases c5 : t = T.WC_SHA512
            · subst c5; rw [e5]; decide
            · rw [eo t c1 c2 c3 c4 c5] at ht
              exact absurd ht (by decide)
  · simp [Java_com_wolfssl_wolfcrypt_Hmac_wc_1HmacSizeByType, e1, e2, e3, e4,
      e5]
  · intro t n1 n2 n3 n4 n5
    have hb : BAD_FUNC_ARG < 0 := by decide
    simp [Java_com_wolfssl_wolfcrypt_Hmac_wc_1HmacSizeByType,
      eo t n1 n2 n3 n4 n5, hb]

/-- Witness for C9: the identifiers 3, 4, 6, 7, 8 of current wolfSSL
releases are pairwise different, so the table holds for them; in particular
SHA-384 (7) has size 48 and the unused identifier 5 is rejected. -/
theorem hash_size_closed_table_witness :
    HashTypes.wolfssl.Distinct
    ∧ GetHashSizeByType HashBuild.all HashTypes.wolfssl 7 = 48
    ∧ Java_com_wolfssl_wolfcrypt_Hmac_wc_1HmacSizeByType HashBuild.all
        HashTypes.wolfssl 5 = (0, [JniThrow.fromError BAD_FUNC_ARG]) :=
  ⟨by decide,
    (hash_size_closed_table HashTypes.wolfssl (by decide)).1.2.2.2.1,
    (hash_size_closed_table HashTypes.wolfssl (by decide)).2.2.2.2 5
      (by decide) (by decide) (by decide) (by decide) (by decide)⟩

/-- C10 (the code at the failing input). HMAC final on a context whose stored
algorithm tag is 0, which is none of the identifiers 3, 4, 6, 7, 8: no MAC is
returned and the finalisation primitive is not invoked, but the exception
raised carries error code 0, which differs from BAD_FUNC_ARG; HmacSizeByType
on the same tag raises BAD_FUNC_ARG. -/
theorem hmac_final_unsupported_type_throws_zero :
    Java_com_wolfssl_wolfcrypt_Hmac_wc_1HmacFinal HashBuild.all
        HashTypes.wolfssl id sampleHmacFinal Allocators.ok ⟨some 0, false⟩
      = some ⟨none, [JniThrow.fromError 0], []⟩
    ∧ BAD_FUNC_ARG ≠ 0
    ∧ GetHashSizeByType HashBuild.all HashTypes.wolfssl 0 = BAD_FUNC_ARG
    ∧ Java_com_wolfssl_wolfcrypt_Hmac_wc_1HmacSizeByType HashBuild.all
        HashTypes.wolfssl 0 = (0, [JniThrow.fromError BAD_FUNC_ARG]) := by
  decide

/-! ## ECC importPrivate (C11, C12) -/

theorem beValue_cons_zero (t : List Byte) : beValue (0 :: t) = beValue t := by
  simp [beValue]

/-- C11. Whenever importPrivate hands a private key to the import primitive,
the array is non-null and non-empty, the primitive is invoked once, and the
bytes handed over are the array with its first byte removed when that byte
is 0 (one byte only, size privSz - 1) and the array unchanged otherwise; the
big-endian value of the bytes handed over equals that of the array.  With a
non-null key and a non-empty private array the primitive is reached whenever
no curve name is given or the name resolves to a positive identifier. -/
theorem import_private_strips_one_zero {Key Rng : Type}
    (P : EccKeyPrims Key Rng) (this : NativeStruct Key)
    (priv_object pub_object : JByteArray) (curveName : JString) :
    (∀ c, c ∈ (Java_com_wolfssl_wolfcrypt_Ecc_wc_1ecc_1import_1private P this
          priv_object pub_object curveName).calls →
      ∃ p, priv_object.elements = some p ∧ priv_object.length ≠ 0
        ∧ (Java_com_wolfssl_wolfcrypt_Ecc_wc_1ecc_1import_1private P this
            priv_object pub_object curveName).calls = [c]
        ∧ (p.head? = some 0 →
            c.priv = p.tail ∧ c.privSz = priv_object.length - 1)
        ∧ (p.head? ≠ some 0 → c.priv = p ∧ c.privSz = priv_object.length)
        ∧ beValue c.priv = beValue p
        ∧ (priv_object.length = p.length → c.privSz = c.priv.length))
    ∧ (∀ k p, this.threw = false → this.ptr = some k →
        priv_object.elements = some p → priv_object.length ≠ 0 →
        (curveName.isNull = true
          ∨ 0 < P.wc_ecc_get_curve_id_from_name curveName.chars) →
        (Java_com_wolfssl_wolfcrypt_Ecc_wc_1ecc_1import_1private P this
          priv_object pub_object curveName).calls.length = 1) := by
  have key : ∀ (p : List Byte) (n : Nat), n ≠ 0 →
      ((p.head? = some 0 →
          p.drop (if p.head? = some 0 then 1 else 0) = p.tail
          ∧ n - (if p.head? = some 0 then 1 else 0) = n - 1)
        ∧ (p.head? ≠ some 0 →
          p.drop (if p.head? = some 0 then 1 else 0) = p
          ∧ n - (if p.head? = some 0 then 1 else 0) = n)
        ∧ beValue (p.drop (if p.head? = some 0 then 1 else 0)) = beValue p
        ∧ (n = p.length →
          n - (if p.head? = some 0 then 1 else 0)
            = (p.drop (if p.head? = some 0 then 1 else 0)).length)) := by
    intro p n hn
    by_cases h0 : p.head? = some 0
    · cases p with
      | nil => simp at h0
      | cons a t =>
        simp only [List.head?_cons, Option.some.injEq] at h0
        subst h0
        simp [beValue_cons_zero]
        intro h
        omega
    · simp [h0]
  refine ⟨?_, ?_⟩
  · intro c hc
    unfold Java_com_wolfssl_wolfcrypt_Ecc_wc_1ecc_1import_1private at hc ⊢
    cases ht : this.threw
    · simp only [ht, Bool.false_eq_true, if_false] at hc ⊢
      unfold importStatus at hc ⊢
      cases hp : this.ptr with
      | none => simp [hp] at hc
      | some k =>
        cases he : priv_object.elements with
        | none => simp [hp, he] at hc
        | some p =>
          refine ⟨p, rfl, ?_⟩
          simp only [hp, he] at hc ⊢
          by_cases hz : priv_object.length = 0
          · simp [hz] at hc
          · have hk := key p priv_object.length hz
            refine ⟨hz, ?_⟩
            simp only [hz, if_false] at hc ⊢
            cases hn : curveName.isNull
            · simp only [hn, if_true] at hc ⊢
              by_cases hid : P.wc_ecc_get_curve_id_from_name curveName.chars > 0
              · simp only [hid, if_true, List.mem_singleton] at hc ⊢
                subst hc
                exact ⟨rfl, hk⟩
              · simp [hid] at hc
            · simp only [hn, Bool.true_eq_false, if_false,
                List.mem_singleton] at hc ⊢
              subst hc
              exact ⟨rfl, hk⟩
    · simp [ht] at hc
  · intro k p ht hp he hz hcurve
    unfold Java_com_wolfssl_wolfcrypt_Ecc_wc_1ecc_1import_1private importStatus
    simp only [ht, hp, he, hz, Bool.false_eq_true, if_false]
    cases hn : curveName.isNull
    · have hid : P.wc_ecc_get_curve_id_from_name curveName.chars > 0 := by
        rcases hcurve with h | h
        · simp [h] at hn
        · exact h
      simp [hid]
    · simp

/-- Witness for C11: importing 0, 0, 5, 9 without a curve name hands the
primitive 0, 5, 9 (one zero byte removed) with size 3. -/
theorem import_private_strips_one_zero_witness :
    ∃ p, (arrayOf [0, 0, 5, 9]).elements = some p
      ∧ (arrayOf [0, 0, 5, 9]).length ≠ 0
      ∧ (Java_com_wolfssl_wolfcrypt_Ecc_wc_1ecc_1import_1private
          EccKeyPrims.sample ⟨some [], false⟩ (arrayOf [0, 0, 5, 9]) nullArray
          nullString).calls
        = [⟨[0, 5, 9], 3, none, 0, [], none⟩]
      ∧ (p.head? = some 0 →
          (⟨[0, 5, 9], 3, none, 0, [], none⟩ : ImportCall (List Byte)).priv
            = p.tail
          ∧ (⟨[0, 5, 9], 3, none, 0, [], none⟩ : ImportCall (List Byte)).privSz
            = (arrayOf [0, 0, 5, 9]).length - 1)
      ∧ (p.head? ≠ some 0 →
          (⟨[0, 5, 9], 3, none, 0, [], none⟩ : ImportCall (List Byte)).priv
            = p
          ∧ (⟨[0, 5, 9], 3, none, 0, [], none⟩ : ImportCall (List Byte)).privSz
            = (arrayOf [0, 0, 5, 9]).length)
      ∧ beValue
          (⟨[0, 5, 9], 3, none, 0, [], none⟩ : ImportCall (List Byte)).priv
        = beValue p
      ∧ ((arrayOf [0, 0, 5, 9]).length = p.length →
          (⟨[0, 5, 9], 3, none, 0, [], none⟩ : ImportCall (List Byte)).privSz
          = (⟨[0, 5, 9], 3, none, 0, [], none⟩ :
              ImportCall (List Byte)).priv.length) :=
  (import_private_strips_one_zero EccKeyPrims.sample ⟨some [], false⟩
    (arrayOf [0, 0, 5, 9]) nullArray nullString).1
    ⟨[0, 5, 9], 3, none, 0, [], none⟩ (by decide)

/-- C12 (counterexample). importPrivate with the curve name BOGUS, which the
sample registry cannot resolve: the exception raised carries BAD_FUNC_ARG and
the whole outcome is the one of a call whose private array is null, so the
error is not distinct from the invalid-argument error. -/
theorem import_private_unresolved_curve_is_bad_func_arg :
    EccKeyPrims.sample.wc_ecc_get_curve_id_from_name (some "BOGUS") = -1
    ∧ Java_com_wolfssl_wolfcrypt_Ecc_wc_1ecc_1import_1private
        EccKeyPrims.sample ⟨some [], false⟩ (arrayOf [5, 9]) nullArray
        (stringOf "BOGUS")
      = ⟨[JniThrow.fromError BAD_FUNC_ARG], [], some []⟩
    ∧ Java_com_wolfssl_wolfcrypt_Ecc_wc_1ecc_1import_1private
        EccKeyPrims.sample ⟨some [], false⟩ nullArray nullArray
        (stringOf "SECP256R1")
      = Java_com_wolfssl_wolfcrypt_Ecc_wc_1ecc_1import_1private
        EccKeyPrims.sample ⟨some [], false⟩ (arrayOf [5, 9]) nullArray
        (stringOf "BOGUS") := by
  decide

/-- C12 (amended). importPrivate with a non-null key, a non-null non-empty
private array and a non-null curve name for which the name lookup yields no
positive curve identifier fails with BAD_FUNC_ARG, the error it also raises
for a missing argument; the import primitive is not invoked and the key is
left as it was. -/
theorem import_private_unresolved_curve {Key Rng : Type}
    (P : EccKeyPrims Key Rng) (k : Key) (p : List Byte) (privSz : Nat)
    (pub_object : JByteArray) (curveName : JString)
    (hsz : privSz ≠ 0) (hname : curveName.isNull = false)
    (hid : P.wc_ecc_get_curve_id_from_name curveName.chars ≤ 0) :
    Java_com_wolfssl_wolfcrypt_Ecc_wc_1ecc_1import_1private P ⟨some k, false⟩
      ⟨some p, privSz⟩ pub_object curveName
    = ⟨[JniThrow.fromError BAD_FUNC_ARG], [], some k⟩ := by
  have hid2 : ¬ (P.wc_ecc_get_curve_id_from_name curveName.chars > 0) := by
    omega
  have hb : BAD_FUNC_ARG ≠ 0 := by decide
  simp [Java_com_wolfssl_wolfcrypt_Ecc_wc_1ecc_1import_1private, importStatus,
    hsz, hname, hid2, hb]

/-- Witness for C12 (amended): the name BOGUS yields -1 in the sample
registry, and the import fails with BAD_FUNC_ARG, the key untouched. -/
theorem import_private_unresolved_curve_witness :
    Java_com_wolfssl_wolfcrypt_Ecc_wc_1ecc_1import_1private EccKeyPrims.sample
      ⟨some [1], false⟩ ⟨some [5, 9], 2⟩ nullArray (stringOf "BOGUS")
    = ⟨[JniThrow.fromError BAD_FUNC_ARG], [], some [1]⟩ :=
  import_private_unresolved_curve EccKeyPrims.sample [1] [5, 9] 2 nullArray
    (stringOf "BOGUS") (by decide) rfl (by decide)

/-! ## ECC makeKey (C13, C14) -/

/-- C13. makeKey without a curve name, when neither handle lookup raised: if
the key context is null, the RNG is null or size <= 0, BAD_FUNC_ARG is thrown,
the key-generation primitive is not invoked and the key is left as it was;
otherwise the primitive is invoked exactly once with (rng, size, key), and an
exception (carrying the primitive's code) is raised if and only if it returns
non-zero.  When a handle lookup raised, the primitive is not invoked and no
further exception is thrown. -/
theorem make_key_argument_checks {Key Rng : Type} (P : EccKeyPrims Key Rng)
    (this : NativeStruct Key) (rng_object : NativeStruct Rng) (size : Int) :
    (this.threw = false → rng_object.threw = false →
      (this.ptr = none ∨ rng_object.ptr = none ∨ size ≤ 0) →
      Java_com_wolfssl_wolfcrypt_Ecc_wc_1ecc_1make_1key P this rng_object size
      = ⟨[JniThrow.fromError BAD_FUNC_ARG], [], this.ptr⟩)
    ∧ (∀ k g, this.threw = false → rng_object.threw = false →
        this.ptr = some k → rng_object.ptr = some g → 0 < size →
        (Java_com_wolfssl_wolfcrypt_Ecc_wc_1ecc_1make_1key P this rng_object
          size).calls = [⟨g, size, k, none⟩]
        ∧ ((Java_com_wolfssl_wolfcrypt_Ecc_wc_1ecc_1make_1key P this
            rng_object size).thrown ≠ []
          ↔ (P.wc_ecc_make_key g size k).1 ≠ 0)
        ∧ ((P.wc_ecc_make_key g size k).1 ≠ 0 →
          (Java_com_wolfssl_wolfcrypt_Ecc_wc_1ecc_1make_1key P this
            rng_object size).thrown
          = [JniThrow.fromError (P.wc_ecc_make_key g size k).1]))
    ∧ ((this.threw = true ∨ rng_object.threw = true) →
        Java_com_wolfssl_wolfcrypt_Ecc_wc_1ecc_1make_1key P this rng_object
          size = ⟨[JniThrow.nativeStruct], [], this.ptr⟩) := by
  refine ⟨?_, ?_, ?_⟩
  · intro ht hr hbad
    unfold Java_com_wolfssl_wolfcrypt_Ecc_wc_1ecc_1make_1key
    simp only [ht, hr, Bool.false_eq_true, if_false]
    cases hp : this.ptr with
    | none => rfl
    | some k =>
      cases hg : rng_object.ptr with
      | none => rfl
      | some g =>
        have hs : size ≤ 0 := by
          rcases hbad with h | h | h
          · simp [hp] at h
          · simp [hg] at h
          · exact h
        simp [hs]
  · intro k g ht hr hp hg hs
    have hs2 : ¬ size ≤ 0 := by omega
    unfold Java_com_wolfssl_wolfcrypt_Ecc_wc_1ecc_1make_1key
    simp only [ht, hr, hp, hg, hs2, Bool.false_eq_true, if_false]
    refine ⟨trivial, ?_, ?_⟩
    · by_cases h0 : (P.wc_ecc_make_key g size k).1 = 0
      · simp [h0]
      · simp [h0]
    · intro h0
      simp [h0]
  · intro h
    unfold Java_com_wolfssl_wolfcrypt_Ecc_wc_1ecc_1make_1key
    rcases h with h | h
    · simp [h]
    · cases ht : this.threw
      · simp [h]
      · simp

/-- Witness for C13: a null RNG is rejected with BAD_FUNC_ARG without a
primitive call, and a call with both handles and size 32 reaches the
primitive once. -/
theorem make_key_argument_checks_witness :
    Java_com_wolfssl_wolfcrypt_Ecc_wc_1ecc_1make_1key EccKeyPrims.sample
        ⟨some [], false⟩ ⟨none, false⟩ 32
      = ⟨[JniThrow.fromError BAD_FUNC_ARG], [], some []⟩
    ∧ (Java_com_wolfssl_wolfcrypt_Ecc_wc_1ecc_1make_1key EccKeyPrims.sample
        ⟨some [], false⟩ ⟨some (), false⟩ 32).calls
      = [⟨(), 32, [], none⟩] :=
  ⟨(make_key_argument_checks EccKeyPrims.sample ⟨some [], false⟩
      ⟨none, false⟩ 32).1 rfl rfl (Or.inr (Or.inl rfl)),
    ((make_key_argument_checks EccKeyPrims.sample ⟨some [], false⟩
      ⟨some (), false⟩ 32).2.1 [] () rfl rfl rfl rfl (by decide)).1⟩

/-- C14 (the code at the failing inputs). makeKey with a curve name and a
null RNG: the exception raised is the curve-unsupported message, not
BAD_FUNC_ARG, although the name SECP256R1 resolves; the entry point without a
curve name raises BAD_FUNC_ARG for the same arguments.  With both handles,
the resolvable name and size 0 the key-generation primitive is invoked and no
exception is raised, while the entry point without a curve name rejects size
0 with BAD_FUNC_ARG. -/
theorem make_key_ex_null_rng_and_size_zero :
    Java_com_wolfssl_wolfcrypt_Ecc_wc_1ecc_1make_1key_1ex EccKeyPrims.sample
        ⟨some [], false⟩ ⟨none, false⟩ 32 (stringOf "SECP256R1")
      = ⟨[JniThrow.message curveMsg], [], some []⟩
    ∧ Java_com_wolfssl_wolfcrypt_Ecc_wc_1ecc_1make_1key EccKeyPrims.sample
        ⟨some [], false⟩ ⟨none, false⟩ 32
      = ⟨[JniThrow.fromError BAD_FUNC_ARG], [], some []⟩
    ∧ Java_com_wolfssl_wolfcrypt_Ecc_wc_1ecc_1make_1key_1ex EccKeyPrims.sample
        ⟨some [], false⟩ ⟨some (), false⟩ 0 (stringOf "SECP256R1")
      = ⟨[], [⟨(), 0, [], some 7⟩], some []⟩
    ∧ Java_com_wolfssl_wolfcrypt_Ecc_wc_1ecc_1make_1key EccKeyPrims.sample
        ⟨some [], false⟩ ⟨some (), false⟩ 0
      = ⟨[JniThrow.fromError BAD_FUNC_ARG], [], some []⟩ := by
  decide

/-! ## Owned outputs: clean-up and repeated exceptions (C18, C19, C20) -/

/-- C18 (the code at the failing input). signHash when the signing primitive
fails after the 8-byte signature buffer was allocated: the call returns
through line 891, and the buffer is neither overwritten with zero nor freed.
The same holds when the size check fails and when the result array cannot be
created. -/
theorem sign_hash_error_paths_leave_buffer :
    Java_com_wolfssl_wolfcrypt_Ecc_wc_1ecc_1sign_1hash EccPrims.failing
        Allocators.ok ⟨some (), false⟩ (arrayOf [7]) ⟨some (), false⟩
      = ⟨none, [JniThrow.fromError (-1)], [⟨[7], 1, 8, (), ()⟩], some 8, none,
          false⟩
    ∧ (Java_com_wolfssl_wolfcrypt_Ecc_wc_1ecc_1sign_1hash EccPrims.oversize
        Allocators.ok ⟨some (), false⟩ (arrayOf [7]) ⟨some (), false⟩).allocated
      = some 8
    ∧ (Java_com_wolfssl_wolfcrypt_Ecc_wc_1ecc_1sign_1hash EccPrims.oversize
        Allocators.ok ⟨some (), false⟩ (arrayOf [7]) ⟨some (), false⟩).wiped
      = none
    ∧ (Java_com_wolfssl_wolfcrypt_Ecc_wc_1ecc_1sign_1hash EccPrims.sample
        Allocators.noArray ⟨some (), false⟩ (arrayOf [7])
        ⟨some (), false⟩).allocated = some 8
    ∧ (Java_com_wolfssl_wolfcrypt_Ecc_wc_1ecc_1sign_1hash EccPrims.sample
        Allocators.noArray ⟨some (), false⟩ (arrayOf [7]) ⟨some (), false⟩).freed
      = false
    ∧ (Java_com_wolfssl_wolfcrypt_Ecc_wc_1ecc_1sign_1hash EccPrims.sample
        Allocators.ok ⟨some (), false⟩ (arrayOf [7]) ⟨some (), false⟩).wiped
      = some 8 := by
  decide

/-- C19 (the code at the failing input). signHash when the signing primitive
succeeds but reports 9 bytes against an estimate of 8: two exceptions are
thrown, the size-check message at line 872 and then BUFFER_E at line 890. -/
theorem sign_hash_size_check_throws_twice :
    (Java_com_wolfssl_wolfcrypt_Ecc_wc_1ecc_1sign_1hash EccPrims.oversize
        Allocators.ok ⟨some (), false⟩ (arrayOf [7]) ⟨some (), false⟩).thrown
      = [JniThrow.message sigSizeMsg, JniThrow.fromError BUFFER_E]
    ∧ (Java_com_wolfssl_wolfcrypt_Ecc_wc_1ecc_1sign_1hash EccPrims.oversize
        Allocators.ok ⟨some (), false⟩ (arrayOf [7])
        ⟨some (), false⟩).thrown.length = 2 := by
  decide

/-- C20 (the code at the failing inputs). EccKeyToDer, EccPublicKeyToDer and
the PKCS8 export when the handle lookup left an exception pending: no
primitive is invoked, but each throws BAD_FUNC_ARG on top of the pending
exception; exportPrivate in the same situation throws nothing further. -/
theorem der_exports_throw_over_pending_exception :
    Java_com_wolfssl_wolfcrypt_Ecc_wc_1EccKeyToDer EccOutPrims.sample
        Allocators.ok ⟨none, true⟩
      = ⟨none, [JniThrow.nativeStruct, JniThrow.fromError BAD_FUNC_ARG], [],
          ⟨none, none, false⟩⟩
    ∧ Java_com_wolfssl_wolfcrypt_Ecc_wc_1EccPublicKeyToDer EccOutPrims.sample
        Allocators.ok ⟨none, true⟩
      = ⟨none, [JniThrow.nativeStruct, JniThrow.fromError BAD_FUNC_ARG], [],
          ⟨none, none, false⟩⟩
    ∧ Java_com_wolfssl_wolfcrypt_Ecc_wc_1ecc_1private_1key_1to_1pkcs8
        EccOutPrims.sample Allocators.ok ⟨none, true⟩
      = ⟨none, [JniThrow.nativeStruct, JniThrow.fromError BAD_FUNC_ARG], [],
          ⟨none, none, false⟩, ⟨none, none, false⟩⟩
    ∧ Java_com_wolfssl_wolfcrypt_Ecc_wc_1ecc_1export_1private
        EccOutPrims.sample Allocators.ok ⟨none, true⟩
      = ⟨none, [JniThrow.nativeStruct], [], ⟨none, none, false⟩⟩ := by
  decide

/-! ## Owned outputs: a null result comes with an exception (C16) -/

theorem exportReturn_null_raises (A : Allocators) (msg : String) (ret : Int)
    (n : Nat) (out : List Byte) :
    (exportReturn A msg ret n out).1 = none →
      (exportReturn A msg ret n out).2 ≠ [] := by
  unfold exportReturn
  split
  · split
    · simp
    · simp
  · simp

theorem exportReturn_no_array (A : Allocators) (msg : String) (ret : Int)
    (n : Nat) (out : List Byte) (hA : ∀ n, A.newByteArray n = false) :
    (exportReturn A msg ret n out).1 = none := by
  unfold exportReturn
  split
  · simp [hA]
  · rfl

theorem export_private_null_raises {Key Rng : Type} (P : EccOutPrims Key Rng)
    (A : Allocators) (this : NativeStruct Key) :
    (Java_com_wolfssl_wolfcrypt_Ecc_wc_1ecc_1export_1private P A
        this).result = none →
      (Java_com_wolfssl_wolfcrypt_Ecc_wc_1ecc_1export_1private P A
        this).thrown ≠ [] := by
  unfold Java_com_wolfssl_wolfcrypt_Ecc_wc_1ecc_1export_1private
  split
  · simp
  · split
    · simp
    · dsimp only
      split
      · simp
      · exact exportReturn_null_raises _ _ _ _ _

theorem export_x963_null_raises {Key Rng : Type} (P : EccOutPrims Key Rng)
    (A : Allocators) (this : NativeStruct Key) :
    (Java_com_wolfssl_wolfcrypt_Ecc_wc_1ecc_1export_1x963 P A
        this).result = none →
      (Java_com_wolfssl_wolfcrypt_Ecc_wc_1ecc_1export_1x963 P A
        this).thrown ≠ [] := by
  unfold Java_com_wolfssl_wolfcrypt_Ecc_wc_1ecc_1export_1x963 exportReturn
  cases this.ptr <;> dsimp only <;> split_ifs <;> simp


theorem key_to_der_null_raises {Key Rng : Type} (P : EccOutPrims Key Rng)
    (A : Allocators) (this : NativeStruct Key) :
    (Java_com_wolfssl_wolfcrypt_Ecc_wc_1EccKeyToDer P A this).result = none →
      (Java_com_wolfssl_wolfcrypt_Ecc_wc_1EccKeyToDer P A this).thrown
        ≠ [] := by
  unfold Java_com_wolfssl_wolfcrypt_Ecc_wc_1EccKeyToDer
  dsimp only
  split
  · simp
  · split
    · simp
    · split
      · simp
      · exact exportReturn_null_raises _ _ _ _ _

theorem public_key_to_der_null_raises {Key Rng : Type}
    (P : EccOutPrims Key Rng) (A : Allocators) (this : NativeStruct Key) :
    (Java_com_wolfssl_wolfcrypt_Ecc_wc_1EccPublicKeyToDer P A this).result
        = none →
      (Java_com_wolfssl_wolfcrypt_Ecc_wc_1EccPublicKeyToDer P A this).thrown
        ≠ [] := by
  unfold Java_com_wolfssl_wolfcrypt_Ecc_wc_1EccPublicKeyToDer exportReturn
  cases this.ptr <;> dsimp only <;> split_ifs <;> simp


theorem shared_secret_null_raises {Key Rng : Type} (timingResistant : Bool)
    (P : EccOutPrims Key Rng) (A : Allocators)
    (this pub_object : NativeStruct Key) (rng_object : NativeStruct Rng) :
    (Java_com_wolfssl_wolfcrypt_Ecc_wc_1ecc_1shared_1secret timingResistant P
        A this pub_object rng_object).result = none →
      (Java_com_wolfssl_wolfcrypt_Ecc_wc_1ecc_1shared_1secret timingResistant
        P A this pub_object rng_object).thrown ≠ [] := by
  unfold Java_com_wolfssl_wolfcrypt_Ecc_wc_1ecc_1shared_1secret exportReturn
  cases this.ptr <;> cases rng_object.ptr <;> cases pub_object.ptr <;>
    dsimp only <;> split_ifs <;> simp


theorem sign_hash_null_raises {Key Rng : Type} (P : EccPrims Key Rng)
    (A : Allocators) (this : NativeStruct Key) (hash_object : JByteArray)
    (rng_object : NativeStruct Rng) :
    (Java_com_wolfssl_wolfcrypt_Ecc_wc_1ecc_1sign_1hash P A this hash_object
        rng_object).result = none →
      (Java_com_wolfssl_wolfcrypt_Ecc_wc_1ecc_1sign_1hash P A this
        hash_object rng_object).thrown ≠ [] := by
  unfold Java_com_wolfssl_wolfcrypt_Ecc_wc_1ecc_1sign_1hash
  cases this.ptr <;> cases rng_object.ptr <;> cases hash_object.elements <;>
    dsimp only <;> split_ifs <;> simp


theorem hmac_final_null_raises {Hmac : Type} (B : HashBuild) (T : HashTypes)
    (macType : Hmac → Int) (wc_HmacFinal : Hmac → Int × List Byte)
    (A : Allocators) (this : NativeStruct Hmac) (r : HmacFinalResult Hmac)
    (h : Java_com_wolfssl_wolfcrypt_Hmac_wc_1HmacFinal B T macType
      wc_HmacFinal A this = some r) :
    r.result = none → r.thrown ≠ [] := by
  unfold Java_com_wolfssl_wolfcrypt_Hmac_wc_1HmacFinal at h
  dsimp only at h
  split at h
  · cases h; simp
  · split at h
    · simp at h
    · split at h
      · cases h; simp
      · split at h
        · split at h
          · cases h; simp
          · cases h; simp
        · cases h; simp

theorem pkcs8Wrap_null_raises {Key Rng : Type} (P : EccOutPrims Key Rng)
    (A : Allocators) (calls3 : List EccOutCall) (derKeyAlloc derKeyBufSz : Nat)
    (derKey : List Byte) (derKeySz : Nat) (curveOID : Option (List Byte))
    (oidSz : Nat)
    (hq : (P.wc_CreatePKCS8Key false 0 derKey derKeySz ECDSAk curveOID
      oidSz).ret ≤ 0) :
    (pkcs8Wrap P A calls3 derKeyAlloc derKeyBufSz derKey derKeySz curveOID
        oidSz).result = none →
      (pkcs8Wrap P A calls3 derKeyAlloc derKeyBufSz derKey derKeySz curveOID
        oidSz).thrown ≠ [] := by
  unfold pkcs8Wrap
  dsimp only
  generalize P.wc_CreatePKCS8Key false 0 derKey derKeySz ECDSAk curveOID
    oidSz = q at hq ⊢
  generalize P.wc_CreatePKCS8Key true q.outLen derKey derKeySz ECDSAk curveOID
    oidSz = e
  by_cases hx : A.xmalloc q.outLen = false
  · rw [if_pos hx]
    simp [pkcs8Exit, MEMORY_E]
  · rw [if_neg hx]
    by_cases h1 : (if q.ret = LENGTH_ONLY_E then (0 : Int) else q.ret) ≠ 0
    · rw [if_pos h1]
      have hneg : (if q.ret = LENGTH_ONLY_E then (0 : Int) else q.ret) < 0 := by
        split at h1
        · exact absurd rfl h1
        · rename_i hne
          rw [if_neg hne]
          omega
      simp [pkcs8Exit, hneg]
    · rw [if_neg h1]
      by_cases h2 : (if e.ret > 0 then (0 : Int) else e.ret) ≠ 0
      · rw [if_pos h2]
        have hneg : (if e.ret > 0 then (0 : Int) else e.ret) < 0 := by
          split at h2
          · exact absurd rfl h2
          · rename_i hne
            rw [if_neg hne]
            omega
        simp [pkcs8Exit, hneg]
      · rw [if_neg h2]
        by_cases hn : A.newByteArray e.outLen = true
        · rw [if_pos hn]
          simp [pkcs8Exit]
        · rw [if_neg hn]
          simp

theorem pkcs8_null_raises {Key Rng : Type} (P : EccOutPrims Key Rng)
    (A : Allocators) (this : NativeStruct Key)
    (hq : ∀ der derSz oid oidSz,
      (P.wc_CreatePKCS8Key false 0 der derSz ECDSAk oid oidSz).ret ≤ 0) :
    (Java_com_wolfssl_wolfcrypt_Ecc_wc_1ecc_1private_1key_1to_1pkcs8 P A
        this).result = none →
      (Java_com_wolfssl_wolfcrypt_Ecc_wc_1ecc_1private_1key_1to_1pkcs8 P A
        this).thrown ≠ [] := by
  unfold Java_com_wolfssl_wolfcrypt_Ecc_wc_1ecc_1private_1key_1to_1pkcs8
  cases ht : this.threw
  · simp only [Bool.false_eq_true, if_false]
    cases hp : this.ptr with
    | none => simp [pkcs8Exit, BAD_FUNC_ARG]
    | some ecc =>
      dsimp only
      generalize (if P.wc_EccKeyDerSize ecc 0 > 0
          then toWord32 (P.wc_EccKeyDerSize ecc 0)
          else MAX_ECC_PRIVATE_DER_SZ) = derKeySz
      by_cases h1 : (if P.wc_EccKeyDerSize ecc 0 > 0 then (0 : Int)
          else P.wc_EccKeyDerSize ecc 0) ≠ 0
      · rw [if_pos h1]
        have hneg : (if P.wc_EccKeyDerSize ecc 0 > 0 then (0 : Int)
            else P.wc_EccKeyDerSize ecc 0) < 0 := by
          split at h1
          · exact absurd rfl h1
          · rename_i hne
            rw [if_neg hne]
            omega
        simp [pkcs8Exit, hneg]
      · rw [if_neg h1]
        by_cases hx : A.xmalloc derKeySz = false
        · rw [if_pos hx]
          simp [pkcs8Exit, MEMORY_E]
        · rw [if_neg hx]
          generalize P.wc_EccPrivateKeyToDer ecc derKeySz = d
          by_cases h2 : (if d.ret ≥ 0 then (0 : Int) else d.ret) ≠ 0
          · rw [if_pos h2]
            have hneg : (if d.ret ≥ 0 then (0 : Int) else d.ret) < 0 := by
              split at h2
              · exact absurd rfl h2
              · rename_i hne
                rw [if_neg hne]
                omega
            simp [pkcs8Exit, hneg]
          · rw [if_neg h2]
            by_cases h3 : (if (P.wc_ecc_get_oid ecc).1 > 0 then (0 : Int)
                else (P.wc_ecc_get_oid ecc).1) ≠ 0
            · rw [if_pos h3]
              have hneg : (if (P.wc_ecc_get_oid ecc).1 > 0 then (0 : Int)
                  else (P.wc_ecc_get_oid ecc).1) < 0 := by
                split at h3
                · exact absurd rfl h3
                · rename_i hne
                  rw [if_neg hne]
                  omega
              simp [pkcs8Exit, hneg]
            · rw [if_neg h3]
              exact pkcs8Wrap_null_raises _ _ _ _ _ _ _ _ _ (hq _ _ _ _)
  · simp

theorem export_private_needs_allocations {Key Rng : Type}
    (P : EccOutPrims Key Rng) (A : Allocators) (this : NativeStruct Key)
    (h : (∀ n, A.xmalloc n = false) ∨ (∀ n, A.newByteArray n = false)) :
    (Java_com_wolfssl_wolfcrypt_Ecc_wc_1ecc_1export_1private P A
        this).result = none := by
  unfold Java_com_wolfssl_wolfcrypt_Ecc_wc_1ecc_1export_1private exportReturn
  rcases h with h | h <;> cases this.ptr <;> dsimp only <;> split_ifs <;>
    simp_all

theorem export_x963_needs_allocations {Key Rng : Type}
    (P : EccOutPrims Key Rng) (A : Allocators) (this : NativeStruct Key)
    (h : (∀ n, A.xmalloc n = false) ∨ (∀ n, A.newByteArray n = false)) :
    (Java_com_wolfssl_wolfcrypt_Ecc_wc_1ecc_1export_1x963 P A
        this).result = none := by
  unfold Java_com_wolfssl_wolfcrypt_Ecc_wc_1ecc_1export_1x963 exportReturn
  rcases h with h | h <;> cases this.ptr <;> dsimp only <;> split_ifs <;>
    simp_all

theorem key_to_der_needs_allocations {Key Rng : Type}
    (P : EccOutPrims Key Rng) (A : Allocators) (this : NativeStruct Key)
    (h : (∀ n, A.xmalloc n = false) ∨ (∀ n, A.newByteArray n = false)) :
    (Java_com_wolfssl_wolfcrypt_Ecc_wc_1EccKeyToDer P A this).result
      = none := by
  unfold Java_com_wolfssl_wolfcrypt_Ecc_wc_1EccKeyToDer exportReturn
  rcases h with h | h <;> cases this.ptr <;> dsimp only <;> split_ifs <;>
    simp_all

theorem public_key_to_der_needs_allocations {Key Rng : Type}
    (P : EccOutPrims Key Rng) (A : Allocators) (this : NativeStruct Key)
    (h : (∀ n, A.xmalloc n = false) ∨ (∀ n, A.newByteArray n = false)) :
    (Java_com_wolfssl_wolfcrypt_Ecc_wc_1EccPublicKeyToDer P A this).result
      = none := by
  unfold Java_com_wolfssl_wolfcrypt_Ecc_wc_1EccPublicKeyToDer exportReturn
  rcases h with h | h <;> cases this.ptr <;> dsimp only <;> split_ifs <;>
    simp_all

theorem shared_secret_needs_allocations {Key Rng : Type}
    (timingResistant : Bool) (P : EccOutPrims Key Rng) (A : Allocators)
    (this pub_object : NativeStruct Key) (rng_object : NativeStruct Rng)
    (h : (∀ n, A.xmalloc n = false) ∨ (∀ n, A.newByteArray n = false)) :
    (Java_com_wolfssl_wolfcrypt_Ecc_wc_1ecc_1shared_1secret timingResistant P
        A this pub_object rng_object).result = none := by
  unfold Java_com_wolfssl_wolfcrypt_Ecc_wc_1ecc_1shared_1secret exportReturn
  rcases h with h | h <;> cases this.ptr <;> cases rng_object.ptr <;>
    cases pub_object.ptr <;> dsimp only <;> split_ifs <;> simp_all

theorem sign_hash_needs_allocations {Key Rng : Type} (P : EccPrims Key Rng)
    (A : Allocators) (this : NativeStruct Key) (hash_object : JByteArray)
    (rng_object : NativeStruct Rng)
    (h : (∀ n, A.xmalloc n = false) ∨ (∀ n, A.newByteArray n = false)) :
    (Java_com_wolfssl_wolfcrypt_Ecc_wc_1ecc_1sign_1hash P A this hash_object
        rng_object).result = none := by
  unfold Java_com_wolfssl_wolfcrypt_Ecc_wc_1ecc_1sign_1hash
  rcases h with h | h <;> cases this.ptr <;> cases rng_object.ptr <;>
    cases hash_object.elements <;> dsimp only <;> split_ifs <;> simp_all

theorem pkcs8Wrap_needs_allocations {Key Rng : Type} (P : EccOutPrims Key Rng)
    (A : Allocators) (calls3 : List EccOutCall) (derKeyAlloc derKeyBufSz : Nat)
    (derKey : List Byte) (derKeySz : Nat) (curveOID : Option (List Byte))
    (oidSz : Nat)
    (h : (∀ n, A.xmalloc n = false) ∨ (∀ n, A.newByteArray n = false)) :
    (pkcs8Wrap P A calls3 derKeyAlloc derKeyBufSz derKey derKeySz curveOID
        oidSz).result = none := by
  unfold pkcs8Wrap pkcs8Exit
  rcases h with h | h <;> dsimp only <;> split_ifs <;> simp_all

theorem pkcs8_needs_allocations {Key Rng : Type} (P : EccOutPrims Key Rng)
    (A : Allocators) (this : NativeStruct Key)
    (h : (∀ n, A.xmalloc n = false) ∨ (∀ n, A.newByteArray n = false)) :
    (Java_com_wolfssl_wolfcrypt_Ecc_wc_1ecc_1private_1key_1to_1pkcs8 P A
        this).result = none := by
  have hw := fun c a b d e f g =>
    pkcs8Wrap_needs_allocations P A c a b d e f g h
  unfold Java_com_wolfssl_wolfcrypt_Ecc_wc_1ecc_1private_1key_1to_1pkcs8
    pkcs8Exit
  cases this.ptr <;> dsimp only <;> split_ifs <;> first | rfl | exact hw _ _ _ _ _ _ _

theorem hmac_final_needs_array {Hmac : Type} (B : HashBuild) (T : HashTypes)
    (macType : Hmac → Int) (wc_HmacFinal : Hmac → Int × List Byte)
    (A : Allocators) (this : NativeStruct Hmac) (r : HmacFinalResult Hmac)
    (hA : ∀ n, A.newByteArray n = false)
    (h : Java_com_wolfssl_wolfcrypt_Hmac_wc_1HmacFinal B T macType
      wc_HmacFinal A this = some r) :
    r.result = none := by
  unfold Java_com_wolfssl_wolfcrypt_Hmac_wc_1HmacFinal at h
  cases hp : this.ptr <;> rw [hp] at h <;> dsimp only at h <;>
    split_ifs at h <;> simp_all <;> cases h <;> rfl

/-- C16. Every producer of an owned output returns `NULL` only together with
a raised exception.  For exportPrivate, exportX963, EccKeyToDer,
EccPublicKeyToDer, sharedSecret and signHash a null result always comes with
a non-empty list of raised exceptions, and so it does for HmacFinal whenever
the call returns.  For the PKCS8 export the same holds when the size query of
wc_CreatePKCS8Key answers as that routine does, with LENGTH_ONLY_E or a
negative error, never a positive value.  In particular, when `XMALLOC` cannot
provide the temporary buffer or `NewByteArray` cannot create the result array,
each of them returns `NULL`, with an exception raised as above: the error
thrown by the function itself or, for the result array, the OutOfMemoryError
that `NewByteArray` leaves pending. -/
theorem owned_output_null_only_with_exception {Key Rng Hmac : Type}
    (timingResistant : Bool) (P : EccOutPrims Key Rng) (S : EccPrims Key Rng)
    (B : HashBuild) (T : HashTypes) (macType : Hmac → Int)
    (wc_HmacFinal : Hmac → Int × List Byte) (A : Allocators)
    (this pub_object : NativeStruct Key) (rng_object : NativeStruct Rng)
    (hash_object : JByteArray) (hmac_object : NativeStruct Hmac) :
    ((Java_com_wolfssl_wolfcrypt_Ecc_wc_1ecc_1export_1private P A
        this).result = none →
      (Java_com_wolfssl_wolfcrypt_Ecc_wc_1ecc_1export_1private P A
        this).thrown ≠ [])
    ∧ ((Java_com_wolfssl_wolfcrypt_Ecc_wc_1ecc_1export_1x963 P A
        this).result = none →
      (Java_com_wolfssl_wolfcrypt_Ecc_wc_1ecc_1export_1x963 P A
        this).thrown ≠ [])
    ∧ ((Java_com_wolfssl_wolfcrypt_Ecc_wc_1EccKeyToDer P A this).result
        = none →
      (Java_com_wolfssl_wolfcrypt_Ecc_wc_1EccKeyToDer P A this).thrown ≠ [])
    ∧ ((Java_com_wolfssl_wolfcrypt_Ecc_wc_1EccPublicKeyToDer P A this).result
        = none →
      (Java_com_wolfssl_wolfcrypt_Ecc_wc_1EccPublicKeyToDer P A this).thrown
        ≠ [])
    ∧ ((Java_com_wolfssl_wolfcrypt_Ecc_wc_1ecc_1shared_1secret
        timingResistant P A this pub_object rng_object).result = none →
      (Java_com_wolfssl_wolfcrypt_Ecc_wc_1ecc_1shared_1secret
        timingResistant P A this pub_object rng_object).thrown ≠ [])
    ∧ ((Java_com_wolfssl_wolfcrypt_Ecc_wc_1ecc_1sign_1hash S A this
        hash_object rng_object).result = none →
      (Java_com_wolfssl_wolfcrypt_Ecc_wc_1ecc_1sign_1hash S A this
        hash_object rng_object).thrown ≠ [])
    ∧ ((∀ der derSz oid oidSz,
          (P.wc_CreatePKCS8Key false 0 der derSz ECDSAk oid oidSz).ret ≤ 0) →
      (Java_com_wolfssl_wolfcrypt_Ecc_wc_1ecc_1private_1key_1to_1pkcs8 P A
        this).result = none →
      (Java_com_wolfssl_wolfcrypt_Ecc_wc_1ecc_1private_1key_1to_1pkcs8 P A
        this).thrown ≠ [])
    ∧ (∀ r, Java_com_wolfssl_wolfcrypt_Hmac_wc_1HmacFinal B T macType
          wc_HmacFinal A hmac_object = some r →
        r.result = none → r.thrown ≠ [])
    ∧ (((∀ n, A.xmalloc n = false) ∨ (∀ n, A.newByteArray n = false)) →
        (Java_com_wolfssl_wolfcrypt_Ecc_wc_1ecc_1export_1private P A
          this).result = none
        ∧ (Java_com_wolfssl_wolfcrypt_Ecc_wc_1ecc_1export_1x963 P A
          this).result = none
        ∧ (Java_com_wolfssl_wolfcrypt_Ecc_wc_1EccKeyToDer P A this).result
          = none
        ∧ (Java_com_wolfssl_wolfcrypt_Ecc_wc_1EccPublicKeyToDer P A
          this).result = none
        ∧ (Java_com_wolfssl_wolfcrypt_Ecc_wc_1ecc_1shared_1secret
          timingResistant P A this pub_object rng_object).result = none
        ∧ (Java_com_wolfssl_wolfcrypt_Ecc_wc_1ecc_1sign_1hash S A this
          hash_object rng_object).result = none
        ∧ (Java_com_wolfssl_wolfcrypt_Ecc_wc_1ecc_1private_1key_1to_1pkcs8 P
          A this).result = none)
    ∧ ((∀ n, A.newByteArray n = false) →
        ∀ r, Java_com_wolfssl_wolfcrypt_Hmac_wc_1HmacFinal B T macType
            wc_HmacFinal A hmac_object = some r →
          r.result = none) :=
  ⟨export_private_null_raises P A this, export_x963_null_raises P A this,
    key_to_der_null_raises P A this, public_key_to_der_null_raises P A this,
    shared_secret_null_raises timingResistant P A this pub_object rng_object,
    sign_hash_null_raises S A this hash_object rng_object,
    pkcs8_null_raises P A this,
    fun r h => hmac_final_null_raises B T macType wc_HmacFinal A hmac_object
      r h,
    fun h =>
      ⟨export_private_needs_allocations P A this h,
        export_x963_needs_allocations P A this h,
        key_to_der_needs_allocations P A this h,
        public_key_to_der_needs_allocations P A this h,
        shared_secret_needs_allocations timingResistant P A this pub_object
          rng_object h,
        sign_hash_needs_allocations S A this hash_object rng_object h,
        pkcs8_needs_allocations P A this h⟩,
    fun hA r h => hmac_final_needs_array B T macType wc_HmacFinal A
      hmac_object r hA h⟩

/-- Witness for C16: with `NewByteArray` failing, the PKCS8 export on the
sample primitives returns `NULL` with the pending OutOfMemoryError as its only
exception, and exportPrivate returns `NULL` after throwing its allocation
message on top of it. -/
theorem owned_output_null_only_with_exception_witness :
    (∀ n, Allocators.noArray.newByteArray n = false)
    ∧ (∀ der derSz oid oidSz,
        (EccOutPrims.sample.wc_CreatePKCS8Key false 0 der derSz ECDSAk oid
          oidSz).ret ≤ 0)
    ∧ (Java_com_wolfssl_wolfcrypt_Ecc_wc_1ecc_1private_1key_1to_1pkcs8
        EccOutPrims.sample Allocators.noArray ⟨some (), false⟩).result = none
    ∧ (Java_com_wolfssl_wolfcrypt_Ecc_wc_1ecc_1private_1key_1to_1pkcs8
        EccOutPrims.sample Allocators.noArray ⟨some (), false⟩).thrown ≠ []
    ∧ (Java_com_wolfssl_wolfcrypt_Ecc_wc_1ecc_1private_1key_1to_1pkcs8
        EccOutPrims.sample Allocators.noArray ⟨some (), false⟩).thrown
      = [JniThrow.outOfMemory]
    ∧ (Java_com_wolfssl_wolfcrypt_Ecc_wc_1ecc_1export_1private
        EccOutPrims.sample Allocators.noArray ⟨some (), false⟩).thrown
      = [JniThrow.outOfMemory, JniThrow.message eccKeyAllocMsg]
    ∧ (Java_com_wolfssl_wolfcrypt_Ecc_wc_1ecc_1private_1key_1to_1pkcs8
        EccOutPrims.sample Allocators.ok ⟨some (), false⟩).result
      = some [48, 6, 2, 48, 3, 2, 1, 7] := by
  have hA : ∀ n, Allocators.noArray.newByteArray n = false := fun _ => rfl
  have hq : ∀ der derSz oid oidSz,
      (EccOutPrims.sample.wc_CreatePKCS8Key false 0 der derSz ECDSAk oid
        oidSz).ret ≤ 0 := by
    intro der derSz oid oidSz
    simp [EccOutPrims.sample, LENGTH_ONLY_E]
  have h := owned_output_null_only_with_exception true EccOutPrims.sample
    EccPrims.sample HashBuild.all HashTypes.wolfssl (fun m : Int => m)
    sampleHmacFinal Allocators.noArray ⟨some (), false⟩ ⟨some (), false⟩
    ⟨some (), false⟩ (arrayOf [7]) ⟨some 4, false⟩
  have hnull := (h.2.2.2.2.2.2.2.2.1 (Or.inr hA)).2.2.2.2.2.2
  exact ⟨hA, hq, hnull, h.2.2.2.2.2.2.1 hq hnull, by decide, by decide,
    by decide⟩

/-! ## Secret temporaries (C17) -/

theorem pkcs8Wrap_buffers {Key Rng : Type} (P : EccOutPrims Key Rng)
    (A : Allocators) (calls3 : List EccOutCall) (derKeyAlloc derKeyBufSz : Nat)
    (derKey : List Byte) (derKeySz : Nat) (curveOID : Option (List Byte))
    (oidSz : Nat) :
    (pkcs8Wrap P A calls3 derKeyAlloc derKeyBufSz derKey derKeySz curveOID
        oidSz).derKey = wipeAndFree (some derKeyAlloc) derKeyBufSz
    ∧ ∀ n, (pkcs8Wrap P A calls3 derKeyAlloc derKeyBufSz derKey derKeySz
          curveOID oidSz).pkcs8.allocated = some n →
        (pkcs8Wrap P A calls3 derKeyAlloc derKeyBufSz derKey derKeySz
          curveOID oidSz).pkcs8.wiped = some n
        ∧ (pkcs8Wrap P A calls3 derKeyAlloc derKeyBufSz derKey derKeySz
          curveOID oidSz).pkcs8.freed = true := by
  unfold pkcs8Wrap
  dsimp only
  constructor
  · repeat' split
    all_goals simp [pkcs8Exit]
  · intro n
    repeat' split
    all_goals simp [pkcs8Exit, wipeAndFree]

/-- C17. In exportPrivate, sharedSecret, EccKeyToDer and the PKCS8 export
(for both the DER and the PKCS8 buffer), on every path on which the temporary
buffer was allocated with some size n, the closing XMEMSET overwrites exactly
n bytes with zero and the buffer is freed before the call returns. -/
theorem secret_buffers_wiped {Key Rng : Type} (timingResistant : Bool)
    (P : EccOutPrims Key Rng) (A : Allocators)
    (this pub_object : NativeStruct Key) (rng_object : NativeStruct Rng)
    (n : Nat) :
    ((Java_com_wolfssl_wolfcrypt_Ecc_wc_1ecc_1export_1private P A
          this).output.allocated = some n →
        (Java_com_wolfssl_wolfcrypt_Ecc_wc_1ecc_1export_1private P A
          this).output.wiped = some n
        ∧ (Java_com_wolfssl_wolfcrypt_Ecc_wc_1ecc_1export_1private P A
          this).output.freed = true)
    ∧ ((Java_com_wolfssl_wolfcrypt_Ecc_wc_1ecc_1shared_1secret
          timingResistant P A this pub_object rng_object).output.allocated
          = some n →
        (Java_com_wolfssl_wolfcrypt_Ecc_wc_1ecc_1shared_1secret
          timingResistant P A this pub_object rng_object).output.wiped
          = some n
        ∧ (Java_com_wolfssl_wolfcrypt_Ecc_wc_1ecc_1shared_1secret
          timingResistant P A this pub_object rng_object).output.freed
          = true)
    ∧ ((Java_com_wolfssl_wolfcrypt_Ecc_wc_1EccKeyToDer P A
          this).output.allocated = some n →
        (Java_com_wolfssl_wolfcrypt_Ecc_wc_1EccKeyToDer P A
          this).output.wiped = some n
        ∧ (Java_com_wolfssl_wolfcrypt_Ecc_wc_1EccKeyToDer P A
          this).output.freed = true)
    ∧ ((Java_com_wolfssl_wolfcrypt_Ecc_wc_1ecc_1private_1key_1to_1pkcs8 P A
          this).derKey.allocated = some n →
        (Java_com_wolfssl_wolfcrypt_Ecc_wc_1ecc_1private_1key_1to_1pkcs8 P A
          this).derKey.wiped = some n
        ∧ (Java_com_wolfssl_wolfcrypt_Ecc_wc_1ecc_1private_1key_1to_1pkcs8 P
          A this).derKey.freed = true)
    ∧ ((Java_com_wolfssl_wolfcrypt_Ecc_wc_1ecc_1private_1key_1to_1pkcs8 P A
          this).pkcs8.allocated = some n →
        (Java_com_wolfssl_wolfcrypt_Ecc_wc_1ecc_1private_1key_1to_1pkcs8 P A
          this).pkcs8.wiped = some n
        ∧ (Java_com_wolfssl_wolfcrypt_Ecc_wc_1ecc_1private_1key_1to_1pkcs8 P
          A this).pkcs8.freed = true) := by
  refine ⟨?_, ?_, ?_, ?_, ?_⟩
  · unfold Java_com_wolfssl_wolfcrypt_Ecc_wc_1ecc_1export_1private
    simp only [wipeAndFree]
    repeat' split
    all_goals simp
  · unfold Java_com_wolfssl_wolfcrypt_Ecc_wc_1ecc_1shared_1secret
    simp only [wipeAndFree]
    repeat' split
    all_goals simp
  · unfold Java_com_wolfssl_wolfcrypt_Ecc_wc_1EccKeyToDer
    simp only [wipeAndFree]
    repeat' split
    all_goals simp
  · unfold Java_com_wolfssl_wolfcrypt_Ecc_wc_1ecc_1private_1key_1to_1pkcs8
    dsimp only
    repeat' split
    all_goals
      first
        | (rw [(pkcs8Wrap_buffers _ _ _ _ _ _ _ _ _).1]; simp [wipeAndFree])
        | simp [pkcs8Exit, wipeAndFree]
  · unfold Java_com_wolfssl_wolfcrypt_Ecc_wc_1ecc_1private_1key_1to_1pkcs8
    dsimp only
    repeat' split
    all_goals
      first
        | exact (pkcs8Wrap_buffers _ _ _ _ _ _ _ _ _).2 n
        | simp [pkcs8Exit, wipeAndFree]

/-- Witness for C17: with the sample primitives the 4-byte buffer of
exportPrivate and the 8-byte PKCS8 buffer are wiped over their full size and
freed; so is the 4-byte buffer of sharedSecret when attaching the RNG
fails. -/
theorem secret_buffers_wiped_witness :
    ((Java_com_wolfssl_wolfcrypt_Ecc_wc_1ecc_1export_1private
          EccOutPrims.sample Allocators.ok ⟨some (), false⟩).output.wiped
        = some 4
      ∧ (Java_com_wolfssl_wolfcrypt_Ecc_wc_1ecc_1export_1private
          EccOutPrims.sample Allocators.ok ⟨some (), false⟩).output.freed
        = true)
    ∧ ((Java_com_wolfssl_wolfcrypt_Ecc_wc_1ecc_1private_1key_1to_1pkcs8
          EccOutPrims.sample Allocators.noArray ⟨some (), false⟩).pkcs8.wiped
        = some 8
      ∧ (Java_com_wolfssl_wolfcrypt_Ecc_wc_1ecc_1private_1key_1to_1pkcs8
          EccOutPrims.sample Allocators.noArray ⟨some (), false⟩).pkcs8.freed
        = true)
    ∧ ((Java_com_wolfssl_wolfcrypt_Ecc_wc_1ecc_1shared_1secret true
          { EccOutPrims.sample with wc_ecc_set_rng := fun _ _ => -1 }
          Allocators.ok ⟨some (), false⟩ ⟨some (), false⟩
          ⟨some (), false⟩).output.wiped = some 4
      ∧ (Java_com_wolfssl_wolfcrypt_Ecc_wc_1ecc_1shared_1secret true
          { EccOutPrims.sample with wc_ecc_set_rng := fun _ _ => -1 }
          Allocators.ok ⟨some (), false⟩ ⟨some (), false⟩
          ⟨some (), false⟩).output.freed = true) :=
  ⟨(secret_buffers_wiped true EccOutPrims.sample Allocators.ok
      ⟨some (), false⟩ ⟨some (), false⟩ ⟨some (), false⟩ 4).1 (by decide),
    (secret_buffers_wiped true EccOutPrims.sample Allocators.noArray
      ⟨some (), false⟩ ⟨some (), false⟩ ⟨some (), false⟩ 8).2.2.2.2
      (by decide),
    (secret_buffers_wiped true
      { EccOutPrims.sample with wc_ecc_set_rng := fun _ _ => -1 }
      Allocators.ok ⟨some (), false⟩ ⟨some (), false⟩ ⟨some (), false⟩ 4).2.1
      (by decide)⟩

/-! ## Export sizing (C15) -/

theorem exportReturn_result (A : Allocators) (msg : String) (ret : Int)
    (n : Nat) (out arr : List Byte)
    (h : (exportReturn A msg ret n out).1 = some arr) :
    ret = 0 ∧ arr = newArrayFrom n out := by
  unfold exportReturn at h
  split at h
  · split at h
    · rename_i h0 _
      exact ⟨h0, (Option.some.inj h).symm⟩
    · simp at h
  · simp at h

theorem trimmed_newArrayFrom (n cap : Nat) (w : List Byte) :
    Trimmed (newArrayFrom n (store (List.replicate cap 0) w)) n cap
      (store (List.replicate cap 0) w) := by
  refine ⟨newArrayFrom_length _ _, ?_⟩
  intro h
  have hlen : (store (List.replicate cap 0) w).length = cap := by
    rw [store_length, List.length_replicate]
  refine ⟨newArrayFrom_eq_take _ _ (by omega), ?_⟩
  rw [newArrayFrom_length]
  exact h

theorem pkcs8Wrap_result {Key Rng : Type} (P : EccOutPrims Key Rng)
    (A : Allocators) (calls3 : List EccOutCall) (derKeyAlloc derKeyBufSz : Nat)
    (derKey : List Byte) (derKeySz : Nat) (curveOID : Option (List Byte))
    (oidSz : Nat) (arr : List Byte)
    (h : (pkcs8Wrap P A calls3 derKeyAlloc derKeyBufSz derKey derKeySz
      curveOID oidSz).result = some arr) :
    (pkcs8Wrap P A calls3 derKeyAlloc derKeyBufSz derKey derKeySz curveOID
        oidSz).pkcs8.allocated
      = some (P.wc_CreatePKCS8Key false 0 derKey derKeySz ECDSAk curveOID
          oidSz).outLen
    ∧ arr = newArrayFrom
        (P.wc_CreatePKCS8Key true
          (P.wc_CreatePKCS8Key false 0 derKey derKeySz ECDSAk curveOID
            oidSz).outLen derKey derKeySz ECDSAk curveOID oidSz).outLen
        (store (List.replicate
            (P.wc_CreatePKCS8Key false 0 derKey derKeySz ECDSAk curveOID
              oidSz).outLen 0)
          (P.wc_CreatePKCS8Key true
            (P.wc_CreatePKCS8Key false 0 derKey derKeySz ECDSAk curveOID
              oidSz).outLen derKey derKeySz ECDSAk curveOID oidSz).written) := by
  unfold pkcs8Wrap at h ⊢
  dsimp only at h ⊢
  generalize P.wc_CreatePKCS8Key false 0 derKey derKeySz ECDSAk curveOID
    oidSz = q at h ⊢
  generalize P.wc_CreatePKCS8Key true q.outLen derKey derKeySz ECDSAk curveOID
    oidSz = e at h ⊢
  by_cases hx : A.xmalloc q.outLen = false
  · rw [if_pos hx] at h
    simp [pkcs8Exit] at h
  · rw [if_neg hx] at h ⊢
    by_cases h1 : (if q.ret = LENGTH_ONLY_E then (0 : Int) else q.ret) ≠ 0
    · rw [if_pos h1] at h
      simp [pkcs8Exit] at h
    · rw [if_neg h1] at h ⊢
      by_cases h2 : (if e.ret > 0 then (0 : Int) else e.ret) ≠ 0
      · rw [if_pos h2] at h
        simp [pkcs8Exit] at h
      · rw [if_neg h2] at h ⊢
        by_cases hn : A.newByteArray e.outLen = true
        · simp only [pkcs8Exit, wipeAndFree, hn, if_true] at h ⊢
          exact ⟨trivial, (Option.some.inj h).symm⟩
        · simp [pkcs8Exit, hn] at h

theorem export_private_sized {Key Rng : Type} (P : EccOutPrims Key Rng)
    (A : Allocators) (this : NativeStruct Key) (arr : List Byte)
    (h : (Java_com_wolfssl_wolfcrypt_Ecc_wc_1ecc_1export_1private P A
      this).result = some arr) :
    ∃ ecc cap e, this.ptr = some ecc ∧ cap = toWord32 (P.wc_ecc_size ecc)
      ∧ e = P.wc_ecc_export_private_only ecc cap ∧ e.ret = 0
      ∧ (Java_com_wolfssl_wolfcrypt_Ecc_wc_1ecc_1export_1private P A
          this).output.allocated = some cap
      ∧ Trimmed arr e.outLen cap (store (List.replicate cap 0) e.written) := by
  unfold Java_com_wolfssl_wolfcrypt_Ecc_wc_1ecc_1export_1private at h ⊢
  cases ht : this.threw
  · simp only [ht, Bool.false_eq_true, if_false] at h ⊢
    cases hp : this.ptr with
    | none => simp [hp] at h
    | some ecc =>
      simp only [hp] at h ⊢
      by_cases hx : A.xmalloc (toWord32 (P.wc_ecc_size ecc)) = false
      · rw [if_pos hx] at h
        simp at h
      · rw [if_neg hx] at h ⊢
        obtain ⟨h0, harr⟩ := exportReturn_result _ _ _ _ _ _ h
        refine ⟨ecc, _, _, rfl, rfl, rfl, h0, ?_, ?_⟩
        · simp [wipeAndFree]
        · rw [harr]
          exact trimmed_newArrayFrom _ _ _
  · simp [ht] at h

theorem export_x963_sized {Key Rng : Type} (P : EccOutPrims Key Rng)
    (A : Allocators) (this : NativeStruct Key) (arr : List Byte)
    (h : (Java_com_wolfssl_wolfcrypt_Ecc_wc_1ecc_1export_1x963 P A
      this).result = some arr) :
    ∃ ecc cap e, this.ptr = some ecc
      ∧ cap = (P.wc_ecc_export_x963 ecc false 0).outLen
      ∧ e = P.wc_ecc_export_x963 ecc true cap ∧ e.ret = 0
      ∧ (Java_com_wolfssl_wolfcrypt_Ecc_wc_1ecc_1export_1x963 P A
          this).output.allocated = some cap
      ∧ Trimmed arr e.outLen cap (store (List.replicate cap 0) e.written) := by
  unfold Java_com_wolfssl_wolfcrypt_Ecc_wc_1ecc_1export_1x963 at h ⊢
  cases ht : this.threw
  · simp only [ht, Bool.false_eq_true, if_false] at h ⊢
    cases hp : this.ptr with
    | none => simp [hp] at h
    | some ecc =>
      simp only [hp] at h ⊢
      by_cases h1 : (if (P.wc_ecc_export_x963 ecc false 0).ret = LENGTH_ONLY_E
          then (0 : Int) else (P.wc_ecc_export_x963 ecc false 0).ret) ≠ 0
      · rw [if_pos h1] at h
        simp at h
      · rw [if_neg h1] at h ⊢
        by_cases hx : A.xmalloc (P.wc_ecc_export_x963 ecc false 0).outLen
            = false
        · rw [if_pos hx] at h
          simp at h
        · rw [if_neg hx] at h ⊢
          obtain ⟨h0, harr⟩ := exportReturn_result _ _ _ _ _ _ h
          refine ⟨ecc, _, _, rfl, rfl, rfl, h0, ?_, ?_⟩
          · simp [freeOnly]
          · rw [harr]
            exact trimmed_newArrayFrom _ _ _
  · simp [ht] at h

theorem key_to_der_sized {Key Rng : Type} (P : EccOutPrims Key Rng)
    (A : Allocators) (this : NativeStruct Key) (arr : List Byte)
    (h : (Java_com_wolfssl_wolfcrypt_Ecc_wc_1EccKeyToDer P A this).result
      = some arr) :
    ∃ ecc d, this.ptr = some ecc ∧ d = P.wc_EccKeyToDer ecc 256 ∧ 0 ≤ d.ret
      ∧ (Java_com_wolfssl_wolfcrypt_Ecc_wc_1EccKeyToDer P A
          this).output.allocated = some 256
      ∧ (d.ret ≤ 256 → (toWord32 d.ret : Int) = d.ret)
      ∧ Trimmed arr (toWord32 d.ret) 256
          (store (List.replicate 256 0) d.written) := by
  unfold Java_com_wolfssl_wolfcrypt_Ecc_wc_1EccKeyToDer at h ⊢
  cases ht : this.threw
  · simp only [ht, Bool.false_eq_true, if_false] at h ⊢
    cases hp : this.ptr with
    | none => simp [hp] at h
    | some ecc =>
      simp only [hp] at h ⊢
      by_cases hx : A.xmalloc 256 = false
      · rw [if_pos hx] at h
        simp at h
      · rw [if_neg hx] at h ⊢
        obtain ⟨h0, harr⟩ := exportReturn_result _ _ _ _ _ _ h
        by_cases hd : (P.wc_EccKeyToDer ecc 256).ret ≥ 0
        · rw [if_pos hd] at harr
          refine ⟨ecc, _, rfl, rfl, hd, ?_, ?_, ?_⟩
          · simp [wipeAndFree]
          · intro hle
            exact toWord32_of_nonneg _ hd (by omega)
          · rw [harr]
            exact trimmed_newArrayFrom _ _ _
        · rw [if_neg hd] at h0
          omega
  · simp [ht] at h

theorem toWord32_lt (x : Int) : toWord32 x < 4294967296 := by
  unfold toWord32
  have h1 : 0 ≤ x % 4294967296 := Int.emod_nonneg _ (by decide)
  have h2 : x % 4294967296 < 4294967296 := Int.emod_lt_of_pos _ (by decide)
  omega

theorem public_key_to_der_sized {Key Rng : Type} (P : EccOutPrims Key Rng)
    (A : Allocators) (this : NativeStruct Key) (arr : List Byte)
    (h : (Java_com_wolfssl_wolfcrypt_Ecc_wc_1EccPublicKeyToDer P A
      this).result = some arr) :
    ∃ ecc cap d, this.ptr = some ecc
      ∧ cap = (if P.wc_EccPublicKeyDerSize ecc 1 > 0
          then toWord32 (P.wc_EccPublicKeyDerSize ecc 1) else 0)
      ∧ d = P.wc_EccPublicKeyToDer ecc cap 1 ∧ 0 ≤ d.ret
      ∧ (Java_com_wolfssl_wolfcrypt_Ecc_wc_1EccPublicKeyToDer P A
          this).output.allocated = some cap
      ∧ (d.ret ≠ 0 →
          (d.ret ≤ cap → (toWord32 d.ret : Int) = d.ret)
          ∧ Trimmed arr (toWord32 d.ret) cap
              (store (List.replicate cap 0) d.written)) := by
  unfold Java_com_wolfssl_wolfcrypt_Ecc_wc_1EccPublicKeyToDer at h ⊢
  cases ht : this.threw
  · simp only [ht, Bool.false_eq_true, if_false] at h ⊢
    cases hp : this.ptr with
    | none => simp [hp] at h
    | some ecc =>
      simp only [hp] at h ⊢
      generalize hcap : (if P.wc_EccPublicKeyDerSize ecc 1 > 0
          then toWord32 (P.wc_EccPublicKeyDerSize ecc 1) else 0) = cap at h ⊢
      have hcaplt : cap < 4294967296 := by
        rw [← hcap]
        split
        · exact toWord32_lt _
        · decide
      by_cases h1 : (if P.wc_EccPublicKeyDerSize ecc 1 > 0 then (0 : Int)
          else P.wc_EccPublicKeyDerSize ecc 1) ≠ 0
      · rw [if_pos h1] at h
        simp at h
      · rw [if_neg h1] at h ⊢
        by_cases hx : A.xmalloc cap = false
        · rw [if_pos hx] at h
          simp at h
        · rw [if_neg hx] at h ⊢
          obtain ⟨h0, harr⟩ := exportReturn_result _ _ _ _ _ _ h
          have hnn : 0 ≤ (P.wc_EccPublicKeyToDer ecc cap 1).ret := by
            by_cases hd : (P.wc_EccPublicKeyToDer ecc cap 1).ret > 0
            · omega
            · rw [if_neg hd] at h0
              omega
          refine ⟨ecc, cap, _, rfl, hcap.symm, rfl, hnn, ?_, ?_⟩
          · simp [freeOnly]
          · intro hne
            have hd : (P.wc_EccPublicKeyToDer ecc cap 1).ret > 0 := by omega
            rw [if_pos hd] at harr
            refine ⟨?_, ?_⟩
            · intro hle
              exact toWord32_of_nonneg _ (by omega) (by omega)
            · rw [harr]
              exact trimmed_newArrayFrom _ _ _
  · simp [ht] at h

theorem pkcs8_sized {Key Rng : Type} (P : EccOutPrims Key Rng)
    (A : Allocators) (this : NativeStruct Key) (arr : List Byte)
    (h : (Java_com_wolfssl_wolfcrypt_Ecc_wc_1ecc_1private_1key_1to_1pkcs8 P A
      this).result = some arr) :
    ∃ ecc cap e der derSz oid oidSz, this.ptr = some ecc
      ∧ cap = (P.wc_CreatePKCS8Key false 0 der derSz ECDSAk oid oidSz).outLen
      ∧ e = P.wc_CreatePKCS8Key true cap der derSz ECDSAk oid oidSz
      ∧ (Java_com_wolfssl_wolfcrypt_Ecc_wc_1ecc_1private_1key_1to_1pkcs8 P A
          this).pkcs8.allocated = some cap
      ∧ Trimmed arr e.outLen cap (store (List.replicate cap 0) e.written) := by
  unfold Java_com_wolfssl_wolfcrypt_Ecc_wc_1ecc_1private_1key_1to_1pkcs8
    at h ⊢
  cases ht : this.threw
  · simp only [ht, Bool.false_eq_true, if_false] at h ⊢
    cases hp : this.ptr with
    | none => simp [hp, pkcs8Exit] at h
    | some ecc =>
      simp only [hp] at h ⊢
      generalize (if P.wc_EccKeyDerSize ecc 0 > 0
          then toWord32 (P.wc_EccKeyDerSize ecc 0)
          else MAX_ECC_PRIVATE_DER_SZ) = derKeySz at h ⊢
      by_cases h1 : (if P.wc_EccKeyDerSize ecc 0 > 0 then (0 : Int)
          else P.wc_EccKeyDerSize ecc 0) ≠ 0
      · rw [if_pos h1] at h
        simp [pkcs8Exit] at h
      · rw [if_neg h1] at h ⊢
        by_cases hx : A.xmalloc derKeySz = false
        · rw [if_pos hx] at h
          simp [pkcs8Exit] at h
        · rw [if_neg hx] at h ⊢
          generalize P.wc_EccPrivateKeyToDer ecc derKeySz = d at h ⊢
          by_cases h2 : (if d.ret ≥ 0 then (0 : Int) else d.ret) ≠ 0
          · rw [if_pos h2] at h
            simp [pkcs8Exit] at h
          · rw [if_neg h2] at h ⊢
            by_cases h3 : (if (P.wc_ecc_get_oid ecc).1 > 0 then (0 : Int)
                else (P.wc_ecc_get_oid ecc).1) ≠ 0
            · rw [if_pos h3] at h
              simp [pkcs8Exit] at h
            · rw [if_neg h3] at h ⊢
              obtain ⟨ha, harr⟩ := pkcs8Wrap_result _ _ _ _ _ _ _ _ _ _ h
              refine ⟨ecc, _, _, _, _, _, _, rfl, rfl, rfl, ha, ?_⟩
              rw [harr]
              exact trimmed_newArrayFrom _ _ _
  · simp [ht] at h

/-- C15. Export sizing.  For exportPrivate, exportX963, EccKeyToDer,
EccPublicKeyToDer and the PKCS8 export, whenever an array is returned its
length equals the byte count reported by the encoder for the final encoding,
the temporary buffer was allocated with the stated capacity (wc_ecc_size, the
queried X9.63 size, 256, the queried DER size, the queried PKCS8 size), and,
when the reported count does not exceed that capacity, the content is exactly
the first that-many bytes of the buffer and the length is within the
capacity.  The encoder of EccPublicKeyToDer reports its byte count as its
return value, the positive length of the encoding or a negative error; the
statement for it is about such a return value, one that is not 0. -/
theorem export_sizing {Key Rng : Type} (P : EccOutPrims Key Rng)
    (A : Allocators) (this : NativeStruct Key) (arr : List Byte) :
    ((Java_com_wolfssl_wolfcrypt_Ecc_wc_1ecc_1export_1private P A
        this).result = some arr →
      ∃ ecc cap e, this.ptr = some ecc ∧ cap = toWord32 (P.wc_ecc_size ecc)
        ∧ e = P.wc_ecc_export_private_only ecc cap ∧ e.ret = 0
        ∧ (Java_com_wolfssl_wolfcrypt_Ecc_wc_1ecc_1export_1private P A
            this).output.allocated = some cap
        ∧ Trimmed arr e.outLen cap (store (List.replicate cap 0) e.written))
    ∧ ((Java_com_wolfssl_wolfcrypt_Ecc_wc_1ecc_1export_1x963 P A
        this).result = some arr →
      ∃ ecc cap e, this.ptr = some ecc
        ∧ cap = (P.wc_ecc_export_x963 ecc false 0).outLen
        ∧ e = P.wc_ecc_export_x963 ecc true cap ∧ e.ret = 0
        ∧ (Java_com_wolfssl_wolfcrypt_Ecc_wc_1ecc_1export_1x963 P A
            this).output.allocated = some cap
        ∧ Trimmed arr e.outLen cap (store (List.replicate cap 0) e.written))
    ∧ ((Java_com_wolfssl_wolfcrypt_Ecc_wc_1EccKeyToDer P A this).result
        = some arr →
      ∃ ecc d, this.ptr = some ecc ∧ d = P.wc_EccKeyToDer ecc 256 ∧ 0 ≤ d.ret
        ∧ (Java_com_wolfssl_wolfcrypt_Ecc_wc_1EccKeyToDer P A
            this).output.allocated = some 256
        ∧ (d.ret ≤ 256 → (toWord32 d.ret : Int) = d.ret)
        ∧ Trimmed arr (toWord32 d.ret) 256
            (store (List.replicate 256 0) d.written))
    ∧ ((Java_com_wolfssl_wolfcrypt_Ecc_wc_1EccPublicKeyToDer P A
        this).result = some arr →
      ∃ ecc cap d, this.ptr = some ecc
        ∧ cap = (if P.wc_EccPublicKeyDerSize ecc 1 > 0
            then toWord32 (P.wc_EccPublicKeyDerSize ecc 1) else 0)
        ∧ d = P.wc_EccPublicKeyToDer ecc cap 1 ∧ 0 ≤ d.ret
        ∧ (Java_com_wolfssl_wolfcrypt_Ecc_wc_1EccPublicKeyToDer P A
            this).output.allocated = some cap
        ∧ (d.ret ≠ 0 →
            (d.ret ≤ cap → (toWord32 d.ret : Int) = d.ret)
            ∧ Trimmed arr (toWord32 d.ret) cap
                (store (List.replicate cap 0) d.written)))
    ∧ ((Java_com_wolfssl_wolfcrypt_Ecc_wc_1ecc_1private_1key_1to_1pkcs8 P A
        this).result = some arr →
      ∃ ecc cap e der derSz oid oidSz, this.ptr = some ecc
        ∧ cap = (P.wc_CreatePKCS8Key false 0 der derSz ECDSAk oid oidSz).outLen
        ∧ e = P.wc_CreatePKCS8Key true cap der derSz ECDSAk oid oidSz
        ∧ (Java_com_wolfssl_wolfcrypt_Ecc_wc_1ecc_1private_1key_1to_1pkcs8 P
            A this).pkcs8.allocated = some cap
        ∧ Trimmed arr e.outLen cap
            (store (List.replicate cap 0) e.written)) :=
  ⟨export_private_sized P A this arr, export_x963_sized P A this arr,
    key_to_der_sized P A this arr, public_key_to_der_sized P A this arr,
    pkcs8_sized P A this arr⟩

/-- Witness for C15: with the sample primitives exportPrivate returns 9, 8,
7, the first 3 bytes of its 4-byte buffer, exportX963 returns all 9 bytes of
its 9-byte buffer, and EccPublicKeyToDer, whose encoder returns 6, returns
all 6 bytes of its 6-byte buffer. -/
theorem export_sizing_witness :
    Trimmed [9, 8, 7] 3 4 [9, 8, 7, 0]
    ∧ Trimmed [4, 1, 2, 3, 4, 5, 6, 7, 8] 9 9 [4, 1, 2, 3, 4, 5, 6, 7, 8]
    ∧ (EccOutPrims.sample.wc_EccPublicKeyToDer () 6 1).ret ≠ 0
    ∧ Trimmed [48, 4, 3, 2, 0, 1] 6 6 [48, 4, 3, 2, 0, 1] := by
  obtain ⟨_, cap, e, _, hcap, he, _, _, h1⟩ :=
    (export_sizing EccOutPrims.sample Allocators.ok ⟨some (), false⟩
      [9, 8, 7]).1 (by decide)
  obtain ⟨_, cap2, e2, _, hcap2, he2, _, _, h2⟩ :=
    (export_sizing EccOutPrims.sample Allocators.ok ⟨some (), false⟩
      [4, 1, 2, 3, 4, 5, 6, 7, 8]).2.1 (by decide)
  obtain ⟨_, cap3, d3, _, hcap3, hd3, _, _, h3⟩ :=
    (export_sizing EccOutPrims.sample Allocators.ok ⟨some (), false⟩
      [48, 4, 3, 2, 0, 1]).2.2.2.1 (by decide)
  subst hcap he hcap2 he2 hcap3 hd3
  exact ⟨h1, h2, by decide, (h3 (by simp [EccOutPrims.sample])).2⟩

/-! ## ECC sharedSecret (C21) -/

/-- C21. The shared-secret primitive is invoked only if the local key, the
peer key and the RNG are all non-null and the output buffer was allocated
with wc_ecc_size(local key) bytes; in a timing-resistant build wc_ecc_set_rng
was invoked before it and returned 0.  When no handle lookup raised and any
of the three inputs is null, BAD_FUNC_ARG is thrown, nothing is allocated, no
primitive is invoked and `NULL` is returned. -/
theorem shared_secret_preconditions {Key Rng : Type} (timingResistant : Bool)
    (P : EccOutPrims Key Rng) (A : Allocators)
    (this pub_object : NativeStruct Key) (rng_object : NativeStruct Rng) :
    (EccOutCall.wc_ecc_shared_secret
        ∈ (Java_com_wolfssl_wolfcrypt_Ecc_wc_1ecc_1shared_1secret
            timingResistant P A this pub_object rng_object).calls →
      ∃ ecc rng pub, this.ptr = some ecc ∧ rng_object.ptr = some rng
        ∧ pub_object.ptr = some pub
        ∧ A.xmalloc (toWord32 (P.wc_ecc_size ecc)) = true
        ∧ (Java_com_wolfssl_wolfcrypt_Ecc_wc_1ecc_1shared_1secret
            timingResistant P A this pub_object rng_object).output.allocated
          = some (toWord32 (P.wc_ecc_size ecc))
        ∧ (timingResistant = true →
            P.wc_ecc_set_rng ecc rng = 0
            ∧ (Java_com_wolfssl_wolfcrypt_Ecc_wc_1ecc_1shared_1secret
                timingResistant P A this pub_object rng_object).calls
              = [EccOutCall.wc_ecc_size, EccOutCall.wc_ecc_set_rng,
                  EccOutCall.wc_ecc_shared_secret]))
    ∧ (this.threw = false → rng_object.threw = false →
        pub_object.threw = false →
        (this.ptr = none ∨ rng_object.ptr = none ∨ pub_object.ptr = none) →
        Java_com_wolfssl_wolfcrypt_Ecc_wc_1ecc_1shared_1secret
          timingResistant P A this pub_object rng_object
        = ⟨none, [JniThrow.fromError BAD_FUNC_ARG], [],
            ⟨none, none, false⟩⟩) := by
  refine ⟨?_, ?_⟩
  · intro hc
    unfold Java_com_wolfssl_wolfcrypt_Ecc_wc_1ecc_1shared_1secret at hc ⊢
    cases ht : this.threw
    · cases hr : rng_object.threw
      · cases hq : pub_object.threw
        · simp only [ht, hr, hq, Bool.false_eq_true, if_false] at hc ⊢
          cases hp : this.ptr with
          | none => simp [hp] at hc
          | some ecc =>
            cases hg : rng_object.ptr with
            | none => simp [hp, hg] at hc
            | some rng =>
              cases hb : pub_object.ptr with
              | none => simp [hp, hg, hb] at hc
              | some pub =>
                simp only [hp, hg, hb] at hc ⊢
                by_cases hx : A.xmalloc (toWord32 (P.wc_ecc_size ecc)) = false
                · rw [if_pos hx] at hc
                  simp at hc
                · rw [if_neg hx] at hc ⊢
                  have hx2 : A.xmalloc (toWord32 (P.wc_ecc_size ecc))
                      = true := by simpa using hx
                  by_cases h1 : (if timingResistant = true
                      then P.wc_ecc_set_rng ecc rng else 0) ≠ 0
                  · rw [if_pos h1] at hc
                    cases timingResistant <;> simp at hc
                  · rw [if_neg h1] at hc ⊢
                    refine ⟨ecc, rng, pub, rfl, rfl, rfl, hx2, ?_, ?_⟩
                    · simp [wipeAndFree]
                    · intro htr
                      subst htr
                      simp only [if_true, ne_eq, not_not] at h1
                      exact ⟨h1, by simp⟩
        · simp [ht, hr, hq] at hc
      · simp [ht, hr] at hc
    · simp [ht] at hc
  · intro ht hr hq hnull
    unfold Java_com_wolfssl_wolfcrypt_Ecc_wc_1ecc_1shared_1secret
    simp only [ht, hr, hq, Bool.false_eq_true, if_false]
    cases hp : this.ptr with
    | none => simp [wipeAndFree]
    | some ecc =>
      cases hg : rng_object.ptr with
      | none => simp [wipeAndFree]
      | some rng =>
        cases hb : pub_object.ptr with
        | none => simp [wipeAndFree]
        | some pub => simp [hp, hg, hb] at hnull

/-- Witness for C21: with the sample primitives in a timing-resistant build
the secret is computed after wc_ecc_size and wc_ecc_set_rng; with a null
peer key the call fails with BAD_FUNC_ARG and allocates nothing. -/
theorem shared_secret_preconditions_witness :
    (∃ ecc rng pub,
        (⟨some (), false⟩ : NativeStruct Unit).ptr = some ecc
        ∧ (⟨some (), false⟩ : NativeStruct Unit).ptr = some rng
        ∧ (⟨some (), false⟩ : NativeStruct Unit).ptr = some pub
        ∧ Allocators.ok.xmalloc
            (toWord32 (EccOutPrims.sample.wc_ecc_size ecc)) = true
        ∧ (Java_com_wolfssl_wolfcrypt_Ecc_wc_1ecc_1shared_1secret true
            EccOutPrims.sample Allocators.ok ⟨some (), false⟩
            ⟨some (), false⟩ ⟨some (), false⟩).output.allocated
          = some (toWord32 (EccOutPrims.sample.wc_ecc_size ecc))
        ∧ (true = true →
            EccOutPrims.sample.wc_ecc_set_rng ecc rng = 0
            ∧ (Java_com_wolfssl_wolfcrypt_Ecc_wc_1ecc_1shared_1secret true
                EccOutPrims.sample Allocators.ok ⟨some (), false⟩
                ⟨some (), false⟩ ⟨some (), false⟩).calls
              = [EccOutCall.wc_ecc_size, EccOutCall.wc_ecc_set_rng,
                  EccOutCall.wc_ecc_shared_secret]))
    ∧ Java_com_wolfssl_wolfcrypt_Ecc_wc_1ecc_1shared_1secret true
        EccOutPrims.sample Allocators.ok ⟨some (), false⟩ ⟨none, false⟩
        ⟨some (), false⟩
      = ⟨none, [JniThrow.fromError BAD_FUNC_ARG], [], ⟨none, none, false⟩⟩ :=
  ⟨(shared_secret_preconditions true EccOutPrims.sample Allocators.ok
      ⟨some (), false⟩ ⟨some (), false⟩ ⟨some (), false⟩).1 (by decide),
    (shared_secret_preconditions true EccOutPrims.sample Allocators.ok
      ⟨some (), false⟩ ⟨none, false⟩ ⟨some (), false⟩).2 rfl rfl rfl
      (Or.inr (Or.inr rfl))⟩

/-! ## The two AES update variants (C28) -/

/-- C28 (the code at the failing input). A 16-byte encryption with offset 0
and outputOffset 16, accepted by both variants (arrays and buffers of 16
input and 32 output bytes): the byte-array variant hands the primitive the
output pointer advanced by 16, the direct-ByteBuffer variant hands it the
start of the output buffer. -/
theorem aes_variants_disagree_on_output_position :
    Java_com_wolfssl_wolfcrypt_Aes_native_1update_1internal__I_3BII_3BI
        AesPrims.lenient ⟨some (), false⟩ AES_ENCRYPTION (zeroArray 16) 0 16
        (zeroArray 32) 16 = ⟨16, [], [⟨true, (), 16, 0, 16⟩]⟩
    ∧ Java_com_wolfssl_wolfcrypt_Aes_native_1update_1internal__ILjava_nio_ByteBuffer_2IILjava_nio_ByteBuffer_2I
        AesPrims.lenient ⟨some (), false⟩ AES_ENCRYPTION (zeroBuffer 16) 0 16
        (zeroBuffer 32) 16 = ⟨16, [], [⟨true, (), 0, 0, 16⟩]⟩ := by
  decide

/-! ## MD5 update and copy (C22, C23, C27) -/

/-- C22 (counterexample). A zero-length MD5 update at offset 5 of a 4-byte
array, with a non-null state and array: BAD_FUNC_ARG is thrown. -/
theorem md5_update_zero_length_rejected_past_end :
    Java_com_wolfssl_wolfcrypt_Md5_native_1update_1internal___3BII
      Md5Prims.sample ⟨some [], false⟩ (arrayOf [1, 2, 3, 4]) 5 0
    = ⟨[JniThrow.fromError BAD_FUNC_ARG], [], some []⟩ := by
  decide

/-- C22 (amended). MD5 byte-array update with len == 0, a non-null state and
a non-null array.  For every offset with 0 <= offset <= array length the
bounds check passes and the hash primitive is invoked once on zero bytes; an
exception is raised only if the primitive reports a non-zero status, the
state is the one the primitive leaves, and it is unchanged with no exception
when the primitive treats the zero-length update as a no-op.  For an offset
outside that range BAD_FUNC_ARG is thrown, the primitive is not invoked and
the state is unchanged. -/
theorem md5_update_zero_length {Md5 : Type} (P : Md5Prims Md5) (md5 : Md5)
    (data : List Byte) (dataSz : Nat) (offset : Int) (hj : isJint offset)
    (hsz : dataSz < 2147483648) :
    (0 ≤ offset → offset ≤ dataSz →
      (Java_com_wolfssl_wolfcrypt_Md5_native_1update_1internal___3BII P
          ⟨some md5, false⟩ ⟨some data, dataSz⟩ offset 0).calls
        = [⟨md5, offset, 0⟩]
      ∧ ((Java_com_wolfssl_wolfcrypt_Md5_native_1update_1internal___3BII P
            ⟨some md5, false⟩ ⟨some data, dataSz⟩ offset 0).thrown = []
          ↔ (P.wc_Md5Update md5 data offset 0).1 = 0)
      ∧ (Java_com_wolfssl_wolfcrypt_Md5_native_1update_1internal___3BII P
          ⟨some md5, false⟩ ⟨some data, dataSz⟩ offset 0).md5
        = some (P.wc_Md5Update md5 data offset 0).2
      ∧ (P.wc_Md5Update md5 data offset 0 = (0, md5) →
          Java_com_wolfssl_wolfcrypt_Md5_native_1update_1internal___3BII P
            ⟨some md5, false⟩ ⟨some data, dataSz⟩ offset 0
          = ⟨[], [⟨md5, offset, 0⟩], some md5⟩))
    ∧ ((offset < 0 ∨ (dataSz : Int) < offset) →
        Java_com_wolfssl_wolfcrypt_Md5_native_1update_1internal___3BII P
          ⟨some md5, false⟩ ⟨some data, dataSz⟩ offset 0
        = ⟨[JniThrow.fromError BAD_FUNC_ARG], [], some md5⟩) := by
  obtain ⟨hj1, hj2⟩ := hj
  have hw0 : toWord32 0 = 0 := by decide
  refine ⟨?_, ?_⟩
  · intro h0 hle
    have hw := toWord32_of_nonneg offset h0 (by omega)
    have hc : ¬ (toWord32 (offset + 0) > dataSz) := by
      rw [Int.add_zero]
      omega
    unfold Java_com_wolfssl_wolfcrypt_Md5_native_1update_1internal___3BII
    simp only [Bool.false_eq_true, if_false, hc, hw0]
    refine ⟨trivial, ?_, trivial, ?_⟩
    · by_cases hr : (P.wc_Md5Update md5 data offset 0).1 = 0
      · simp [hr]
      · simp [hr]
    · intro hnoop
      simp [hnoop]
  · intro hout
    have hc : toWord32 (offset + 0) > dataSz := by
      rw [Int.add_zero]
      rcases hout with h | h
      · have : (toWord32 offset : Int) = offset + 4294967296 := by
          unfold toWord32
          have e : offset % 4294967296 = offset + 4294967296 := by omega
          rw [e]
          exact Int.toNat_of_nonneg (by omega)
        omega
      · have := toWord32_of_nonneg offset (by omega) (by omega)
        omega
    unfold Java_com_wolfssl_wolfcrypt_Md5_native_1update_1internal___3BII
    simp only [Bool.false_eq_true, if_false, hc, if_true]

/-- Witness for C22 (amended): with the sample primitives a zero-length
update at offset 4 of a 4-byte array leaves the state 7, 7 as it was. -/
theorem md5_update_zero_length_witness :
    Java_com_wolfssl_wolfcrypt_Md5_native_1update_1internal___3BII
      Md5Prims.sample ⟨some [7, 7], false⟩ ⟨some [1, 2, 3, 4], 4⟩ 4 0
    = ⟨[], [⟨[7, 7], 4, 0⟩], some [7, 7]⟩ :=
  ((md5_update_zero_length Md5Prims.sample [7, 7] [1, 2, 3, 4] 4 4
    (by decide) (by decide)).1 (by decide) (by decide)).2.2.2 (by decide)

/-- C27 (the code at the failing inputs). MD5 byte-array update on a 4-byte
array with offset = -4 and len = 8: the word32 sum is 4, the check passes,
and the primitive is invoked on 8 bytes starting 4 bytes before the array.
With offset = 8 and len = -4 the check passes as well and the primitive is
invoked with byte count 4294967292 at 8 bytes past the start. -/
theorem md5_update_negative_offset_or_len_accepted :
    Java_com_wolfssl_wolfcrypt_Md5_native_1update_1internal___3BII
        Md5Prims.sample ⟨some [], false⟩ (arrayOf [1, 2, 3, 4]) (-4) 8
      = ⟨[], [⟨[], -4, 8⟩], some [1, 2, 3, 4]⟩
    ∧ (Java_com_wolfssl_wolfcrypt_Md5_native_1update_1internal___3BII
        Md5Prims.sample ⟨some [], false⟩ (arrayOf [1, 2, 3, 4]) 8 (-4)).calls
      = [⟨[], 8, 4294967292⟩]
    ∧ (Java_com_wolfssl_wolfcrypt_Md5_native_1update_1internal___3BII
        Md5Prims.sample ⟨some [], false⟩ (arrayOf [1, 2, 3, 4]) 8 (-4)).thrown
      = [] := by
  decide

/-- C23. MD5 copy hands the copy primitive the argument as source and the
receiver as destination.  For two valid objects (non-null references, both
handle lookups succeeding) the primitive is invoked once with source =
toBeCopied and destination = this, an exception is raised exactly when it
reports a non-zero status, and when it succeeds and does what a copy does
(destination := source, source untouched) the receiver's state equals
toBeCopied's state and toBeCopied's state is unchanged.  If either object
reference is null, BAD_FUNC_ARG is thrown, the primitive is not invoked and
both states are left as they were. -/
theorem md5_copy_clones_argument {Md5 : Type} (P : Md5Prims Md5)
    (thisIsNull toBeCopiedIsNull : Bool) (this toBeCopied : NativeStruct Md5) :
    (∀ d s, thisIsNull = false → toBeCopiedIsNull = false →
      this = ⟨some d, false⟩ → toBeCopied = ⟨some s, false⟩ →
      (Java_com_wolfssl_wolfcrypt_Md5_native_1copy_1internal P thisIsNull
          toBeCopiedIsNull this toBeCopied).calls = [⟨some s, some d⟩]
      ∧ ((Java_com_wolfssl_wolfcrypt_Md5_native_1copy_1internal P thisIsNull
            toBeCopiedIsNull this toBeCopied).thrown = []
          ↔ (P.wc_Md5Copy (some s) (some d)).1 = 0)
      ∧ ((P.wc_Md5Copy (some s) (some d)).1 = 0 →
          (P.wc_Md5Copy (some s) (some d)).2 = (some s, some s) →
          (Java_com_wolfssl_wolfcrypt_Md5_native_1copy_1internal P
              thisIsNull toBeCopiedIsNull this toBeCopied).receiver = some s
          ∧ (Java_com_wolfssl_wolfcrypt_Md5_native_1copy_1internal P
              thisIsNull toBeCopiedIsNull this toBeCopied).argument = some s))
    ∧ ((thisIsNull = true ∨ toBeCopiedIsNull = true) →
        (Java_com_wolfssl_wolfcrypt_Md5_native_1copy_1internal P thisIsNull
          toBeCopiedIsNull this toBeCopied).calls = []
        ∧ (Java_com_wolfssl_wolfcrypt_Md5_native_1copy_1internal P thisIsNull
            toBeCopiedIsNull this toBeCopied).thrown.head?
          = some (JniThrow.fromError BAD_FUNC_ARG)
        ∧ (Java_com_wolfssl_wolfcrypt_Md5_native_1copy_1internal P thisIsNull
            toBeCopiedIsNull this toBeCopied).receiver = this.ptr
        ∧ (Java_com_wolfssl_wolfcrypt_Md5_native_1copy_1internal P thisIsNull
            toBeCopiedIsNull this toBeCopied).argument = toBeCopied.ptr) := by
  refine ⟨?_, ?_⟩
  · intro d s h1 h2 ht hc
    subst h1 h2 ht hc
    unfold Java_com_wolfssl_wolfcrypt_Md5_native_1copy_1internal
    simp only [Bool.false_eq_true, or_self, if_false, List.append_nil,
      ne_eq, not_true_eq_false, List.nil_append]
    refine ⟨trivial, ?_, ?_⟩
    · by_cases hr : (P.wc_Md5Copy (some s) (some d)).1 = 0
      · simp [hr]
      · simp [hr]
    · intro _ hcopy
      simp [hcopy]
  · intro hnull
    have hn : (thisIsNull = true ∨ toBeCopiedIsNull = true) := hnull
    unfold Java_com_wolfssl_wolfcrypt_Md5_native_1copy_1internal
    simp only [hn, if_true]
    cases this.threw <;> simp

/-- Witness for C23: with the sample primitives, copying the state 1, 2 into
a receiver holding 9 leaves both with 1, 2; a null argument reference is
rejected with BAD_FUNC_ARG without a primitive call. -/
theorem md5_copy_clones_argument_witness :
    ((Java_com_wolfssl_wolfcrypt_Md5_native_1copy_1internal Md5Prims.sample
          false false ⟨some [9], false⟩ ⟨some [1, 2], false⟩).receiver
        = some [1, 2]
      ∧ (Java_com_wolfssl_wolfcrypt_Md5_native_1copy_1internal
          Md5Prims.sample false false ⟨some [9], false⟩
          ⟨some [1, 2], false⟩).argument = some [1, 2])
    ∧ (Java_com_wolfssl_wolfcrypt_Md5_native_1copy_1internal Md5Prims.sample
        false true ⟨some [9], false⟩ ⟨none, false⟩).calls = [] :=
  ⟨((md5_copy_clones_argument Md5Prims.sample false false ⟨some [9], false⟩
      ⟨some [1, 2], false⟩).1 [9] [1, 2] rfl rfl rfl rfl).2.2 (by decide)
      (by decide),
    ((md5_copy_clones_argument Md5Prims.sample false true ⟨some [9], false⟩
      ⟨none, false⟩).2 (Or.inr rfl)).1⟩

/-! ## ECDH symmetry (C26) -/

theorem newArrayFrom_store_written (cap : Nat) (w : List Byte)
    (h : w.length ≤ cap) :
    newArrayFrom w.length (store (List.replicate cap 0) w) = w := by
  have hlen : (store (List.replicate cap 0) w).length = cap := by
    rw [store_length, List.length_replicate]
  rw [newArrayFrom_eq_take _ _ (by omega)]
  unfold store
  rw [List.length_replicate, List.take_take, Nat.min_eq_left h,
    List.take_left']
  rfl

theorem specScalarMul_comm {Point : Type} [AddMonoid Point] (a b : Nat)
    (G : Point) :
    specScalarMul a (specScalarMul b G) = specScalarMul b (specScalarMul a G) := by
  unfold specScalarMul
  rw [← mul_nsmul, ← mul_nsmul, Nat.mul_comm]

/-- C26. ECDH symmetry on the key-agreement primitive modelled from the spec.
For two key pairs generated from the private scalars a and b on the same
curve (same generator, same field size), with valid RNG handles and, in a
timing-resistant build, wc_ecc_set_rng succeeding for both parties, the
sharedSecret entry point called on A with B's public key returns exactly what
it returns when called on B with A's public key; when the buffer and the
result array can be allocated and the secret fits the field size, both return
the encoded point a * (b * G). -/
theorem ecdh_symmetry {Point Rng : Type} [AddMonoid Point]
    (timingResistant : Bool) (P : EccOutPrims (SpecEccKey Point) Rng)
    (A : Allocators) (encode : Point → List Byte) (fieldSize : Int)
    (G : Point) (a b : Nat) (rngA rngB : Rng)
    (hrng : timingResistant = true →
      P.wc_ecc_set_rng (specMakeKey G a) rngA = 0
      ∧ P.wc_ecc_set_rng (specMakeKey G b) rngB = 0) :
    (Java_com_wolfssl_wolfcrypt_Ecc_wc_1ecc_1shared_1secret timingResistant
        (specDhPrims P encode fieldSize) A ⟨some (specMakeKey G a), false⟩
        ⟨some (specMakeKey G b).publicOnly, false⟩ ⟨some rngA, false⟩).result
      = (Java_com_wolfssl_wolfcrypt_Ecc_wc_1ecc_1shared_1secret
        timingResistant (specDhPrims P encode fieldSize) A
        ⟨some (specMakeKey G b), false⟩
        ⟨some (specMakeKey G a).publicOnly, false⟩ ⟨some rngB, false⟩).result
    ∧ (A.xmalloc (toWord32 fieldSize) = true →
        (encode (specScalarMul a (specScalarMul b G))).length
          ≤ toWord32 fieldSize →
        A.newByteArray (encode (specScalarMul a (specScalarMul b G))).length
          = true →
        (Java_com_wolfssl_wolfcrypt_Ecc_wc_1ecc_1shared_1secret
          timingResistant (specDhPrims P encode fieldSize) A
          ⟨some (specMakeKey G a), false⟩
          ⟨some (specMakeKey G b).publicOnly, false⟩
          ⟨some rngA, false⟩).result
        = some (encode (specScalarMul a (specScalarMul b G)))) := by
  have hcomm := specScalarMul_comm a b G
  have hA : (if timingResistant = true
      then P.wc_ecc_set_rng (specMakeKey G a) rngA else 0) = 0 := by
    cases htr : timingResistant
    · simp
    · simpa using (hrng htr).1
  have hB : (if timingResistant = true
      then P.wc_ecc_set_rng (specMakeKey G b) rngB else 0) = 0 := by
    cases htr : timingResistant
    · simp
    · simpa using (hrng htr).2
  refine ⟨?_, ?_⟩
  · unfold Java_com_wolfssl_wolfcrypt_Ecc_wc_1ecc_1shared_1secret
    simp only [Bool.false_eq_true, if_false, specDhPrims, hA, hB, ne_eq,
      not_true_eq_false]
    by_cases hx : A.xmalloc (toWord32 fieldSize) = false
    · simp only [hx, if_true]
    · simp only [hx, if_false, specSharedSecret, specMakeKey,
        SpecEccKey.publicOnly, hcomm]
  · intro hx hfit hnew
    unfold Java_com_wolfssl_wolfcrypt_Ecc_wc_1ecc_1shared_1secret
    simp only [Bool.false_eq_true, if_false, specDhPrims, hA, ne_eq,
      not_true_eq_false, hx, Bool.true_eq_false]
    simp only [specSharedSecret, specMakeKey, SpecEccKey.publicOnly, hfit,
      if_true, exportReturn, hnew]
    rw [newArrayFrom_store_written _ _ hfit]

/-- Witness for C26: on the additive monoid of the natural numbers with
generator 1, the parties with private scalars 3 and 5 obtain the same secret,
the encoding of 15. -/
theorem ecdh_symmetry_witness :
    (Java_com_wolfssl_wolfcrypt_Ecc_wc_1ecc_1shared_1secret true
        (specDhPrims EccOutPrims.idle (fun p => [p]) 1) Allocators.ok
        ⟨some (specMakeKey 1 3), false⟩
        ⟨some (specMakeKey 1 5).publicOnly, false⟩ ⟨some (), false⟩).result
      = (Java_com_wolfssl_wolfcrypt_Ecc_wc_1ecc_1shared_1secret true
        (specDhPrims EccOutPrims.idle (fun p => [p]) 1) Allocators.ok
        ⟨some (specMakeKey 1 5), false⟩
        ⟨some (specMakeKey 1 3).publicOnly, false⟩ ⟨some (), false⟩).result
    ∧ (Java_com_wolfssl_wolfcrypt_Ecc_wc_1ecc_1shared_1secret true
        (specDhPrims EccOutPrims.idle (fun p => [p]) 1) Allocators.ok
        ⟨some (specMakeKey 1 3), false⟩
        ⟨some (specMakeKey 1 5).publicOnly, false⟩ ⟨some (), false⟩).result
      = some [15] :=
  ⟨(ecdh_symmetry true EccOutPrims.idle Allocators.ok (fun p => [p]) 1
      (1 : Nat) 3 5 () () (fun _ => ⟨rfl, rfl⟩)).1,
    (ecdh_symmetry true EccOutPrims.idle Allocators.ok (fun p => [p]) 1
      (1 : Nat) 3 5 () () (fun _ => ⟨rfl, rfl⟩)).2 rfl (by decide) rfl⟩

/-! ## AES-CBC round trip (C24) -/

theorem xorBytes_cancel (x k : List Byte) (h : x.length ≤ k.length) :
    xorBytes (xorBytes x k) k = x := by
  induction x generalizing k with
  | nil => simp [xorBytes]
  | cons a x ih =>
    cases k with
    | nil => simp at h
    | cons b k =>
      have h2 : x.length ≤ k.length := by simpa using h
      have := ih k h2
      simp only [xorBytes] at this ⊢
      simp only [List.zipWith_cons_cons, this, Nat.xor_cancel_right]

theorem xorBytes_length (x k : List Byte) :
    (xorBytes x k).length = min x.length k.length := by
  simp [xorBytes]

theorem specCbcEncryptBlocks_length (C : SpecBlockCipher) (hC : C.Invertible)
    (key : List Byte) (hkey : specKeySizeSupported key.length) (n : Nat) :
    ∀ iv data : List Byte, iv.length = 16 → 16 * n ≤ data.length →
      (specCbcEncryptBlocks C key n iv data).1.length = 16 * n := by
  induction n with
  | zero => intro iv data _ _; simp [specCbcEncryptBlocks]
  | succ n ih =>
    intro iv data hiv hd
    have hx : (xorBytes (data.take 16) iv).length = 16 := by
      rw [xorBytes_length, List.length_take]; omega
    have hc := (hC key _ hkey hx).1
    have hrec := ih (C.encryptBlock key (xorBytes (data.take 16) iv))
      (data.drop 16) hc (by rw [List.length_drop]; omega)
    simp only [specCbcEncryptBlocks, List.length_append, hc, hrec]
    omega

theorem specCbc_round_trip (C : SpecBlockCipher) (hC : C.Invertible)
    (key : List Byte) (hkey : specKeySizeSupported key.length) (n : Nat) :
    ∀ iv data rest : List Byte, iv.length = 16 → 16 * n ≤ data.length →
      (specCbcDecryptBlocks C key n iv
        ((specCbcEncryptBlocks C key n iv data).1 ++ rest)).1
        = data.take (16 * n) := by
  induction n with
  | zero => intro iv data rest _ _; simp [specCbcDecryptBlocks]
  | succ n ih =>
    intro iv data rest hiv hd
    have hx : (xorBytes (data.take 16) iv).length = 16 := by
      rw [xorBytes_length, List.length_take]; omega
    have hc := hC key _ hkey hx
    have hrec := ih (C.encryptBlock key (xorBytes (data.take 16) iv))
      (data.drop 16) rest hc.1 (by rw [List.length_drop]; omega)
    have hp : xorBytes (xorBytes (data.take 16) iv) iv = data.take 16 :=
      xorBytes_cancel _ _ (by rw [List.length_take]; omega)
    simp only [specCbcEncryptBlocks, specCbcDecryptBlocks, List.append_assoc]
    rw [List.take_left' hc.1, List.drop_left' hc.1, hc.2, hp, hrec]
    rw [show 16 * (n + 1) = 16 + 16 * n by omega, List.take_add]

theorem toWord32_natCast (n : Nat) (h : n < 4294967296) :
    toWord32 (n : Int) = n := by
  have := toWord32_of_nonneg (n : Int) (by omega) (by omega)
  exact_mod_cast this

theorem storeAt_length (buf : List Byte) (pos : Nat) (w : List Byte) :
    (storeAt buf pos w).length = buf.length := by
  simp only [storeAt, List.length_append, store_length, List.length_take,
    List.length_drop]
  omega

theorem storeAt_drop (buf : List Byte) (pos : Nat) (w : List Byte)
    (h : pos + w.length ≤ buf.length) :
    (storeAt buf pos w).drop pos = w ++ buf.drop (pos + w.length) := by
  have hp : (buf.take pos).length = pos := by
    rw [List.length_take]; omega
  unfold storeAt
  rw [List.drop_left' hp]
  unfold store
  rw [List.drop_drop, List.take_of_length_le, Nat.add_comm]
  simp only [List.length_append, List.length_drop]
  omega

theorem aes_update_data_run {Aes : Type} (P : AesDataPrims Aes) (a : Aes)
    (opmode : Int) (inp outp : List Byte) (off len oo : Nat) (hlen : 0 < len)
    (hin : off + len ≤ inp.length) (hout : oo + len ≤ outp.length)
    (hI : inp.length < 2147483648) (hO : outp.length < 2147483648) :
    Java_com_wolfssl_wolfcrypt_Aes_native_1update_1internal__I_3BII_3BI_data
        P ⟨some a, false⟩ opmode (arrayOf inp) off len (arrayOf outp) oo
      = (if (if opmode = AES_ENCRYPTION then
              P.wc_AesCbcEncrypt a (inp.drop off) len
            else P.wc_AesCbcDecrypt a (inp.drop off) len).1 ≠ 0 then
          { ret := 0,
            thrown := [JniThrow.fromError
              (if opmode = AES_ENCRYPTION then
                P.wc_AesCbcEncrypt a (inp.drop off) len
              else P.wc_AesCbcDecrypt a (inp.drop off) len).1],
            aes := some (if opmode = AES_ENCRYPTION then
                P.wc_AesCbcEncrypt a (inp.drop off) len
              else P.wc_AesCbcDecrypt a (inp.drop off) len).2.1,
            output := none }
        else
          { ret := len, thrown := [],
            aes := some (if opmode = AES_ENCRYPTION then
                P.wc_AesCbcEncrypt a (inp.drop off) len
              else P.wc_AesCbcDecrypt a (inp.drop off) len).2.1,
            output := some (storeAt outp oo
              (if opmode = AES_ENCRYPTION then
                P.wc_AesCbcEncrypt a (inp.drop off) len
              else P.wc_AesCbcDecrypt a (inp.drop off) len).2.2) }) := by
  have h1 : ¬ ((off : Int) < 0 ∨ (len : Int) < 0 ∨ (oo : Int) < 0) := by omega
  have h2 : ¬ ((len : Int) = 0) := by omega
  have h3 : toWord32 ((off : Int) + (len : Int)) = off + len := by
    have := toWord32_natCast (off + len) (by omega)
    rwa [Nat.cast_add] at this
  have h4 : toWord32 ((oo : Int) + (len : Int)) = oo + len := by
    have := toWord32_natCast (oo + len) (by omega)
    rwa [Nat.cast_add] at this
  have h5 : toWord32 (len : Int) = len := toWord32_natCast len (by omega)
  have h6 : ¬ (off + len > inp.length) := by omega
  have h7 : ¬ (oo + len > outp.length) := by omega
  unfold Java_com_wolfssl_wolfcrypt_Aes_native_1update_1internal__I_3BII_3BI_data
    aesBytesData arrayOf
  simp only [Bool.false_eq_true, if_false, if_neg h1, if_neg h2, h3, h4, h5,
    if_neg h6, if_neg h7, Int.toNat_ofNat]
  generalize (if opmode = AES_ENCRYPTION then
      P.wc_AesCbcEncrypt a (inp.drop off) len
    else P.wc_AesCbcDecrypt a (inp.drop off) len) = r
  by_cases hr : r.1 = 0
  · simp [hr]
  · simp [hr]

theorem aes_update_data_agrees {Aes : Type} (P : AesDataPrims Aes)
    (this : NativeStruct Aes) (opmode : Int) (input : JByteArray)
    (offset length : Int) (output : JByteArray) (outputOffset : Int) :
    (Java_com_wolfssl_wolfcrypt_Aes_native_1update_1internal__I_3BII_3BI_data
        P this opmode input offset length output outputOffset).ret
      = (Java_com_wolfssl_wolfcrypt_Aes_native_1update_1internal__I_3BII_3BI
        (P.status input) this opmode input offset length output
        outputOffset).ret
    ∧ (Java_com_wolfssl_wolfcrypt_Aes_native_1update_1internal__I_3BII_3BI_data
        P this opmode input offset length output outputOffset).thrown
      = (Java_com_wolfssl_wolfcrypt_Aes_native_1update_1internal__I_3BII_3BI
        (P.status input) this opmode input offset length output
        outputOffset).thrown := by
  unfold Java_com_wolfssl_wolfcrypt_Aes_native_1update_1internal__I_3BII_3BI_data
    Java_com_wolfssl_wolfcrypt_Aes_native_1update_1internal__I_3BII_3BI
    aesFinish aesBytesData aesBytesStatus AesDataPrims.status
  cases this.threw
  · cases this.ptr <;> cases hi : input.elements <;> cases output.elements <;>
      simp only [Bool.false_eq_true, if_false, Option.getD_some] <;>
      (repeat' split) <;> exact ⟨rfl, rfl⟩
  · simp

theorem aes_update_data_zero {Aes : Type} (P : AesDataPrims Aes) (a : Aes)
    (opmode : Int) (inp outp : List Byte) (off oo : Nat) :
    Java_com_wolfssl_wolfcrypt_Aes_native_1update_1internal__I_3BII_3BI_data
        P ⟨some a, false⟩ opmode (arrayOf inp) off 0 (arrayOf outp) oo
      = { ret := 0, thrown := [], aes := some a, output := some outp } := by
  have h1 : ¬ ((off : Int) < 0 ∨ (0 : Int) < 0 ∨ (oo : Int) < 0) := by omega
  unfold Java_com_wolfssl_wolfcrypt_Aes_native_1update_1internal__I_3BII_3BI_data
    aesBytesData arrayOf
  simp only [Bool.false_eq_true, if_false, if_neg h1, if_true, ne_eq,
    not_true_eq_false]

theorem set_key_installs (C : SpecBlockCipher) (ctx : SpecAesCtx)
    (key iv : List Byte) (hkey : specKeySizeSupported key.length)
    (hiv : iv.length = 16) (opmode : Int) :
    Java_com_wolfssl_wolfcrypt_Aes_native_1set_1key_1internal (specAesPrims C)
        ⟨some ctx, false⟩ (arrayOf key) (arrayOf iv) opmode
      = { thrown := [], aes := some ⟨key, iv⟩ } := by
  have hk : key.take key.length = key := List.take_length _
  have hv : iv.take 16 = iv := by rw [← hiv]; exact List.take_length _
  unfold Java_com_wolfssl_wolfcrypt_Aes_native_1set_1key_1internal
    specAesPrims specAesSetKey arrayOf
  simp only [Bool.false_eq_true, if_false, if_pos hkey, hk, hv, ne_eq,
    not_true_eq_false]

/-- C24. AES-CBC round trip through the binding, on the CBC engine modelled
from the spec.  Two contexts are keyed through `native_set_key_internal` with
the same supported key and the same 16-byte IV, one for encryption and one for
decryption.  The `byte[]` update in encrypt mode is run on a plaintext `P`
whose length is a multiple of 16, lying at any offset of its input array, and
the `byte[]` update in decrypt mode is run on the region of the output array
the first call stored into.  No call raises an exception, both updates return
the length of `P`, and the region of the second output array the second call
stored into holds `P`.  The block cipher under the engine is any cipher whose
decryption undoes its encryption on 16-byte blocks. -/
theorem aes_cbc_round_trip (C : SpecBlockCipher) (hC : C.Invertible)
    (ctxE ctxD : SpecAesCtx) (key iv : List Byte)
    (hkey : specKeySizeSupported key.length) (hiv : iv.length = 16)
    (pre P post out1 out2 : List Byte) (o1 o2 : Nat)
    (hP : P.length % 16 = 0)
    (hin : (pre ++ P ++ post).length < 2147483648)
    (h1 : o1 + P.length ≤ out1.length) (hout1 : out1.length < 2147483648)
    (h2 : o2 + P.length ≤ out2.length) (hout2 : out2.length < 2147483648) :
    let keyedE := Java_com_wolfssl_wolfcrypt_Aes_native_1set_1key_1internal
      (specAesPrims C) ⟨some ctxE, false⟩ (arrayOf key) (arrayOf iv)
      AES_ENCRYPTION
    let keyedD := Java_com_wolfssl_wolfcrypt_Aes_native_1set_1key_1internal
      (specAesPrims C) ⟨some ctxD, false⟩ (arrayOf key) (arrayOf iv)
      AES_DECRYPTION
    let enc :=
      Java_com_wolfssl_wolfcrypt_Aes_native_1update_1internal__I_3BII_3BI_data
        (specAesPrims C) ⟨keyedE.aes, false⟩ AES_ENCRYPTION
        (arrayOf (pre ++ P ++ post)) pre.length P.length (arrayOf out1) o1
    let dec :=
      Java_com_wolfssl_wolfcrypt_Aes_native_1update_1internal__I_3BII_3BI_data
        (specAesPrims C) ⟨keyedD.aes, false⟩ AES_DECRYPTION
        (arrayOf (enc.output.getD [])) o1 P.length (arrayOf out2) o2
    keyedE.thrown = [] ∧ keyedD.thrown = [] ∧
      enc.thrown = [] ∧ enc.ret = P.length ∧
      dec.thrown = [] ∧ dec.ret = P.length ∧
      dec.output.map (fun o => (o.drop o2).take P.length) = some P := by
  intro keyedE keyedD enc dec
  have hE : keyedE = { thrown := [], aes := some ⟨key, iv⟩ } :=
    set_key_installs C ctxE key iv hkey hiv AES_ENCRYPTION
  have hD : keyedD = { thrown := [], aes := some ⟨key, iv⟩ } :=
    set_key_installs C ctxD key iv hkey hiv AES_DECRYPTION
  have hmode : ¬ (AES_DECRYPTION = AES_ENCRYPTION) := by decide
  have hlenin : (pre ++ P ++ post).length
      = pre.length + P.length + post.length := by
    simp only [List.length_append]
  by_cases hz : P.length = 0
  · have hPnil : P = [] := List.length_eq_zero.mp hz
    have henc : enc =
        { ret := 0, thrown := [], aes := some ⟨key, iv⟩,
          output := some out1 } := by
      show Java_com_wolfssl_wolfcrypt_Aes_native_1update_1internal__I_3BII_3BI_data
        (specAesPrims C) ⟨keyedE.aes, false⟩ AES_ENCRYPTION
        (arrayOf (pre ++ P ++ post)) pre.length P.length (arrayOf out1) o1 = _
      rw [hE, hz]
      exact aes_update_data_zero _ _ _ _ _ _ _
    have hdec : dec =
        { ret := 0, thrown := [], aes := some ⟨key, iv⟩,
          output := some out2 } := by
      show Java_com_wolfssl_wolfcrypt_Aes_native_1update_1internal__I_3BII_3BI_data
        (specAesPrims C) ⟨keyedD.aes, false⟩ AES_DECRYPTION
        (arrayOf (enc.output.getD [])) o1 P.length (arrayOf out2) o2 = _
      rw [hD, hz]
      exact aes_update_data_zero _ _ _ _ _ _ _
    rw [hE, hD, henc, hdec, hz, hPnil]
    simp
  · have hpos : 0 < P.length := Nat.pos_of_ne_zero hz
    have hnot : ¬ (P.length % 16 ≠ 0) := by omega
    have hblocks : 16 * (P.length / 16) = P.length := by omega
    have hdrop : (pre ++ P ++ post).drop pre.length = P ++ post := by
      rw [List.append_assoc, List.drop_left]
    have hfit : 16 * (P.length / 16) ≤ (P ++ post).length := by
      rw [List.length_append]; omega
    have hw := specCbcEncryptBlocks_length C hC key hkey (P.length / 16) iv
      (P ++ post) hiv hfit
    rw [hblocks] at hw
    have henc : enc =
        { ret := P.length, thrown := [],
          aes := some ⟨key, (specCbcEncryptBlocks C key (P.length / 16) iv
            (P ++ post)).2⟩,
          output := some (storeAt out1 o1
            (specCbcEncryptBlocks C key (P.length / 16) iv
              (P ++ post)).1) } := by
      show Java_com_wolfssl_wolfcrypt_Aes_native_1update_1internal__I_3BII_3BI_data
        (specAesPrims C) ⟨keyedE.aes, false⟩ AES_ENCRYPTION
        (arrayOf (pre ++ P ++ post)) pre.length P.length (arrayOf out1) o1 = _
      rw [hE, aes_update_data_run _ _ _ _ _ _ _ _ hpos (by omega) h1 hin hout1]
      simp only [if_true, specAesPrims, specAesCbcEncrypt, if_neg hnot, hdrop,
        ne_eq, not_true_eq_false, if_false]
    have hround := specCbc_round_trip C hC key hkey (P.length / 16) iv
      (P ++ post) (out1.drop (o1 + P.length)) hiv hfit
    rw [hblocks, List.take_left] at hround
    have hdec : dec =
        { ret := P.length, thrown := [],
          aes := some ⟨key, (specCbcDecryptBlocks C key (P.length / 16) iv
            ((specCbcEncryptBlocks C key (P.length / 16) iv (P ++ post)).1
              ++ out1.drop (o1 + P.length))).2⟩,
          output := some (storeAt out2 o2 P) } := by
      show Java_com_wolfssl_wolfcrypt_Aes_native_1update_1internal__I_3BII_3BI_data
        (specAesPrims C) ⟨keyedD.aes, false⟩ AES_DECRYPTION
        (arrayOf (enc.output.getD [])) o1 P.length (arrayOf out2) o2 = _
      rw [hD, henc]
      simp only [Option.getD_some]
      rw [aes_update_data_run _ _ _ _ _ _ _ _ hpos
        (by rw [storeAt_length]; exact h1) h2
        (by rw [storeAt_length]; exact hout1) hout2]
      rw [storeAt_drop _ _ _ (by rw [hw]; exact h1), hw]
      simp only [if_neg hmode, specAesPrims, specAesCbcDecrypt, if_neg hnot,
        ne_eq, not_true_eq_false, if_false, hround]
    rw [hE, hD, henc, hdec]
    refine ⟨rfl, rfl, rfl, rfl, rfl, rfl, ?_⟩
    simp only [Option.map_some']
    rw [storeAt_drop _ _ _ h2, List.take_left]

theorem keyXor_invertible : SpecBlockCipher.keyXor.Invertible := by
  intro key x hkey hx
  have hk : x.length ≤ key.length := by
    unfold specKeySizeSupported at hkey
    omega
  constructor
  · show (xorBytes x key).length = 16
    rw [xorBytes_length]; omega
  · exact xorBytes_cancel x key hk

theorem aes_cbc_round_trip_witness :
    SpecBlockCipher.keyXor.Invertible ∧
      (Java_com_wolfssl_wolfcrypt_Aes_native_1update_1internal__I_3BII_3BI_data
        (specAesPrims SpecBlockCipher.keyXor)
        ⟨(Java_com_wolfssl_wolfcrypt_Aes_native_1set_1key_1internal
          (specAesPrims SpecBlockCipher.keyXor) ⟨some ⟨[], []⟩, false⟩
          (arrayOf sampleAesKey) (arrayOf sampleAesIv) AES_DECRYPTION).aes,
          false⟩
        AES_DECRYPTION
        (arrayOf
          ((Java_com_wolfssl_wolfcrypt_Aes_native_1update_1internal__I_3BII_3BI_data
            (specAesPrims SpecBlockCipher.keyXor)
            ⟨(Java_com_wolfssl_wolfcrypt_Aes_native_1set_1key_1internal
              (specAesPrims SpecBlockCipher.keyXor) ⟨some ⟨[], []⟩, false⟩
              (arrayOf sampleAesKey) (arrayOf sampleAesIv) AES_ENCRYPTION).aes,
              false⟩
            AES_ENCRYPTION (arrayOf ([9] ++ samplePlain ++ [7]))
            ([9] : List Byte).length samplePlain.length
            (arrayOf (List.replicate 40 0)) (2 : Nat)).output.getD []))
        (2 : Nat) samplePlain.length (arrayOf (List.replicate 40 0))
        (1 : Nat)).output.map
          (fun o => (o.drop 1).take samplePlain.length) = some samplePlain :=
  ⟨keyXor_invertible,
    (aes_cbc_round_trip SpecBlockCipher.keyXor keyXor_invertible ⟨[], []⟩
      ⟨[], []⟩ sampleAesKey sampleAesIv (by decide) (by decide) [9]
      samplePlain [7] (List.replicate 40 0) (List.replicate 40 0) 2 1
      (by decide) (by decide) (by decide) (by decide) (by decide)
      (by decide)).2.2.2.2.2.2⟩

end WolfJni
